import Mathlib

/-! # Exported proxy functions of `proxies.cpp`

`proxies.cpp` consists of a handful of preprocessor macros (`_EXPAND_PARAM*`,
`_EXPAND_ARG*`, `PROXY_OVERLOAD`, `PROXY`) and a table of about five hundred
invocations of them.  Each invocation expands to one `extern "C"` function that
forwards its arguments to a method of the subject.

The embedding works on preprocessing tokens.  A function-like macro is a
function from the token sequence written between the parentheses of its
invocation to the token sequence of its replacement:

* the invocation is cut into arguments at the commas that are not nested in
  parentheses (`macroArgs`);
* `__VA_ARGS__` is the variable arguments with their separating commas;
* `##` joins the spelling of the two tokens next to it (`paste`);
* `__VA_OPT__ (x)` is `x` when `__VA_ARGS__` holds a token and nothing otherwise.

Arguments are taken not to contain macro names themselves, so that the full
expansion of an argument is the argument.  `SDK_EXPORT` and `__CDECL` come from
`sdk.hpp`; they are kept as the tokens they are written as.

Generation is the build of the expanded file.  Of the C++ translator the
embedding keeps what can be read off the text of a generated function alone
(`FunctionDefinition.accepted`) and the rule that a name with C language
linkage is defined once (`generate`); the interfaces of `sdk.hpp` are not part
of it.
-/

namespace Proxies

/-! ## Tokens and macro arguments -/

/-- A preprocessing token, by its spelling. -/
abbrev Tok := String

/-- One macro argument: a (possibly empty) token sequence. -/
abbrev Arg := List Tok

/-- Parenthesis nesting after reading the token `t` at nesting `d`. -/
def depthStep (d : Nat) (t : Tok) : Nat :=
  if t = "(" then d + 1 else if t = ")" then d - 1 else d

/-- Cutting an invocation into arguments: `d` is the parenthesis nesting, `cur`
the argument collected so far.  Only a comma outside every parenthesis separates
two arguments; `<` and `>` are not brackets for the preprocessor. -/
def macroArgsAux : Nat → Arg → List Tok → List Arg
  | _, cur, [] => [cur]
  | d, cur, t :: ts =>
    if t = "," ∧ d = 0 then cur :: macroArgsAux 0 [] ts
    else macroArgsAux (depthStep d t) (cur ++ [t]) ts

/-- The arguments of a macro invocation whose parentheses enclose `ts`.
An invocation with nothing between the parentheses has one empty argument. -/
def macroArgs (ts : List Tok) : List Arg := macroArgsAux 0 [] ts

/-- The arguments `as` written out with their separating commas. -/
def joinArgs : List Arg → List Tok
  | [] => []
  | [a] => a
  | a :: b :: rest => a ++ "," :: joinArgs (b :: rest)

/-- The `i`-th named parameter of a macro, bound to the `i`-th argument. -/
def macroParam (args : List Arg) (i : Nat) : Arg := args.getD i []

/-- The token sequence `__VA_ARGS__` of a macro with `named` named parameters:
the remaining arguments, commas included. -/
def __VA_ARGS__ (named : Nat) (args : List Arg) : List Tok :=
  joinArgs (args.drop named)

/-- The replacement of `__VA_OPT__ (content)`: `content` when the variable
argument has at least one token, nothing otherwise. -/
def __VA_OPT__ (va : List Tok) (content : Option (List Tok)) : Option (List Tok) :=
  if va = [] then some [] else content

/-- The operator `##` between two substituted token sequences: the last token
of the left one and the first token of the right one become a single token; an
empty side is a placemarker and leaves the other side as it is. -/
def paste (l r : List Tok) : List Tok :=
  match l.getLast?, r with
  | none, _ => r
  | some _, [] => l
  | some x, y :: ys => l.dropLast ++ (x ++ y) :: ys

/-! ## The arity expander: formal parameters -/

/-- The macro `_EXPAND_PARAM1(type, ...)`, whose replacement is `type _1`. -/
def _EXPAND_PARAM1 (inv : List Tok) : List Tok :=
  let args := macroArgs inv
  macroParam args 0 ++ ["_1"]

/-- The macro `_EXPAND_PARAM2(type, ...)`, whose replacement is `type _2, _EXPAND_PARAM1(__VA_ARGS__)`. -/
def _EXPAND_PARAM2 (inv : List Tok) : List Tok :=
  let args := macroArgs inv
  macroParam args 0 ++ ["_2", ","] ++ _EXPAND_PARAM1 (__VA_ARGS__ 1 args)

/-- The macro `_EXPAND_PARAM3(type, ...)`, whose replacement is `type _3, _EXPAND_PARAM2(__VA_ARGS__)`. -/
def _EXPAND_PARAM3 (inv : List Tok) : List Tok :=
  let args := macroArgs inv
  macroParam args 0 ++ ["_3", ","] ++ _EXPAND_PARAM2 (__VA_ARGS__ 1 args)

/-- The macro `_EXPAND_PARAM4(type, ...)`, whose replacement is `type _4, _EXPAND_PARAM3(__VA_ARGS__)`. -/
def _EXPAND_PARAM4 (inv : List Tok) : List Tok :=
  let args := macroArgs inv
  macroParam args 0 ++ ["_4", ","] ++ _EXPAND_PARAM3 (__VA_ARGS__ 1 args)

/-- The macro `_EXPAND_PARAM5(type, ...)`, whose replacement is `type _5, _EXPAND_PARAM4(__VA_ARGS__)`. -/
def _EXPAND_PARAM5 (inv : List Tok) : List Tok :=
  let args := macroArgs inv
  macroParam args 0 ++ ["_5", ","] ++ _EXPAND_PARAM4 (__VA_ARGS__ 1 args)

/-- The macro `_EXPAND_PARAM6(type, ...)`, whose replacement is `type _6, _EXPAND_PARAM5(__VA_ARGS__)`. -/
def _EXPAND_PARAM6 (inv : List Tok) : List Tok :=
  let args := macroArgs inv
  macroParam args 0 ++ ["_6", ","] ++ _EXPAND_PARAM5 (__VA_ARGS__ 1 args)

/-- The macro `_EXPAND_PARAM7(type, ...)`, whose replacement is `type _7, _EXPAND_PARAM6(__VA_ARGS__)`. -/
def _EXPAND_PARAM7 (inv : List Tok) : List Tok :=
  let args := macroArgs inv
  macroParam args 0 ++ ["_7", ","] ++ _EXPAND_PARAM6 (__VA_ARGS__ 1 args)

/-- The macro `_EXPAND_PARAM8(type, ...)`, whose replacement is `type _8, _EXPAND_PARAM7(__VA_ARGS__)`. -/
def _EXPAND_PARAM8 (inv : List Tok) : List Tok :=
  let args := macroArgs inv
  macroParam args 0 ++ ["_8", ","] ++ _EXPAND_PARAM7 (__VA_ARGS__ 1 args)

/-- The macro `_EXPAND_PARAM9(type, ...)`, whose replacement is `type _9, _EXPAND_PARAM8(__VA_ARGS__)`. -/
def _EXPAND_PARAM9 (inv : List Tok) : List Tok :=
  let args := macroArgs inv
  macroParam args 0 ++ ["_9", ","] ++ _EXPAND_PARAM8 (__VA_ARGS__ 1 args)

/-- The macro `_EXPAND_PARAM10(type, ...)`, whose replacement is `type _10, _EXPAND_PARAM9(__VA_ARGS__)`. -/
def _EXPAND_PARAM10 (inv : List Tok) : List Tok :=
  let args := macroArgs inv
  macroParam args 0 ++ ["_10", ","] ++ _EXPAND_PARAM9 (__VA_ARGS__ 1 args)

/-- The markers `10,9,8,7,6,5,4,3,2,1,0` that `_EXPAND_PARAM` and `_EXPAND_ARG`
append to their arguments, with the comma that precedes them. -/
def padding : List Tok :=
  [",", "10", ",", "9", ",", "8", ",", "7", ",", "6", ",", "5", ",", "4", ",", "3",
   ",", "2", ",", "1", ",", "0"]

/-- The counting step `_EXPAND_PARAM_N(_1, ..., _10, n, ...)`: its replacement
is `_EXPAND_PARAM ## n`, `n` being the eleventh argument.  An invocation with
fewer than eleven arguments is rejected by the preprocessor. -/
def _EXPAND_PARAM_N (inv : List Tok) : Option (List Tok) :=
  let args := macroArgs inv
  if args.length < 11 then none
  else some (paste ["_EXPAND_PARAM"] (macroParam args 10))

/-- The tokens `name ( inv )` after rescanning: when `name` is one of the ten
macros `_EXPAND_PARAM1` .. `_EXPAND_PARAM10` it is invoked on `inv`; any other
name is no macro that can be replaced here and the tokens stay as they are. -/
def invokeParam (name inv : List Tok) : List Tok :=
  if name = ["_EXPAND_PARAM1"] then _EXPAND_PARAM1 inv
  else if name = ["_EXPAND_PARAM2"] then _EXPAND_PARAM2 inv
  else if name = ["_EXPAND_PARAM3"] then _EXPAND_PARAM3 inv
  else if name = ["_EXPAND_PARAM4"] then _EXPAND_PARAM4 inv
  else if name = ["_EXPAND_PARAM5"] then _EXPAND_PARAM5 inv
  else if name = ["_EXPAND_PARAM6"] then _EXPAND_PARAM6 inv
  else if name = ["_EXPAND_PARAM7"] then _EXPAND_PARAM7 inv
  else if name = ["_EXPAND_PARAM8"] then _EXPAND_PARAM8 inv
  else if name = ["_EXPAND_PARAM9"] then _EXPAND_PARAM9 inv
  else if name = ["_EXPAND_PARAM10"] then _EXPAND_PARAM10 inv
  else name ++ ["("] ++ inv ++ [")"]

/-- The macro `_EXPAND_PARAM(...)`:
`_EXPAND_PARAM_N(__VA_ARGS__,10,9,8,7,6,5,4,3,2,1,0)(__VA_ARGS__)`. -/
def _EXPAND_PARAM (inv : List Tok) : Option (List Tok) :=
  let va := __VA_ARGS__ 0 (macroArgs inv)
  (_EXPAND_PARAM_N (va ++ padding)).map fun name => invokeParam name va

/-! ## The arity expander: actual arguments -/

/-- The macro `_EXPAND_ARG1(type, ...)`, whose replacement is `_1`. -/
def _EXPAND_ARG1 (_inv : List Tok) : List Tok :=
  ["_1"]

/-- The macro `_EXPAND_ARG2(type, ...)`, whose replacement is `_2, _EXPAND_ARG1(__VA_ARGS__)`. -/
def _EXPAND_ARG2 (inv : List Tok) : List Tok :=
  let args := macroArgs inv
  ["_2", ","] ++ _EXPAND_ARG1 (__VA_ARGS__ 1 args)

/-- The macro `_EXPAND_ARG3(type, ...)`, whose replacement is `_3, _EXPAND_ARG2(__VA_ARGS__)`. -/
def _EXPAND_ARG3 (inv : List Tok) : List Tok :=
  let args := macroArgs inv
  ["_3", ","] ++ _EXPAND_ARG2 (__VA_ARGS__ 1 args)

/-- The macro `_EXPAND_ARG4(type, ...)`, whose replacement is `_4, _EXPAND_ARG3(__VA_ARGS__)`. -/
def _EXPAND_ARG4 (inv : List Tok) : List Tok :=
  let args := macroArgs inv
  ["_4", ","] ++ _EXPAND_ARG3 (__VA_ARGS__ 1 args)

/-- The macro `_EXPAND_ARG5(type, ...)`, whose replacement is `_5, _EXPAND_ARG4(__VA_ARGS__)`. -/
def _EXPAND_ARG5 (inv : List Tok) : List Tok :=
  let args := macroArgs inv
  ["_5", ","] ++ _EXPAND_ARG4 (__VA_ARGS__ 1 args)

/-- The macro `_EXPAND_ARG6(type, ...)`, whose replacement is `_6, _EXPAND_ARG5(__VA_ARGS__)`. -/
def _EXPAND_ARG6 (inv : List Tok) : List Tok :=
  let args := macroArgs inv
  ["_6", ","] ++ _EXPAND_ARG5 (__VA_ARGS__ 1 args)

/-- The macro `_EXPAND_ARG7(type, ...)`, whose replacement is `_7, _EXPAND_ARG6(__VA_ARGS__)`. -/
def _EXPAND_ARG7 (inv : List Tok) : List Tok :=
  let args := macroArgs inv
  ["_7", ","] ++ _EXPAND_ARG6 (__VA_ARGS__ 1 args)

/-- The macro `_EXPAND_ARG8(type, ...)`, whose replacement is `_8, _EXPAND_ARG7(__VA_ARGS__)`. -/
def _EXPAND_ARG8 (inv : List Tok) : List Tok :=
  let args := macroArgs inv
  ["_8", ","] ++ _EXPAND_ARG7 (__VA_ARGS__ 1 args)

/-- The macro `_EXPAND_ARG9(type, ...)`, whose replacement is `_9, _EXPAND_ARG8(__VA_ARGS__)`. -/
def _EXPAND_ARG9 (inv : List Tok) : List Tok :=
  let args := macroArgs inv
  ["_9", ","] ++ _EXPAND_ARG8 (__VA_ARGS__ 1 args)

/-- The macro `_EXPAND_ARG10(type, ...)`, whose replacement is `_10, _EXPAND_ARG9(__VA_ARGS__)`. -/
def _EXPAND_ARG10 (inv : List Tok) : List Tok :=
  let args := macroArgs inv
  ["_10", ","] ++ _EXPAND_ARG9 (__VA_ARGS__ 1 args)

/-- The counting step `_EXPAND_ARG_N(_1, ..., _10, n, ...)`: `_EXPAND_ARG ## n`. -/
def _EXPAND_ARG_N (inv : List Tok) : Option (List Tok) :=
  let args := macroArgs inv
  if args.length < 11 then none
  else some (paste ["_EXPAND_ARG"] (macroParam args 10))

/-- The tokens `name ( inv )` after rescanning, for the macros
`_EXPAND_ARG1` .. `_EXPAND_ARG10`. -/
def invokeArg (name inv : List Tok) : List Tok :=
  if name = ["_EXPAND_ARG1"] then _EXPAND_ARG1 inv
  else if name = ["_EXPAND_ARG2"] then _EXPAND_ARG2 inv
  else if name = ["_EXPAND_ARG3"] then _EXPAND_ARG3 inv
  else if name = ["_EXPAND_ARG4"] then _EXPAND_ARG4 inv
  else if name = ["_EXPAND_ARG5"] then _EXPAND_ARG5 inv
  else if name = ["_EXPAND_ARG6"] then _EXPAND_ARG6 inv
  else if name = ["_EXPAND_ARG7"] then _EXPAND_ARG7 inv
  else if name = ["_EXPAND_ARG8"] then _EXPAND_ARG8 inv
  else if name = ["_EXPAND_ARG9"] then _EXPAND_ARG9 inv
  else if name = ["_EXPAND_ARG10"] then _EXPAND_ARG10 inv
  else name ++ ["("] ++ inv ++ [")"]

/-- The macro `_EXPAND_ARG(...)`:
`_EXPAND_ARG_N(__VA_ARGS__,10,9,8,7,6,5,4,3,2,1,0)(__VA_ARGS__)`. -/
def _EXPAND_ARG (inv : List Tok) : Option (List Tok) :=
  let va := __VA_ARGS__ 0 (macroArgs inv)
  (_EXPAND_ARG_N (va ++ padding)).map fun name => invokeArg name va

/-! ## The trampoline synthesizer -/

/-- The name `type_subject##_##method##overload` of a generated function. -/
def symbol (type_subject method overload : Arg) : List Tok :=
  paste (paste (paste type_subject ["_"]) method) overload

/-- The function definition that one expansion of `PROXY_OVERLOAD` writes, by
the places of its replacement list that depend on the arguments.  It is the
text handed to the C++ translator; what the translator requires of it is
`FunctionDefinition.accepted`. -/
structure FunctionDefinition where
  /-- the tokens substituted for `type_return` -/
  returnType : List Tok
  /-- the tokens of `type_subject##_##method##overload` -/
  name : List Tok
  /-- the tokens between the parentheses of the declarator -/
  params : List Tok
  /-- the tokens substituted for `method` in the body -/
  callee : List Tok
  /-- the tokens between the parentheses of the forwarded call -/
  args : List Tok
deriving DecidableEq, Repr

/-- The whole replacement list of `PROXY_OVERLOAD`, token by token. -/
def FunctionDefinition.tokens (f : FunctionDefinition) : List Tok :=
  [";", "extern", "\"C\"", "SDK_EXPORT"] ++ f.returnType ++ ["__CDECL"] ++ f.name
    ++ ["("] ++ f.params ++ [")"]
    ++ ["\x7b", "return", "subject", "->"] ++ f.callee ++ ["("] ++ f.args ++ [")", ";", "\x7d"]

/-- The macro `PROXY_OVERLOAD(type_subject, type_return, method, overload, ...)`.
An invocation with fewer than four arguments is rejected by the preprocessor. -/
def PROXY_OVERLOAD (inv : List Tok) : Option FunctionDefinition :=
  let args := macroArgs inv
  if args.length < 4 then none
  else
    let type_subject := macroParam args 0
    let type_return := macroParam args 1
    let method := macroParam args 2
    let overload := macroParam args 3
    let va := __VA_ARGS__ 4 args
    (__VA_OPT__ va ((_EXPAND_PARAM va).map fun ps => "," :: ps)).bind fun formal =>
    (__VA_OPT__ va (_EXPAND_ARG va)).map fun actual =>
      { returnType := type_return
        name := symbol type_subject method overload
        params := type_subject ++ ["*", "subject"] ++ formal
        callee := method
        args := actual }

/-- The macro `PROXY(type_subject, type_return, method, ...)`, whose replacement
is `PROXY_OVERLOAD(type_subject, type_return, method,, __VA_ARGS__)`. -/
def PROXY (inv : List Tok) : Option FunctionDefinition :=
  let args := macroArgs inv
  if args.length < 3 then none
  else
    let type_subject := macroParam args 0
    let type_return := macroParam args 1
    let method := macroParam args 2
    let va := __VA_ARGS__ 3 args
    PROXY_OVERLOAD (type_subject ++ [","] ++ type_return ++ [","] ++ method ++ [",", ","] ++ va)


/-! ## The declaration table -/

/-- One line of the declaration table: an invocation of `PROXY` or of
`PROXY_OVERLOAD`, with the tokens written between its parentheses. -/
inductive Declaration where
  | proxy (inv : List Tok)
  | overload (inv : List Tok)
deriving DecidableEq, Repr

/-- The function definition that a line of the table expands to; `none` when
the preprocessor rejects the invocation. -/
def Declaration.expand : Declaration → Option FunctionDefinition
  | .proxy inv => PROXY inv
  | .overload inv => PROXY_OVERLOAD inv

/-- The subject type, the method name and the overload tag of a line: the
arguments bound to `type_subject`, `method` and `overload`.  `PROXY` passes an
empty `overload`. -/
def Declaration.triple : Declaration → Arg × Arg × Arg
  | .proxy inv => (macroParam (macroArgs inv) 0, macroParam (macroArgs inv) 2, [])
  | .overload inv =>
    (macroParam (macroArgs inv) 0, macroParam (macroArgs inv) 2, macroParam (macroArgs inv) 3)

/-- The name asked for by a line: `symbol` of its triple. -/
def Declaration.symbol (d : Declaration) : List Tok :=
  Proxies.symbol d.triple.1 d.triple.2.1 d.triple.2.2

/-- The definitions that the lines of a table expand to, in the order of the
lines; `none` when the preprocessor rejects one of them. -/
def expandTable : List Declaration → Option (List FunctionDefinition)
  | [] => some []
  | d :: ds => d.expand.bind fun f => (expandTable ds).map fun fs => f :: fs

/-! ## Calling a generated function -/

/-- All entries of a list are present. -/
def allSome {α : Type} : List (Option α) → Option (List α)
  | [] => some []
  | none :: _ => none
  | some a :: rest => (allSome rest).map fun as => a :: as

/-- The name that a parameter declaration `T x` declares: its last token. -/
def paramName (p : Arg) : Option Tok := p.getLast?

/-- The value of an argument expression of the forwarded call: the expression
is the name of a parameter, its value what the caller passed for it. -/
def argValue {V : Type} (env : List (Tok × V)) : Arg → Option V
  | [x] => env.lookup x
  | _ => none

/-- The expressions of a call `m ( ts )`: none when nothing stands between the
parentheses, otherwise what the top-level commas separate. -/
def callArgs (ts : List Tok) : List Arg :=
  if ts = [] then [] else macroArgs ts

/-- Calling the generated function with the values `actuals`, the first of
which is the subject.  `methods callee subject values` is what the method
`callee` of the wrapped interface does on `subject` from a state: it returns a
value or fails, and leaves a state.  The parameters are bound to `actuals` by
position; the body `return subject -> callee ( args );` looks its names up,
makes the one call and hands on its outcome.  The result is `none` when the
definition cannot be called this way (wrong number of values, a name that is
not a parameter). -/
def FunctionDefinition.call {σ V E : Type} (f : FunctionDefinition)
    (methods : List Tok → V → List V → σ → Except E V × σ)
    (actuals : List V) (s : σ) : Option (Except E V × σ) :=
  let formals := macroArgs f.params
  if formals.length ≠ actuals.length then none
  else
    (allSome (formals.map paramName)).bind fun names =>
      let env := names.zip actuals
      (env.lookup "subject").bind fun subject =>
        (allSome ((callArgs f.args).map (argValue env))).map fun values =>
          methods f.callee subject values s

/-- The direct call `subject -> method (a1, ..., aN)` on the wrapped interface. -/
def directCall {σ V E : Type} (methods : List Tok → V → List V → σ → Except E V × σ)
    (method : Arg) (subject : V) (values : List V) (s : σ) : Except E V × σ :=
  methods method subject values s

/-! ## Well-formed input -/

/-- Reading `a` from nesting `d`, no comma and no closing parenthesis is met
outside every parenthesis, and all parentheses are closed at the end. -/
def isArgAux : Nat → List Tok → Bool
  | d, [] => d == 0
  | d, t :: ts =>
    if d = 0 ∧ (t = "," ∨ t = ")") then false else isArgAux (depthStep d t) ts

/-- The token sequence `a` can be written as one macro argument. -/
def isArg (a : Arg) : Bool := isArgAux 0 a

/-- An argument that is written as a parameter type: it has a token, and its
first token is no number (it does not begin with a digit) and no opening
parenthesis. -/
def isType (a : Arg) : Bool :=
  isArg a && match a with
    | [] => false
    | x :: _ => !(x.get 0).isDigit && x != "("

/-- An argument that is written as an overload tag: nothing, or one token. -/
def isTag (t : Arg) : Bool :=
  match t with
  | [] => true
  | [x] => isArg [x] && x != ""
  | _ => false

/-- The arguments of the invocation are well formed: its parentheses match. -/
def Declaration.wellFormed : Declaration → Bool
  | .proxy inv => (macroArgs inv).all isArg
  | .overload inv => (macroArgs inv).all isArg

/-- The positional names `_n, ..., _1`. -/
def positionalNames : Nat → List Tok
  | 0 => []
  | n + 1 => ("_" ++ toString (n + 1)) :: positionalNames n

/-- The formal list of the types `types`: every type followed by its
positional name, the first type by `_n`, the last by `_1`. -/
def formalList (types : List Arg) : List Arg :=
  List.zipWith (fun T x => T ++ [x]) types (positionalNames types.length)

/-- The markers of `padding`, as arguments. -/
def markers : List Arg :=
  [["10"], ["9"], ["8"], ["7"], ["6"], ["5"], ["4"], ["3"], ["2"], ["1"], ["0"]]

/-! ## Deciding that the symbols of a table are distinct -/

/-- A number for a token: its characters read as digits in base 256. -/
def tokKey (s : Tok) : Nat := s.data.foldl (fun n c => n * 256 + c.toNat) 0

/-- A small number for a name. -/
def symbolKey (name : List Tok) : Nat :=
  (name.foldl (fun a x => a * 7 + tokKey x) 0) % 1000003

/-- One pass over a table: every line expands, the name of its definition is
the `symbol` of the line, and the number of the name is not among those met
before, which are the bits set in `seen`. -/
def distinctFrom : List Declaration → Nat → Bool
  | [], _ => true
  | d :: ds, seen =>
    match d.expand with
    | none => false
    | some f =>
      decide (f.name = d.symbol)
        && !(seen.testBit (symbolKey f.name))
        && distinctFrom ds (seen ||| 2 ^ symbolKey f.name)

/-! ## The parameter types of a line, and angle brackets -/

/-- The types supplied as variable arguments: none when `__VA_ARGS__` has no
token, otherwise the arguments that the top-level commas separate. -/
def suppliedTypes (va : List Tok) : List Arg :=
  if va = [] then [] else macroArgs va

/-- The parameter types of a line of the table. -/
def Declaration.parameters : Declaration → List Arg
  | .proxy inv => suppliedTypes (__VA_ARGS__ 3 (macroArgs inv))
  | .overload inv => suppliedTypes (__VA_ARGS__ 4 (macroArgs inv))

/-- The return type of a line of the table. -/
def Declaration.returnType : Declaration → Arg
  | .proxy inv => macroParam (macroArgs inv) 1
  | .overload inv => macroParam (macroArgs inv) 1

/-- The tokens of a line of the table. -/
def Declaration.tokens : Declaration → List Tok
  | .proxy inv => inv
  | .overload inv => inv

/-- Reading `a` with `d` angle brackets open: every `>` closes a `<` read
before it, and none is left open at the end. -/
def angleBalancedAux : Nat → List Tok → Bool
  | d, [] => d == 0
  | d, t :: ts =>
    if t = "<" then angleBalancedAux (d + 1) ts
    else if t = ">" then (d != 0 && angleBalancedAux (d - 1) ts)
    else angleBalancedAux d ts

/-- The angle brackets of `a` match: `a` holds whole template argument lists. -/
def angleBalanced (a : Arg) : Bool := angleBalancedAux 0 a

/-! ## The translator's reading of a generated function -/

/-- Angle-bracket nesting after reading the token `t` at nesting `a`. -/
def angleStep (a : Nat) (t : Tok) : Nat :=
  if t = "<" then a + 1 else if t = ">" then a - 1 else a

/-- Cutting a comma-separated list the way the translator reads a parameter
list or the arguments of a call: `p` is the parenthesis nesting, `a` the
angle-bracket nesting, `cur` the item collected so far.  Unlike the
preprocessor, the translator reads `<` and `>` after a type name as brackets:
a comma between them belongs to a template argument list and separates
nothing. -/
def listItemsAux : Nat → Nat → Arg → List Tok → List Arg
  | _, _, cur, [] => [cur]
  | p, a, cur, t :: ts =>
    if t = "," ∧ p = 0 ∧ a = 0 then cur :: listItemsAux 0 0 [] ts
    else listItemsAux (depthStep p t) (angleStep a t) (cur ++ [t]) ts

/-- The items of the list `ts`: none when `ts` has no token. -/
def listItems (ts : List Tok) : List Arg :=
  if ts = [] then [] else listItemsAux 0 0 [] ts

/-- The names that the parameter list `params` declares, as the translator
reads it: the last token of each of its items. -/
def declaredNames (params : List Tok) : List (Option Tok) :=
  (listItems params).map List.getLast?

/-- What the translator requires of the text of a generated function (its
header `returnType name ( params )` and its body, the one statement
`return subject -> callee ( args ) ;`), as far as this model follows it:

* the return type is a type, so its angle brackets match;
* every argument of the forwarded call is a name, and the name of one of the
  parameters: no other names are declared where the body stands.

These are necessary conditions.  A text that fails one is rejected by the
translator; a text that meets them may still be rejected for a reason that
lies outside the file, such as the wrapped interface having no method of that
name and signature. -/
def FunctionDefinition.accepted (f : FunctionDefinition) : Bool :=
  angleBalanced f.returnType &&
    (listItems f.args).all fun e =>
      match e with
      | [x] => (declaredNames f.params).contains (some x)
      | _ => false

/-- The translation unit generated from a table.  Generation fails (`none`)
when the preprocessor rejects a line, when the translator rejects the text of
one of the definitions (`FunctionDefinition.accepted`), or when two definitions
carry the same name: every generated function is declared `extern "C"`, and of
the functions with C language linkage at most one may carry a given name,
whatever its parameter types are.  Nothing is checked before the expansion. -/
def generate (tbl : List Declaration) : Option (List FunctionDefinition) :=
  (expandTable tbl).bind fun defs =>
    if defs.all FunctionDefinition.accepted ∧ (defs.map fun f => f.name).Nodup then some defs
    else none

/-- One pass over a table: every line expands to a definition that passes the
translator's checks. -/
def acceptedTable (tbl : List Declaration) : Bool :=
  tbl.all fun d =>
    match d.expand with
    | some f => f.accepted
    | none => false

/-- The alias declarations `using name = type;` of lines 64 to 70 of
`proxies.cpp`, in source order: the name and the tokens of the type. -/
def aliases : List (Tok × List Tok) :=
  [("IntPair", ["Pair", "<", "int", ",", "int", ">"]),
   ("BoolStringPair", ["Pair", "<", "bool", ",", "StringView", ">"]),
   ("HoursMinutesPair", ["Pair", "<", "Hours", ",", "Minutes", ">"]),
   ("NewConnectionPlayerPair", ["Pair", "<", "NewConnectionResult", ",", "IPlayer", "*", ">"]),
   ("CarriagesArray", ["StaticArray", "<", "IVehicle", "*", ",", "MAX_VEHICLE_CARRIAGES", ">"]),
   ("VehicleModelArray", ["StaticArray", "<", "uint8_t", ",", "MAX_VEHICLE_MODELS", ">"]),
   ("SkillsArray", ["StaticArray", "<", "uint16_t", ",", "NUM_SKILL_LEVELS", ">"])]

/-- A declaration of `proxies.cpp` after the macro definitions: an alias
declaration or a line of the table. -/
inductive Item where
  | typeAlias (name : Tok) (type : List Tok)
  | invocation (d : Declaration)
deriving DecidableEq, Repr

/-! ## The table of `proxies.cpp` -/

/-- The invocations under `include/Server/Components/Actors`, lines 75 to 90 of `proxies.cpp`. -/
def tableActors : List Declaration := [
  .proxy ["IActor", ",", "void", ",", "setSkin", ",", "int"],
  .proxy ["IActor", ",", "int", ",", "getSkin"],
  .proxy ["IActor", ",", "void", ",", "applyAnimation", ",", "AnimationData", "&"],
  .proxy ["IActor", ",", "const", "AnimationData", "&", ",", "getAnimation"],
  .proxy ["IActor", ",", "void", ",", "clearAnimations"],
  .proxy ["IActor", ",", "void", ",", "setHealth", ",", "float"],
  .proxy ["IActor", ",", "float", ",", "getHealth"],
  .proxy ["IActor", ",", "void", ",", "setInvulnerable", ",", "bool"],
  .proxy ["IActor", ",", "bool", ",", "isInvulnerable"],
  .proxy ["IActor", ",", "bool", ",", "isStreamedInForPlayer", ",", "IPlayer", "&"],
  .proxy ["IActor", ",", "void", ",", "streamInForPlayer", ",", "IPlayer", "&"],
  .proxy ["IActor", ",", "void", ",", "streamOutForPlayer", ",", "IPlayer", "&"],
  .proxy ["IActor", ",", "const", "ActorSpawnData", "&", ",", "getSpawnData"],
  .proxy ["IActorsComponent", ",", "IActor", "*", ",", "create", ",", "int", ",", "Vector3", ",", "float"]
]

/-- The invocations under `include/Server/Components/Checkpoints`, lines 93 to 109 of `proxies.cpp`. -/
def tableCheckpoints : List Declaration := [
  .proxy ["ICheckpointDataBase", ",", "Vector3", ",", "getPosition"],
  .proxy ["ICheckpointDataBase", ",", "void", ",", "setPosition", ",", "Vector3", "&"],
  .proxy ["ICheckpointDataBase", ",", "float", ",", "getRadius"],
  .proxy ["ICheckpointDataBase", ",", "void", ",", "setRadius", ",", "float"],
  .proxy ["ICheckpointDataBase", ",", "bool", ",", "isPlayerInside"],
  .proxy ["ICheckpointDataBase", ",", "void", ",", "setPlayerInside", ",", "bool"],
  .proxy ["ICheckpointDataBase", ",", "void", ",", "enable"],
  .proxy ["ICheckpointDataBase", ",", "void", ",", "disable"],
  .proxy ["ICheckpointDataBase", ",", "bool", ",", "isEnabled"],
  .proxy ["IRaceCheckpointData", ",", "RaceCheckpointType", ",", "getType"],
  .proxy ["IRaceCheckpointData", ",", "void", ",", "setType", ",", "RaceCheckpointType"],
  .proxy ["IRaceCheckpointData", ",", "Vector3", ",", "getNextPosition"],
  .proxy ["IRaceCheckpointData", ",", "void", ",", "setNextPosition", ",", "Vector3", "&"],
  .proxy ["IPlayerCheckpointData", ",", "IRaceCheckpointData", "&", ",", "getRaceCheckpoint"],
  .proxy ["IPlayerCheckpointData", ",", "ICheckpointData", "&", ",", "getCheckpoint"]
]

/-- The invocations under `include/Server/Components/Classes`, lines 114 to 117 of `proxies.cpp`. -/
def tableClasses : List Declaration := [
  .proxy ["IClass", ",", "const", "PlayerClass", "&", ",", "getClass"],
  .proxy ["IClass", ",", "void", ",", "setClass", ",", "PlayerClass", "&"],
  .proxy ["IClassesComponent", ",", "IClass", "*", ",", "create", ",", "int", ",", "int", ",", "Vector3", ",", "float", ",", "WeaponSlots", "&"]
]

/-- The invocations under `include/Server/Components/Console`, lines 125 to 129 of `proxies.cpp`. -/
def tableConsole : List Declaration := [
  .proxy ["IConsoleComponent", ",", "void", ",", "send", ",", "StringView", ",", "ConsoleCommandSenderData", "&"],
  .proxy ["IConsoleComponent", ",", "void", ",", "sendMessage", ",", "ConsoleCommandSenderData", "&", ",", "StringView"],
  .proxy ["IPlayerConsoleData", ",", "bool", ",", "hasConsoleAccess"],
  .proxy ["IPlayerConsoleData", ",", "void", ",", "setConsoleAccessibility", ",", "bool"]
]

/-- The invocations under `include/Server/Components/CustomModels`, lines 132 to 141 of `proxies.cpp`. -/
def tableCustomModels : List Declaration := [
  .proxy ["IPlayerCustomModelsData", ",", "uint32_t", ",", "getCustomSkin"],
  .proxy ["IPlayerCustomModelsData", ",", "void", ",", "setCustomSkin", ",", "uint32_t"],
  .proxy ["IPlayerCustomModelsData", ",", "bool", ",", "sendDownloadUrl", ",", "StringView"],
  .proxy ["ICustomModelsComponent", ",", "bool", ",", "addCustomModel", ",", "ModelType", ",", "int32_t", ",", "int32_t", ",", "StringView", ",", "StringView", ",", "int32_t", ",", "uint8_t", ",", "uint8_t"],
  .proxy ["ICustomModelsComponent", ",", "bool", ",", "getBaseModel", ",", "uint32_t", "&", ",", "uint32_t", "&"],
  .proxy ["ICustomModelsComponent", ",", "StringView", ",", "getModelNameFromChecksum", ",", "uint32_t"],
  .proxy ["ICustomModelsComponent", ",", "bool", ",", "isValidCustomModel", ",", "int32_t"],
  .proxy ["ICustomModelsComponent", ",", "bool", ",", "getCustomModelPath", ",", "int32_t", ",", "StringView", "&", ",", "StringView", "&"]
]

/-- The invocations under `include/Server/Components/Dialogs`, lines 147 to 150 of `proxies.cpp`. -/
def tableDialogs : List Declaration := [
  .proxy ["IPlayerDialogData", ",", "void", ",", "hide", ",", "IPlayer", "&"],
  .proxy ["IPlayerDialogData", ",", "void", ",", "show", ",", "IPlayer", "&", ",", "int", ",", "DialogStyle", ",", "StringView", ",", "StringView", ",", "StringView", ",", "StringView"],
  .proxy ["IPlayerDialogData", ",", "void", ",", "get", ",", "int", "&", ",", "DialogStyle", "&", ",", "StringView", "&", ",", "StringView", "&", ",", "StringView", "&", ",", "StringView", "&"],
  .proxy ["IPlayerDialogData", ",", "int", ",", "getActiveID"]
]

/-- The invocations under `include/Server/Components/Fixes`, lines 155 to 163 of `proxies.cpp`. -/
def tableFixes : List Declaration := [
  .proxy ["IPlayerFixesData", ",", "bool", ",", "sendGameText", ",", "StringView", ",", "Milliseconds", ",", "int"],
  .proxy ["IPlayerFixesData", ",", "bool", ",", "hideGameText", ",", "int"],
  .proxy ["IPlayerFixesData", ",", "bool", ",", "hasGameText", ",", "int"],
  .proxy ["IPlayerFixesData", ",", "bool", ",", "getGameText", ",", "int", ",", "StringView", "&", ",", "Milliseconds", "&", ",", "Milliseconds", "&"],
  .proxy ["IPlayerFixesData", ",", "void", ",", "applyAnimation", ",", "IPlayer", "*", ",", "IActor", "*", ",", "AnimationData", "*"],
  .proxy ["IFixesComponent", ",", "bool", ",", "sendGameTextToAll", ",", "StringView", ",", "Milliseconds", ",", "int"],
  .proxy ["IFixesComponent", ",", "bool", ",", "hideGameTextForAll", ",", "int"],
  .proxy ["IFixesComponent", ",", "void", ",", "clearAnimation", ",", "IPlayer", "*", ",", "IActor", "*"]
]

/-- The invocations under `include/Server/Components/GangZones`, lines 166 to 199 of `proxies.cpp`. -/
def tableGangZones : List Declaration := [
  .proxy ["IBaseGangZone", ",", "bool", ",", "isShownForPlayer", ",", "IPlayer", "&"],
  .proxy ["IBaseGangZone", ",", "bool", ",", "isFlashingForPlayer", ",", "IPlayer", "&"],
  .proxy ["IBaseGangZone", ",", "void", ",", "showForPlayer", ",", "IPlayer", "&", ",", "Colour", "&"],
  .proxy ["IBaseGangZone", ",", "void", ",", "hideForPlayer", ",", "IPlayer", "&"],
  .proxy ["IBaseGangZone", ",", "void", ",", "flashForPlayer", ",", "IPlayer", "&", ",", "Colour", "&"],
  .proxy ["IBaseGangZone", ",", "void", ",", "stopFlashForPlayer", ",", "IPlayer", "&"],
  .proxy ["IBaseGangZone", ",", "GangZonePos", ",", "getPosition"],
  .proxy ["IBaseGangZone", ",", "void", ",", "setPosition", ",", "GangZonePos", "&"],
  .proxy ["IBaseGangZone", ",", "bool", ",", "isPlayerInside", ",", "IPlayer", "&"],
  .proxy ["IBaseGangZone", ",", "const", "FlatHashSet", "<", "IPlayer", "*", ">", "&", ",", "getShownFor"],
  .proxy ["IBaseGangZone", ",", "Colour", ",", "getFlashingColourForPlayer", ",", "IPlayer", "&"],
  .proxy ["IBaseGangZone", ",", "Colour", ",", "getColourForPlayer", ",", "IPlayer", "&"],
  .proxy ["IBaseGangZone", ",", "void", ",", "setLegacyPlayer", ",", "IPlayer", "*"],
  .proxy ["IBaseGangZone", ",", "IPlayer", "*", ",", "getLegacyPlayer"],
  .proxy ["IGangZonesComponent", ",", "IGangZone", "*", ",", "create", ",", "GangZonePos"],
  .proxy ["IGangZonesComponent", ",", "const", "FlatHashSet", "<", "IGangZone", "*", ">", "&", ",", "getCheckingGangZones"],
  .proxy ["IGangZonesComponent", ",", "void", ",", "useGangZoneCheck", ",", "IGangZone", "&", ",", "bool"],
  .proxy ["IGangZonesComponent", ",", "int", ",", "toLegacyID", ",", "int"],
  .proxy ["IGangZonesComponent", ",", "int", ",", "fromLegacyID", ",", "int"],
  .proxy ["IGangZonesComponent", ",", "void", ",", "releaseLegacyID", ",", "int"],
  .proxy ["IGangZonesComponent", ",", "int", ",", "reserveLegacyID"],
  .proxy ["IGangZonesComponent", ",", "void", ",", "setLegacyID", ",", "int", ",", "int"],
  .proxy ["IPlayerGangZoneData", ",", "int", ",", "toLegacyID", ",", "int"],
  .proxy ["IPlayerGangZoneData", ",", "int", ",", "fromLegacyID", ",", "int"],
  .proxy ["IPlayerGangZoneData", ",", "void", ",", "releaseLegacyID", ",", "int"],
  .proxy ["IPlayerGangZoneData", ",", "int", ",", "reserveLegacyID"],
  .proxy ["IPlayerGangZoneData", ",", "void", ",", "setLegacyID", ",", "int", ",", "int"],
  .proxy ["IPlayerGangZoneData", ",", "int", ",", "toClientID", ",", "int"],
  .proxy ["IPlayerGangZoneData", ",", "int", ",", "fromClientID", ",", "int"],
  .proxy ["IPlayerGangZoneData", ",", "void", ",", "releaseClientID", ",", "int"],
  .proxy ["IPlayerGangZoneData", ",", "int", ",", "reserveClientID"],
  .proxy ["IPlayerGangZoneData", ",", "void", ",", "setClientID", ",", "int", ",", "int"]
]

/-- The invocations under `include/Server/Components/LegacyConfig`, lines 204 to 205 of `proxies.cpp`. -/
def tableLegacyConfig : List Declaration := [
  .proxy ["ILegacyConfigComponent", ",", "StringView", ",", "getConfig", ",", "StringView"],
  .proxy ["ILegacyConfigComponent", ",", "StringView", ",", "getLegacy", ",", "StringView"]
]

/-- The invocations under `include/Server/Components/Menus`, lines 208 to 227 of `proxies.cpp`. -/
def tableMenus : List Declaration := [
  .proxy ["IMenu", ",", "void", ",", "setColumnHeader", ",", "StringView", ",", "MenuColumn"],
  .proxy ["IMenu", ",", "int", ",", "addCell", ",", "StringView", ",", "MenuColumn"],
  .proxy ["IMenu", ",", "void", ",", "disableRow", ",", "MenuRow"],
  .proxy ["IMenu", ",", "bool", ",", "isRowEnabled", ",", "MenuRow"],
  .proxy ["IMenu", ",", "void", ",", "disable"],
  .proxy ["IMenu", ",", "bool", ",", "isEnabled"],
  .proxy ["IMenu", ",", "Vector2", ",", "getPosition"],
  .proxy ["IMenu", ",", "int", ",", "getRowCount", ",", "MenuColumn"],
  .proxy ["IMenu", ",", "int", ",", "getColumnCount"],
  .proxy ["IMenu", ",", "Vector2", ",", "getColumnWidths"],
  .proxy ["IMenu", ",", "StringView", ",", "getColumnHeader", ",", "MenuColumn"],
  .proxy ["IMenu", ",", "StringView", ",", "getCell", ",", "MenuColumn", ",", "MenuRow"],
  .proxy ["IMenu", ",", "void", ",", "initForPlayer", ",", "IPlayer", "&"],
  .proxy ["IMenu", ",", "void", ",", "showForPlayer", ",", "IPlayer", "&"],
  .proxy ["IMenu", ",", "void", ",", "hideForPlayer", ",", "IPlayer", "&"],
  .proxy ["IPlayerMenuData", ",", "uint8_t", ",", "getMenuID"],
  .proxy ["IPlayerMenuData", ",", "void", ",", "setMenuID", ",", "uint8_t"],
  .proxy ["IMenusComponent", ",", "IMenu", "*", ",", "create", ",", "StringView", ",", "Vector2", ",", "uint8_t", ",", "float", ",", "float"]
]

/-- The invocations under `include/Server/Components/Objects`, lines 232 to 272 of `proxies.cpp`. -/
def tableObjects : List Declaration := [
  .proxy ["IBaseObject", ",", "void", ",", "setDrawDistance", ",", "float"],
  .proxy ["IBaseObject", ",", "float", ",", "getDrawDistance"],
  .proxy ["IBaseObject", ",", "void", ",", "setModel", ",", "int"],
  .proxy ["IBaseObject", ",", "int", ",", "getModel"],
  .proxy ["IBaseObject", ",", "void", ",", "setCameraCollision", ",", "bool"],
  .proxy ["IBaseObject", ",", "bool", ",", "getCameraCollision"],
  .proxy ["IBaseObject", ",", "void", ",", "move", ",", "ObjectMoveData", "&"],
  .proxy ["IBaseObject", ",", "bool", ",", "isMoving"],
  .proxy ["IBaseObject", ",", "void", ",", "stop"],
  .proxy ["IBaseObject", ",", "const", "ObjectMoveData", "&", ",", "getMovingData"],
  .proxy ["IBaseObject", ",", "void", ",", "attachToVehicle", ",", "IVehicle", "&", ",", "Vector3", ",", "Vector3"],
  .proxy ["IBaseObject", ",", "void", ",", "resetAttachment"],
  .proxy ["IBaseObject", ",", "const", "ObjectAttachmentData", "&", ",", "getAttachmentData"],
  .proxy ["IBaseObject", ",", "bool", ",", "getMaterialData", ",", "uint32_t", ",", "const", "ObjectMaterialData", "*", "&"],
  .proxy ["IBaseObject", ",", "void", ",", "setMaterial", ",", "uint32_t", ",", "int", ",", "StringView", ",", "StringView", ",", "Colour"],
  .proxy ["IBaseObject", ",", "void", ",", "setMaterialText", ",", "uint32_t", ",", "StringView", ",", "ObjectMaterialSize", ",", "StringView", ",", "int", ",", "bool", ",", "Colour", ",", "Colour", ",", "ObjectMaterialTextAlign"],
  .proxy ["IObject", ",", "void", ",", "attachToPlayer", ",", "IPlayer", "&", ",", "Vector3", ",", "Vector3"],
  .proxy ["IObject", ",", "void", ",", "attachToObject", ",", "IObject", "&", ",", "Vector3", ",", "Vector3", ",", "bool"],
  .proxy ["IPlayerObject", ",", "void", ",", "attachToObject", ",", "IPlayerObject", "&", ",", "Vector3", ",", "Vector3"],
  .proxy ["IPlayerObject", ",", "void", ",", "attachToPlayer", ",", "IPlayer", "&", ",", "Vector3", ",", "Vector3"],
  .proxy ["IObjectsComponent", ",", "void", ",", "setDefaultCameraCollision", ",", "bool"],
  .proxy ["IObjectsComponent", ",", "bool", ",", "getDefaultCameraCollision"],
  .proxy ["IObjectsComponent", ",", "IObject", "*", ",", "create", ",", "int", ",", "Vector3", ",", "Vector3", ",", "float"],
  .proxy ["IPlayerObjectData", ",", "IPlayerObject", "*", ",", "create", ",", "int", ",", "Vector3", ",", "Vector3", ",", "float"],
  .proxy ["IPlayerObjectData", ",", "void", ",", "setAttachedObject", ",", "int", ",", "ObjectAttachmentSlotData", "&"],
  .proxy ["IPlayerObjectData", ",", "void", ",", "removeAttachedObject", ",", "int"],
  .proxy ["IPlayerObjectData", ",", "bool", ",", "hasAttachedObject", ",", "int"],
  .proxy ["IPlayerObjectData", ",", "const", "ObjectAttachmentSlotData", "&", ",", "getAttachedObject", ",", "int"],
  .proxy ["IPlayerObjectData", ",", "void", ",", "beginSelecting"],
  .proxy ["IPlayerObjectData", ",", "bool", ",", "selectingObject"],
  .proxy ["IPlayerObjectData", ",", "void", ",", "endEditing"],
  .proxy ["IPlayerObjectData", ",", "void", ",", "beginEditing", ",", "IObject", "&"],
  .overload ["IPlayerObjectData", ",", "void", ",", "beginEditing", ",", "_player", ",", "IPlayerObject", "&"],
  .proxy ["IPlayerObjectData", ",", "bool", ",", "editingObject"],
  .proxy ["IPlayerObjectData", ",", "void", ",", "editAttachedObject", ",", "int"]
]

/-- The invocations under `include/Server/Components/Pickups`, lines 279 to 309 of `proxies.cpp`. -/
def tablePickups : List Declaration := [
  .proxy ["IBasePickup", ",", "void", ",", "setType", ",", "PickupType", ",", "bool"],
  .proxy ["IBasePickup", ",", "PickupType", ",", "getType"],
  .proxy ["IBasePickup", ",", "void", ",", "setPositionNoUpdate", ",", "Vector3"],
  .proxy ["IBasePickup", ",", "void", ",", "setModel", ",", "int", ",", "bool"],
  .proxy ["IBasePickup", ",", "int", ",", "getModel"],
  .proxy ["IBasePickup", ",", "bool", ",", "isStreamedInForPlayer", ",", "const", "IPlayer", "&"],
  .proxy ["IBasePickup", ",", "void", ",", "streamInForPlayer", ",", "IPlayer", "&"],
  .proxy ["IBasePickup", ",", "void", ",", "streamOutForPlayer", ",", "IPlayer", "&"],
  .proxy ["IBasePickup", ",", "void", ",", "setPickupHiddenForPlayer", ",", "IPlayer", "&", ",", "bool"],
  .proxy ["IBasePickup", ",", "bool", ",", "isPickupHiddenForPlayer", ",", "IPlayer", "&"],
  .proxy ["IBasePickup", ",", "void", ",", "setLegacyPlayer", ",", "IPlayer", "*"],
  .proxy ["IBasePickup", ",", "IPlayer", "*", ",", "getLegacyPlayer"],
  .proxy ["IPickupsComponent", ",", "IPickup", "*", ",", "create", ",", "int", ",", "PickupType", ",", "Vector3", ",", "uint32_t", ",", "bool"],
  .proxy ["IPickupsComponent", ",", "int", ",", "toLegacyID", ",", "int"],
  .proxy ["IPickupsComponent", ",", "int", ",", "fromLegacyID", ",", "int"],
  .proxy ["IPickupsComponent", ",", "void", ",", "releaseLegacyID", ",", "int"],
  .proxy ["IPickupsComponent", ",", "int", ",", "reserveLegacyID"],
  .proxy ["IPickupsComponent", ",", "void", ",", "setLegacyID", ",", "int", ",", "int"],
  .proxy ["IPlayerPickupData", ",", "int", ",", "toLegacyID", ",", "int"],
  .proxy ["IPlayerPickupData", ",", "int", ",", "fromLegacyID", ",", "int"],
  .proxy ["IPlayerPickupData", ",", "void", ",", "releaseLegacyID", ",", "int"],
  .proxy ["IPlayerPickupData", ",", "int", ",", "reserveLegacyID"],
  .proxy ["IPlayerPickupData", ",", "void", ",", "setLegacyID", ",", "int", ",", "int"],
  .proxy ["IPlayerPickupData", ",", "int", ",", "toClientID", ",", "int"],
  .proxy ["IPlayerPickupData", ",", "int", ",", "fromClientID", ",", "int"],
  .proxy ["IPlayerPickupData", ",", "void", ",", "releaseClientID", ",", "int"],
  .proxy ["IPlayerPickupData", ",", "int", ",", "reserveClientID"],
  .proxy ["IPlayerPickupData", ",", "void", ",", "setClientID", ",", "int", ",", "int"]
]

/-- The invocations under `include/Server/Components/Recordings`, lines 312 to 313 of `proxies.cpp`. -/
def tableRecordings : List Declaration := [
  .proxy ["IPlayerRecordingData", ",", "void", ",", "start", ",", "PlayerRecordingType", ",", "StringView"],
  .proxy ["IPlayerRecordingData", ",", "void", ",", "stop"]
]

/-- The invocations under `include/Server/Components/TextDraws`, lines 316 to 371 of `proxies.cpp`. -/
def tableTextDraws : List Declaration := [
  .proxy ["ITextDrawBase", ",", "Vector2", ",", "getPosition"],
  .proxy ["ITextDrawBase", ",", "ITextDrawBase", "&", ",", "setPosition", ",", "Vector2"],
  .proxy ["ITextDrawBase", ",", "void", ",", "setText", ",", "StringView"],
  .proxy ["ITextDrawBase", ",", "StringView", ",", "getText"],
  .proxy ["ITextDrawBase", ",", "ITextDrawBase", "&", ",", "setLetterSize", ",", "Vector2"],
  .proxy ["ITextDrawBase", ",", "Vector2", ",", "getLetterSize"],
  .proxy ["ITextDrawBase", ",", "ITextDrawBase", "&", ",", "setTextSize", ",", "Vector2"],
  .proxy ["ITextDrawBase", ",", "Vector2", ",", "getTextSize"],
  .proxy ["ITextDrawBase", ",", "ITextDrawBase", "&", ",", "setAlignment", ",", "TextDrawAlignmentTypes"],
  .proxy ["ITextDrawBase", ",", "TextDrawAlignmentTypes", ",", "getAlignment"],
  .proxy ["ITextDrawBase", ",", "ITextDrawBase", "&", ",", "setColour", ",", "Colour"],
  .proxy ["ITextDrawBase", ",", "Colour", ",", "getLetterColour"],
  .proxy ["ITextDrawBase", ",", "ITextDrawBase", "&", ",", "useBox", ",", "bool"],
  .proxy ["ITextDrawBase", ",", "bool", ",", "hasBox"],
  .proxy ["ITextDrawBase", ",", "ITextDrawBase", "&", ",", "setBoxColour", ",", "Colour"],
  .proxy ["ITextDrawBase", ",", "Colour", ",", "getBoxColour"],
  .proxy ["ITextDrawBase", ",", "ITextDrawBase", "&", ",", "setShadow", ",", "int"],
  .proxy ["ITextDrawBase", ",", "int", ",", "getShadow"],
  .proxy ["ITextDrawBase", ",", "ITextDrawBase", "&", ",", "setOutline", ",", "int"],
  .proxy ["ITextDrawBase", ",", "int", ",", "getOutline"],
  .proxy ["ITextDrawBase", ",", "ITextDrawBase", "&", ",", "setBackgroundColour", ",", "Colour"],
  .proxy ["ITextDrawBase", ",", "Colour", ",", "getBackgroundColour"],
  .proxy ["ITextDrawBase", ",", "ITextDrawBase", "&", ",", "setStyle", ",", "TextDrawStyle"],
  .proxy ["ITextDrawBase", ",", "TextDrawStyle", ",", "getStyle"],
  .proxy ["ITextDrawBase", ",", "ITextDrawBase", "&", ",", "setProportional", ",", "bool"],
  .proxy ["ITextDrawBase", ",", "bool", ",", "isProportional"],
  .proxy ["ITextDrawBase", ",", "ITextDrawBase", "&", ",", "setSelectable", ",", "bool"],
  .proxy ["ITextDrawBase", ",", "bool", ",", "isSelectable"],
  .proxy ["ITextDrawBase", ",", "ITextDrawBase", "&", ",", "setPreviewModel", ",", "int"],
  .proxy ["ITextDrawBase", ",", "int", ",", "getPreviewModel"],
  .proxy ["ITextDrawBase", ",", "ITextDrawBase", "&", ",", "setPreviewRotation", ",", "Vector3"],
  .proxy ["ITextDrawBase", ",", "Vector3", ",", "getPreviewRotation"],
  .proxy ["ITextDrawBase", ",", "ITextDrawBase", "&", ",", "setPreviewVehicleColour", ",", "int", ",", "int"],
  .proxy ["ITextDrawBase", ",", "IntPair", ",", "getPreviewVehicleColour"],
  .proxy ["ITextDrawBase", ",", "ITextDrawBase", "&", ",", "setPreviewZoom", ",", "float"],
  .proxy ["ITextDrawBase", ",", "float", ",", "getPreviewZoom"],
  .proxy ["ITextDrawBase", ",", "void", ",", "restream"],
  .proxy ["ITextDraw", ",", "void", ",", "showForPlayer", ",", "IPlayer", "&"],
  .proxy ["ITextDraw", ",", "void", ",", "hideForPlayer", ",", "IPlayer", "&"],
  .proxy ["ITextDraw", ",", "bool", ",", "isShownForPlayer", ",", "const", "IPlayer", "&"],
  .proxy ["ITextDraw", ",", "void", ",", "setTextForPlayer", ",", "IPlayer", "&", ",", "StringView"],
  .proxy ["IPlayerTextDraw", ",", "void", ",", "show"],
  .proxy ["IPlayerTextDraw", ",", "void", ",", "hide"],
  .proxy ["IPlayerTextDraw", ",", "bool", ",", "isShown"],
  .proxy ["ITextDrawsComponent", ",", "ITextDraw", "*", ",", "create", ",", "Vector2", ",", "StringView"],
  .overload ["ITextDrawsComponent", ",", "ITextDraw", "*", ",", "create", ",", "_model", ",", "Vector2", ",", "int"],
  .proxy ["IPlayerTextDrawData", ",", "void", ",", "beginSelection", ",", "Colour"],
  .proxy ["IPlayerTextDrawData", ",", "bool", ",", "isSelecting"],
  .proxy ["IPlayerTextDrawData", ",", "void", ",", "endSelection"],
  .proxy ["IPlayerTextDrawData", ",", "IPlayerTextDraw", "*", ",", "create", ",", "Vector2", ",", "StringView"],
  .overload ["IPlayerTextDrawData", ",", "IPlayerTextDraw", "*", ",", "create", ",", "_model", ",", "Vector2", ",", "int"]
]

/-- The invocations under `include/Server/Components/TextLabels`, lines 374 to 399 of `proxies.cpp`. -/
def tableTextLabels : List Declaration := [
  .proxy ["ITextLabelBase", ",", "void", ",", "setText", ",", "StringView"],
  .proxy ["ITextLabelBase", ",", "StringView", ",", "getText"],
  .proxy ["ITextLabelBase", ",", "void", ",", "setColour", ",", "Colour"],
  .proxy ["ITextLabelBase", ",", "Colour", ",", "getColour"],
  .proxy ["ITextLabelBase", ",", "void", ",", "setDrawDistance", ",", "float"],
  .proxy ["ITextLabelBase", ",", "float", ",", "getDrawDistance"],
  .proxy ["ITextLabelBase", ",", "void", ",", "attachToPlayer", ",", "IPlayer", "&", ",", "Vector3"],
  .proxy ["ITextLabelBase", ",", "void", ",", "attachToVehicle", ",", "IVehicle", "&", ",", "Vector3"],
  .proxy ["ITextLabelBase", ",", "const", "TextLabelAttachmentData", "&", ",", "getAttachmentData"],
  .proxy ["ITextLabelBase", ",", "void", ",", "detachFromPlayer", ",", "Vector3"],
  .proxy ["ITextLabelBase", ",", "void", ",", "detachFromVehicle", ",", "Vector3"],
  .proxy ["ITextLabelBase", ",", "void", ",", "setTestLOS", ",", "bool"],
  .proxy ["ITextLabelBase", ",", "bool", ",", "getTestLOS"],
  .proxy ["ITextLabelBase", ",", "void", ",", "setColourAndText", ",", "Colour", ",", "StringView"],
  .proxy ["ITextLabel", ",", "bool", ",", "isStreamedInForPlayer", ",", "IPlayer", "&"],
  .proxy ["ITextLabel", ",", "void", ",", "streamInForPlayer", ",", "IPlayer", "&"],
  .proxy ["ITextLabel", ",", "void", ",", "streamOutForPlayer", ",", "IPlayer", "&"],
  .proxy ["ITextLabelsComponent", ",", "ITextLabel", "*", ",", "create", ",", "StringView", ",", "Colour", ",", "Vector3", ",", "float", ",", "int", ",", "bool"],
  .overload ["ITextLabelsComponent", ",", "ITextLabel", "*", ",", "create", ",", "_player", ",", "StringView", ",", "Colour", ",", "Vector3", ",", "float", ",", "int", ",", "bool", ",", "IPlayer", "&"],
  .overload ["ITextLabelsComponent", ",", "ITextLabel", "*", ",", "create", ",", "_vehicle", ",", "StringView", ",", "Colour", ",", "Vector3", ",", "float", ",", "int", ",", "bool", ",", "IVehicle", "&"],
  .proxy ["IPlayerTextLabelData", ",", "IPlayerTextLabel", "*", ",", "create", ",", "StringView", ",", "Colour", ",", "Vector3", ",", "float", ",", "bool"],
  .overload ["IPlayerTextLabelData", ",", "IPlayerTextLabel", "*", ",", "create", ",", "_player", ",", "StringView", ",", "Colour", ",", "Vector3", ",", "float", ",", "bool", ",", "IPlayer", "&"],
  .overload ["IPlayerTextLabelData", ",", "IPlayerTextLabel", "*", ",", "create", ",", "_vehicle", ",", "StringView", ",", "Colour", ",", "Vector3", ",", "float", ",", "bool", ",", "IVehicle", "&"]
]

/-- The invocations under `include/Server/Components/Vehicles`, lines 412 to 471 of `proxies.cpp`. -/
def tableVehicles1 : List Declaration := [
  .proxy ["IVehicle", ",", "void", ",", "setSpawnData", ",", "VehicleSpawnData", "&"],
  .proxy ["IVehicle", ",", "VehicleSpawnData", ",", "getSpawnData"],
  .proxy ["IVehicle", ",", "bool", ",", "isStreamedInForPlayer", ",", "IPlayer", "&"],
  .proxy ["IVehicle", ",", "void", ",", "streamInForPlayer", ",", "IPlayer", "&"],
  .proxy ["IVehicle", ",", "void", ",", "streamOutForPlayer", ",", "IPlayer", "&"],
  .proxy ["IVehicle", ",", "void", ",", "setColour", ",", "int", ",", "int"],
  .proxy ["IVehicle", ",", "IntPair", ",", "getColour"],
  .proxy ["IVehicle", ",", "void", ",", "setHealth", ",", "float"],
  .proxy ["IVehicle", ",", "float", ",", "getHealth"],
  .proxy ["IVehicle", ",", "bool", ",", "updateFromDriverSync", ",", "VehicleDriverSyncPacket", "&", ",", "IPlayer", "&"],
  .proxy ["IVehicle", ",", "bool", ",", "updateFromPassengerSync", ",", "VehiclePassengerSyncPacket", "&", ",", "IPlayer", "&"],
  .proxy ["IVehicle", ",", "bool", ",", "updateFromUnoccupied", ",", "VehicleUnoccupiedSyncPacket", "&", ",", "IPlayer", "&"],
  .proxy ["IVehicle", ",", "bool", ",", "updateFromTrailerSync", ",", "VehicleTrailerSyncPacket", "&", ",", "IPlayer", "&"],
  .proxy ["IVehicle", ",", "const", "FlatPtrHashSet", "<", "IPlayer", ">", "&", ",", "streamedForPlayers"],
  .proxy ["IVehicle", ",", "IPlayer", "*", ",", "getDriver"],
  .proxy ["IVehicle", ",", "const", "FlatHashSet", "<", "IPlayer", "*", ">", "&", ",", "getPassengers"],
  .proxy ["IVehicle", ",", "void", ",", "setPlate", ",", "StringView"],
  .proxy ["IVehicle", ",", "StringView", ",", "getPlate"],
  .proxy ["IVehicle", ",", "void", ",", "setDamageStatus", ",", "int", ",", "int", ",", "uint8_t", ",", "uint8_t", ",", "IPlayer", "*"],
  .proxy ["IVehicle", ",", "void", ",", "getDamageStatus", ",", "int", "&", ",", "int", "&", ",", "int", "&", ",", "int", "&"],
  .proxy ["IVehicle", ",", "void", ",", "setPaintJob", ",", "int"],
  .proxy ["IVehicle", ",", "int", ",", "getPaintJob"],
  .proxy ["IVehicle", ",", "void", ",", "addComponent", ",", "int"],
  .proxy ["IVehicle", ",", "int", ",", "getComponentInSlot", ",", "int"],
  .proxy ["IVehicle", ",", "void", ",", "removeComponent", ",", "int"],
  .proxy ["IVehicle", ",", "void", ",", "putPlayer", ",", "IPlayer", "&", ",", "int"],
  .proxy ["IVehicle", ",", "void", ",", "setZAngle", ",", "float"],
  .proxy ["IVehicle", ",", "float", ",", "getZAngle"],
  .proxy ["IVehicle", ",", "void", ",", "setParams", ",", "VehicleParams", "&"],
  .proxy ["IVehicle", ",", "void", ",", "setParamsForPlayer", ",", "IPlayer", "&", ",", "VehicleParams", "&"],
  .proxy ["IVehicle", ",", "VehicleParams", ",", "getParams"],
  .proxy ["IVehicle", ",", "bool", ",", "isDead"],
  .proxy ["IVehicle", ",", "void", ",", "respawn"],
  .proxy ["IVehicle", ",", "Seconds", ",", "getRespawnDelay"],
  .proxy ["IVehicle", ",", "void", ",", "setRespawnDelay", ",", "Seconds"],
  .proxy ["IVehicle", ",", "bool", ",", "isRespawning"],
  .proxy ["IVehicle", ",", "void", ",", "setInterior", ",", "int"],
  .proxy ["IVehicle", ",", "int", ",", "getInterior"],
  .proxy ["IVehicle", ",", "void", ",", "attachTrailer", ",", "IVehicle", "&"],
  .proxy ["IVehicle", ",", "void", ",", "detachTrailer"],
  .proxy ["IVehicle", ",", "bool", ",", "isTrailer"],
  .proxy ["IVehicle", ",", "IVehicle", "*", ",", "getTrailer"],
  .proxy ["IVehicle", ",", "IVehicle", "*", ",", "getCab"],
  .proxy ["IVehicle", ",", "void", ",", "repair"],
  .proxy ["IVehicle", ",", "void", ",", "addCarriage", ",", "IVehicle", "*", ",", "int"],
  .proxy ["IVehicle", ",", "void", ",", "updateCarriage", ",", "Vector3", ",", "Vector3"],
  .proxy ["IVehicle", ",", "const", "CarriagesArray", "&", ",", "getCarriages"],
  .proxy ["IVehicle", ",", "void", ",", "setVelocity", ",", "Vector3"],
  .proxy ["IVehicle", ",", "Vector3", ",", "getVelocity"],
  .proxy ["IVehicle", ",", "void", ",", "setAngularVelocity", ",", "Vector3"],
  .proxy ["IVehicle", ",", "Vector3", ",", "getAngularVelocity"],
  .proxy ["IVehicle", ",", "int", ",", "getModel"],
  .proxy ["IVehicle", ",", "uint8_t", ",", "getLandingGearState"],
  .proxy ["IVehicle", ",", "bool", ",", "hasBeenOccupied"],
  .proxy ["IVehicle", ",", "const", "TimePoint", "&", ",", "getLastOccupiedTime"],
  .proxy ["IVehicle", ",", "const", "TimePoint", "&", ",", "getLastSpawnTime"],
  .proxy ["IVehicle", ",", "bool", ",", "isOccupied"],
  .proxy ["IVehicle", ",", "void", ",", "setSiren", ",", "bool"],
  .proxy ["IVehicle", ",", "uint8_t", ",", "getSirenState"],
  .proxy ["IVehicle", ",", "uint32_t", ",", "getHydraThrustAngle"]
]

/-- The invocations under `include/Server/Components/Vehicles`, lines 472 to 483 of `proxies.cpp`. -/
def tableVehicles2 : List Declaration := [
  .proxy ["IVehicle", ",", "float", ",", "getTrainSpeed"],
  .proxy ["IVehicle", ",", "int", ",", "getLastDriverPoolID"],
  .proxy ["IVehiclesComponent", ",", "VehicleModelArray", "&", ",", "models"],
  .proxy ["IVehiclesComponent", ",", "IVehicle", "*", ",", "create", ",", "bool", ",", "int", ",", "Vector3", ",", "float", ",", "int", ",", "int", ",", "Seconds", ",", "bool"],
  .proxy ["IPlayerVehicleData", ",", "IVehicle", "*", ",", "getVehicle"],
  .proxy ["IPlayerVehicleData", ",", "void", ",", "resetVehicle"],
  .proxy ["IPlayerVehicleData", ",", "int", ",", "getSeat"],
  .proxy ["IPlayerVehicleData", ",", "bool", ",", "isInModShop"],
  .proxy ["IPlayerVehicleData", ",", "bool", ",", "isInDriveByMode"],
  .proxy ["IPlayerVehicleData", ",", "bool", ",", "isCuffed"]
]

/-- The invocations under `include/component`, lines 486 to 491 of `proxies.cpp`. -/
def tableComponent : List Declaration := [
  .proxy ["IExtensible", ",", "IExtension", "*", ",", "getExtension", ",", "UID"],
  .proxy ["IComponent", ",", "int", ",", "supportedVersion"],
  .proxy ["IComponent", ",", "StringView", ",", "componentName"],
  .proxy ["IComponentList", ",", "IComponent", "*", ",", "queryComponent", ",", "UID"]
]

/-- The invocations under `include/core`, lines 494 to 534 of `proxies.cpp`. -/
def tableCore : List Declaration := [
  .proxy ["IConfig", ",", "StringView", ",", "getString", ",", "StringView"],
  .proxy ["IConfig", ",", "int", "*", ",", "getInt", ",", "StringView"],
  .proxy ["IConfig", ",", "float", "*", ",", "getFloat", ",", "StringView"],
  .proxy ["IConfig", ",", "size_t", ",", "getStrings", ",", "StringView", ",", "Span", "<", "StringView", ">"],
  .proxy ["IConfig", ",", "size_t", ",", "getStringsCount", ",", "StringView"],
  .proxy ["IConfig", ",", "ConfigOptionType", ",", "getType", ",", "StringView"],
  .proxy ["IConfig", ",", "size_t", ",", "getBansCount"],
  .proxy ["IConfig", ",", "const", "BanEntry", "&", ",", "getBan", ",", "size_t"],
  .proxy ["IConfig", ",", "void", ",", "addBan", ",", "BanEntry", "&"],
  .overload ["IConfig", ",", "void", ",", "removeBan", ",", "_index", ",", "size_t"],
  .proxy ["IConfig", ",", "void", ",", "removeBan", ",", "BanEntry", "&"],
  .proxy ["IConfig", ",", "void", ",", "writeBans"],
  .proxy ["IConfig", ",", "void", ",", "reloadBans"],
  .proxy ["IConfig", ",", "void", ",", "clearBans"],
  .proxy ["IConfig", ",", "bool", ",", "isBanned", ",", "BanEntry", "&"],
  .proxy ["IConfig", ",", "BoolStringPair", ",", "getNameFromAlias", ",", "StringView"],
  .proxy ["IConfig", ",", "void", ",", "enumOptions", ",", "OptionEnumeratorCallback", "&"],
  .proxy ["IConfig", ",", "bool", "*", ",", "getBool", ",", "StringView"],
  .proxy ["ICore", ",", "SemanticVersion", ",", "getVersion"],
  .proxy ["ICore", ",", "int", ",", "getNetworkBitStreamVersion"],
  .proxy ["ICore", ",", "IPlayerPool", "&", ",", "getPlayers"],
  .proxy ["ICore", ",", "IConfig", "&", ",", "getConfig"],
  .proxy ["ICore", ",", "const", "FlatPtrHashSet", "<", "INetwork", ">", "&", ",", "getNetworks"],
  .proxy ["ICore", ",", "unsigned", ",", "getTickCount"],
  .proxy ["ICore", ",", "void", ",", "setGravity", ",", "float"],
  .proxy ["ICore", ",", "float", ",", "getGravity"],
  .proxy ["ICore", ",", "void", ",", "setWeather", ",", "int"],
  .proxy ["ICore", ",", "void", ",", "setWorldTime", ",", "Hours"],
  .proxy ["ICore", ",", "void", ",", "useStuntBonuses", ",", "bool"],
  .proxy ["ICore", ",", "void", ",", "setData", ",", "SettableCoreDataType", ",", "StringView"],
  .proxy ["ICore", ",", "void", ",", "setThreadSleep", ",", "Microseconds"],
  .proxy ["ICore", ",", "void", ",", "useDynTicks", ",", "const", "bool"],
  .proxy ["ICore", ",", "void", ",", "resetAll"],
  .proxy ["ICore", ",", "void", ",", "reloadAll"],
  .proxy ["ICore", ",", "StringView", ",", "getWeaponName", ",", "PlayerWeapon"],
  .proxy ["ICore", ",", "void", ",", "connectBot", ",", "StringView", ",", "StringView"],
  .proxy ["ICore", ",", "unsigned", ",", "tickRate"],
  .proxy ["ICore", ",", "StringView", ",", "getVersionHash"]
]

/-- The invocations under `include/entity`, lines 539 to 546 of `proxies.cpp`. -/
def tableEntity : List Declaration := [
  .proxy ["IIDProvider", ",", "int", ",", "getID"],
  .proxy ["IEntity", ",", "Vector3", ",", "getPosition"],
  .proxy ["IEntity", ",", "void", ",", "setPosition", ",", "Vector3"],
  .proxy ["IEntity", ",", "GTAQuat", ",", "getRotation"],
  .proxy ["IEntity", ",", "void", ",", "setRotation", ",", "GTAQuat"],
  .proxy ["IEntity", ",", "int", ",", "getVirtualWorld"],
  .proxy ["IEntity", ",", "void", ",", "setVirtualWorld", ",", "int"]
]

/-- The invocations under `include/player`, lines 551 to 610 of `proxies.cpp`. -/
def tablePlayer1 : List Declaration := [
  .proxy ["IPlayer", ",", "void", ",", "kick"],
  .proxy ["IPlayer", ",", "void", ",", "ban", ",", "StringView"],
  .proxy ["IPlayer", ",", "bool", ",", "isBot"],
  .proxy ["IPlayer", ",", "PeerNetworkData", ",", "getNetworkData"],
  .proxy ["IPlayer", ",", "unsigned", ",", "getPing", ","],
  .proxy ["IPlayer", ",", "bool", ",", "sendPacket", ",", "Span", "<", "uint8_t", ">", ",", "int", ",", "bool"],
  .proxy ["IPlayer", ",", "bool", ",", "sendRPC", ",", "int", ",", "Span", "<", "uint8_t", ">", ",", "int", ",", "bool"],
  .proxy ["IPlayer", ",", "void", ",", "broadcastRPCToStreamed", ",", "int", ",", "Span", "<", "uint8_t", ">", ",", "int", ",", "bool"],
  .proxy ["IPlayer", ",", "void", ",", "broadcastPacketToStreamed", ",", "Span", "<", "uint8_t", ">", ",", "int", ",", "bool"],
  .proxy ["IPlayer", ",", "void", ",", "broadcastSyncPacket", ",", "Span", "<", "uint8_t", ">", ",", "int"],
  .proxy ["IPlayer", ",", "void", ",", "spawn"],
  .proxy ["IPlayer", ",", "ClientVersion", ",", "getClientVersion"],
  .proxy ["IPlayer", ",", "StringView", ",", "getClientVersionName"],
  .proxy ["IPlayer", ",", "void", ",", "setPositionFindZ", ",", "Vector3"],
  .proxy ["IPlayer", ",", "void", ",", "setCameraPosition", ",", "Vector3"],
  .proxy ["IPlayer", ",", "Vector3", ",", "getCameraPosition"],
  .proxy ["IPlayer", ",", "void", ",", "setCameraLookAt", ",", "Vector3", ",", "int"],
  .proxy ["IPlayer", ",", "Vector3", ",", "getCameraLookAt"],
  .proxy ["IPlayer", ",", "void", ",", "setCameraBehind"],
  .proxy ["IPlayer", ",", "void", ",", "interpolateCameraPosition", ",", "Vector3", ",", "Vector3", ",", "int", ",", "PlayerCameraCutType"],
  .proxy ["IPlayer", ",", "void", ",", "interpolateCameraLookAt", ",", "Vector3", ",", "Vector3", ",", "int", ",", "PlayerCameraCutType"],
  .proxy ["IPlayer", ",", "void", ",", "attachCameraToObject", ",", "IObject", "&"],
  .overload ["IPlayer", ",", "void", ",", "attachCameraToObject", ",", "_player", ",", "IPlayerObject", "&"],
  .proxy ["IPlayer", ",", "EPlayerNameStatus", ",", "setName", ",", "StringView"],
  .proxy ["IPlayer", ",", "StringView", ",", "getName"],
  .proxy ["IPlayer", ",", "StringView", ",", "getSerial"],
  .proxy ["IPlayer", ",", "void", ",", "giveWeapon", ",", "WeaponSlotData"],
  .proxy ["IPlayer", ",", "void", ",", "removeWeapon", ",", "uint8_t"],
  .proxy ["IPlayer", ",", "void", ",", "setWeaponAmmo", ",", "WeaponSlotData"],
  .proxy ["IPlayer", ",", "WeaponSlots", ",", "getWeapons"],
  .proxy ["IPlayer", ",", "WeaponSlotData", ",", "getWeaponSlot", ",", "int"],
  .proxy ["IPlayer", ",", "void", ",", "resetWeapons"],
  .proxy ["IPlayer", ",", "void", ",", "setArmedWeapon", ",", "uint32_t"],
  .proxy ["IPlayer", ",", "uint32_t", ",", "getArmedWeapon"],
  .proxy ["IPlayer", ",", "uint32_t", ",", "getArmedWeaponAmmo"],
  .proxy ["IPlayer", ",", "void", ",", "setShopName", ",", "StringView"],
  .proxy ["IPlayer", ",", "StringView", ",", "getShopName"],
  .proxy ["IPlayer", ",", "void", ",", "setDrunkLevel", ",", "int"],
  .proxy ["IPlayer", ",", "int", ",", "getDrunkLevel"],
  .proxy ["IPlayer", ",", "void", ",", "setColour", ",", "Colour"],
  .proxy ["IPlayer", ",", "Colour", ",", "getColour"],
  .proxy ["IPlayer", ",", "void", ",", "setOtherColour", ",", "IPlayer", "&", ",", "Colour"],
  .proxy ["IPlayer", ",", "bool", ",", "getOtherColour", ",", "IPlayer", "&", ",", "Colour", "&"],
  .proxy ["IPlayer", ",", "void", ",", "setControllable", ",", "bool"],
  .proxy ["IPlayer", ",", "bool", ",", "getControllable"],
  .proxy ["IPlayer", ",", "void", ",", "setSpectating", ",", "bool"],
  .proxy ["IPlayer", ",", "void", ",", "setWantedLevel", ",", "unsigned"],
  .proxy ["IPlayer", ",", "unsigned", ",", "getWantedLevel"],
  .proxy ["IPlayer", ",", "void", ",", "playSound", ",", "uint32_t", ",", "Vector3"],
  .proxy ["IPlayer", ",", "uint32_t", ",", "lastPlayedSound"],
  .proxy ["IPlayer", ",", "void", ",", "playAudio", ",", "StringView", ",", "bool", ",", "Vector3", ",", "float"],
  .proxy ["IPlayer", ",", "bool", ",", "playerCrimeReport", ",", "IPlayer", "&", ",", "int"],
  .proxy ["IPlayer", ",", "void", ",", "stopAudio"],
  .proxy ["IPlayer", ",", "StringView", ",", "lastPlayedAudio"],
  .proxy ["IPlayer", ",", "void", ",", "createExplosion", ",", "Vector3", ",", "int", ",", "float"],
  .proxy ["IPlayer", ",", "void", ",", "sendDeathMessage", ",", "IPlayer", "&", ",", "IPlayer", "*", ",", "int"],
  .proxy ["IPlayer", ",", "void", ",", "sendEmptyDeathMessage"],
  .proxy ["IPlayer", ",", "void", ",", "removeDefaultObjects", ",", "unsigned", ",", "Vector3", ",", "float"],
  .proxy ["IPlayer", ",", "void", ",", "forceClassSelection"],
  .proxy ["IPlayer", ",", "void", ",", "setMoney", ",", "int"]
]

/-- The invocations under `include/player`, lines 611 to 670 of `proxies.cpp`. -/
def tablePlayer2 : List Declaration := [
  .proxy ["IPlayer", ",", "void", ",", "giveMoney", ",", "int"],
  .proxy ["IPlayer", ",", "void", ",", "resetMoney"],
  .proxy ["IPlayer", ",", "int", ",", "getMoney"],
  .proxy ["IPlayer", ",", "void", ",", "setMapIcon", ",", "int", ",", "Vector3", ",", "int", ",", "Colour", ",", "MapIconStyle"],
  .proxy ["IPlayer", ",", "void", ",", "unsetMapIcon", ",", "int"],
  .proxy ["IPlayer", ",", "void", ",", "useStuntBonuses", ",", "bool"],
  .proxy ["IPlayer", ",", "void", ",", "toggleOtherNameTag", ",", "IPlayer", "&", ",", "bool"],
  .proxy ["IPlayer", ",", "void", ",", "setTime", ",", "Hours", ",", "Minutes"],
  .proxy ["IPlayer", ",", "HoursMinutesPair", ",", "getTime"],
  .proxy ["IPlayer", ",", "void", ",", "useClock", ",", "bool"],
  .proxy ["IPlayer", ",", "bool", ",", "hasClock"],
  .proxy ["IPlayer", ",", "void", ",", "useWidescreen", ",", "bool"],
  .proxy ["IPlayer", ",", "bool", ",", "hasWidescreen"],
  .proxy ["IPlayer", ",", "void", ",", "setTransform", ",", "GTAQuat"],
  .proxy ["IPlayer", ",", "void", ",", "setHealth", ",", "float"],
  .proxy ["IPlayer", ",", "float", ",", "getHealth"],
  .proxy ["IPlayer", ",", "void", ",", "setScore", ",", "int"],
  .proxy ["IPlayer", ",", "int", ",", "getScore"],
  .proxy ["IPlayer", ",", "void", ",", "setArmour", ",", "float"],
  .proxy ["IPlayer", ",", "float", ",", "getArmour"],
  .proxy ["IPlayer", ",", "void", ",", "setGravity", ",", "float"],
  .proxy ["IPlayer", ",", "float", ",", "getGravity"],
  .proxy ["IPlayer", ",", "void", ",", "setWorldTime", ",", "Hours"],
  .proxy ["IPlayer", ",", "void", ",", "applyAnimation", ",", "const", "AnimationData", "&", ",", "PlayerAnimationSyncType"],
  .proxy ["IPlayer", ",", "void", ",", "clearAnimations", ",", "PlayerAnimationSyncType"],
  .proxy ["IPlayer", ",", "PlayerAnimationData", ",", "getAnimationData"],
  .proxy ["IPlayer", ",", "PlayerSurfingData", ",", "getSurfingData"],
  .proxy ["IPlayer", ",", "void", ",", "streamInForPlayer", ",", "IPlayer", "&"],
  .proxy ["IPlayer", ",", "bool", ",", "isStreamedInForPlayer", ",", "const", "IPlayer", "&"],
  .proxy ["IPlayer", ",", "void", ",", "streamOutForPlayer", ",", "IPlayer", "&"],
  .proxy ["IPlayer", ",", "const", "FlatPtrHashSet", "<", "IPlayer", ">", "&", ",", "streamedForPlayers"],
  .proxy ["IPlayer", ",", "PlayerState", ",", "getState"],
  .proxy ["IPlayer", ",", "void", ",", "setTeam", ",", "int"],
  .proxy ["IPlayer", ",", "int", ",", "getTeam"],
  .proxy ["IPlayer", ",", "void", ",", "setSkin", ",", "int", ",", "bool"],
  .proxy ["IPlayer", ",", "int", ",", "getSkin"],
  .proxy ["IPlayer", ",", "void", ",", "setChatBubble", ",", "StringView", ",", "const", "Colour", "&", ",", "float", ",", "Milliseconds"],
  .proxy ["IPlayer", ",", "void", ",", "sendClientMessage", ",", "const", "Colour", "&", ",", "StringView"],
  .proxy ["IPlayer", ",", "void", ",", "sendChatMessage", ",", "IPlayer", "&", ",", "StringView"],
  .proxy ["IPlayer", ",", "void", ",", "sendCommand", ",", "StringView"],
  .proxy ["IPlayer", ",", "void", ",", "sendGameText", ",", "StringView", ",", "Milliseconds", ",", "int"],
  .proxy ["IPlayer", ",", "void", ",", "hideGameText", ",", "int"],
  .proxy ["IPlayer", ",", "bool", ",", "hasGameText", ",", "int"],
  .proxy ["IPlayer", ",", "bool", ",", "getGameText", ",", "int", ",", "StringView", "&", ",", "Milliseconds", "&", ",", "Milliseconds", "&"],
  .proxy ["IPlayer", ",", "void", ",", "setWeather", ",", "int"],
  .proxy ["IPlayer", ",", "int", ",", "getWeather"],
  .proxy ["IPlayer", ",", "void", ",", "setWorldBounds", ",", "Vector4"],
  .proxy ["IPlayer", ",", "Vector4", ",", "getWorldBounds"],
  .proxy ["IPlayer", ",", "void", ",", "setFightingStyle", ",", "PlayerFightingStyle"],
  .proxy ["IPlayer", ",", "PlayerFightingStyle", ",", "getFightingStyle"],
  .proxy ["IPlayer", ",", "void", ",", "setSkillLevel", ",", "PlayerWeaponSkill", ",", "int"],
  .proxy ["IPlayer", ",", "void", ",", "setAction", ",", "PlayerSpecialAction"],
  .proxy ["IPlayer", ",", "PlayerSpecialAction", ",", "getAction"],
  .proxy ["IPlayer", ",", "void", ",", "setVelocity", ",", "Vector3"],
  .proxy ["IPlayer", ",", "Vector3", ",", "getVelocity"],
  .proxy ["IPlayer", ",", "void", ",", "setInterior", ",", "unsigned"],
  .proxy ["IPlayer", ",", "unsigned", ",", "getInterior"],
  .proxy ["IPlayer", ",", "PlayerKeyData", ",", "getKeyData"],
  .proxy ["IPlayer", ",", "const", "SkillsArray", "&", ",", "getSkillLevels"],
  .proxy ["IPlayer", ",", "PlayerAimData", ",", "getAimData"]
]

/-- The invocations under `include/player`, lines 671 to 714 of `proxies.cpp`. -/
def tablePlayer3 : List Declaration := [
  .proxy ["IPlayer", ",", "PlayerBulletData", ",", "getBulletData"],
  .proxy ["IPlayer", ",", "void", ",", "useCameraTargeting", ",", "bool"],
  .proxy ["IPlayer", ",", "bool", ",", "hasCameraTargeting"],
  .proxy ["IPlayer", ",", "void", ",", "removeFromVehicle", ",", "bool"],
  .proxy ["IPlayer", ",", "IPlayer", "*", ",", "getCameraTargetPlayer"],
  .proxy ["IPlayer", ",", "IVehicle", "*", ",", "getCameraTargetVehicle"],
  .proxy ["IPlayer", ",", "IObject", "*", ",", "getCameraTargetObject"],
  .proxy ["IPlayer", ",", "IActor", "*", ",", "getCameraTargetActor"],
  .proxy ["IPlayer", ",", "IPlayer", "*", ",", "getTargetPlayer"],
  .proxy ["IPlayer", ",", "IActor", "*", ",", "getTargetActor"],
  .proxy ["IPlayer", ",", "void", ",", "setRemoteVehicleCollisions", ",", "bool"],
  .proxy ["IPlayer", ",", "void", ",", "spectatePlayer", ",", "IPlayer", "&", ",", "PlayerSpectateMode"],
  .proxy ["IPlayer", ",", "void", ",", "spectateVehicle", ",", "IVehicle", "&", ",", "PlayerSpectateMode"],
  .proxy ["IPlayer", ",", "PlayerSpectateData", ",", "getSpectateData"],
  .proxy ["IPlayer", ",", "void", ",", "sendClientCheck", ",", "int", ",", "int", ",", "int", ",", "int"],
  .proxy ["IPlayer", ",", "void", ",", "toggleGhostMode", ",", "bool"],
  .proxy ["IPlayer", ",", "bool", ",", "isGhostModeEnabled"],
  .proxy ["IPlayer", ",", "int", ",", "getDefaultObjectsRemoved"],
  .proxy ["IPlayer", ",", "bool", ",", "getKickStatus"],
  .proxy ["IPlayer", ",", "void", ",", "clearTasks", ",", "PlayerAnimationSyncType"],
  .proxy ["IPlayer", ",", "void", ",", "allowWeapons", ",", "bool"],
  .proxy ["IPlayer", ",", "bool", ",", "areWeaponsAllowed"],
  .proxy ["IPlayer", ",", "void", ",", "allowTeleport", ",", "bool"],
  .proxy ["IPlayer", ",", "bool", ",", "isTeleportAllowed"],
  .proxy ["IPlayer", ",", "bool", ",", "isUsingOfficialClient"],
  .proxy ["IPlayerPool", ",", "const", "FlatPtrHashSet", "<", "IPlayer", ">", "&", ",", "entries"],
  .proxy ["IPlayerPool", ",", "const", "FlatPtrHashSet", "<", "IPlayer", ">", "&", ",", "players"],
  .proxy ["IPlayerPool", ",", "const", "FlatPtrHashSet", "<", "IPlayer", ">", "&", ",", "bots"],
  .proxy ["IPlayerPool", ",", "bool", ",", "isNameTaken", ",", "StringView", ",", "const", "IPlayer", "*"],
  .proxy ["IPlayerPool", ",", "void", ",", "sendClientMessageToAll", ",", "const", "Colour", "&", ",", "StringView"],
  .proxy ["IPlayerPool", ",", "void", ",", "sendChatMessageToAll", ",", "IPlayer", "&", ",", "StringView"],
  .proxy ["IPlayerPool", ",", "void", ",", "sendGameTextToAll", ",", "StringView", ",", "Milliseconds", ",", "int"],
  .proxy ["IPlayerPool", ",", "void", ",", "hideGameTextForAll", ",", "int"],
  .proxy ["IPlayerPool", ",", "void", ",", "sendDeathMessageToAll", ",", "IPlayer", "*", ",", "IPlayer", "&", ",", "int"],
  .proxy ["IPlayerPool", ",", "void", ",", "sendEmptyDeathMessageToAll"],
  .proxy ["IPlayerPool", ",", "void", ",", "createExplosionForAll", ",", "Vector3", ",", "int", ",", "float"],
  .proxy ["IPlayerPool", ",", "NewConnectionPlayerPair", ",", "requestPlayer", ",", "const", "PeerNetworkData", "&", ",", "const", "PeerRequestParams", "&"],
  .proxy ["IPlayerPool", ",", "void", ",", "broadcastPacket", ",", "Span", "<", "uint8_t", ">", ",", "int", ",", "const", "IPlayer", "*", ",", "bool"],
  .proxy ["IPlayerPool", ",", "void", ",", "broadcastRPC", ",", "int", ",", "Span", "<", "uint8_t", ">", ",", "int", ",", "const", "IPlayer", "*", ",", "bool"],
  .proxy ["IPlayerPool", ",", "bool", ",", "isNameValid", ",", "StringView"],
  .proxy ["IPlayerPool", ",", "void", ",", "allowNickNameCharacter", ",", "char", ",", "bool"],
  .proxy ["IPlayerPool", ",", "bool", ",", "isNickNameCharacterAllowed", ",", "char"],
  .proxy ["IPlayerPool", ",", "Colour", ",", "getDefaultColour", ",", "int"]
]

/-- The declaration table of `proxies.cpp`, lines 75 to 714, in source order. -/
def table : List Declaration :=
  tableActors ++ tableCheckpoints ++ tableClasses ++ tableConsole ++ tableCustomModels ++
  tableDialogs ++ tableFixes ++ tableGangZones ++ tableLegacyConfig ++ tableMenus ++
  tableObjects ++ tablePickups ++ tableRecordings ++ tableTextDraws ++ tableTextLabels ++
  tableVehicles1 ++ tableVehicles2 ++ tableComponent ++ tableCore ++ tableEntity ++
  tablePlayer1 ++ tablePlayer2 ++ tablePlayer3

/-- The declarations of `proxies.cpp` from line 64 on, in source order: the
alias declarations of lines 64 to 70, then the table of lines 75 to 714. -/
def declarations : List Item :=
  (aliases.map fun a => Item.typeAlias a.1 a.2) ++ table.map Item.invocation

/-! ## Cutting and joining arguments -/

theorem macroArgsAux_append (a : Arg) :
    ∀ (d : Nat) (cur : Arg) (rest : List Tok), isArgAux d a = true →
      macroArgsAux d cur (a ++ rest) = macroArgsAux 0 (cur ++ a) rest := by
  induction a with
  | nil =>
    intro d cur rest h
    simp [isArgAux] at h
    simp [h]
  | cons t ts ih =>
    intro d cur rest h
    unfold isArgAux at h
    split at h
    · simp at h
    · rename_i hn
      have hc : ¬ (t = "," ∧ d = 0) := fun hh => hn ⟨hh.2, Or.inl hh.1⟩
      have e : macroArgsAux d cur (t :: (ts ++ rest))
          = macroArgsAux (depthStep d t) (cur ++ [t]) (ts ++ rest) := by
        simp only [macroArgsAux, hc, if_false]
      rw [List.cons_append, e, ih _ _ _ h]
      simp

theorem macroArgsAux_joinArgs (as : List Arg) :
    ∀ (a cur : Arg), isArg a = true → (∀ b ∈ as, isArg b = true) →
      macroArgsAux 0 cur (joinArgs (a :: as)) = (cur ++ a) :: as := by
  induction as with
  | nil =>
    intro a cur ha _
    have := macroArgsAux_append a 0 cur [] ha
    simpa [joinArgs, macroArgsAux] using this
  | cons b rest ih =>
    intro a cur ha hb
    have hb1 : isArg b = true := hb b (by simp)
    have hb2 : ∀ c ∈ rest, isArg c = true := fun c hc => hb c (by simp [hc])
    rw [joinArgs, macroArgsAux_append a 0 cur _ ha]
    simp [macroArgsAux, ih b [] hb1 hb2]

theorem macroArgs_joinArgs (a : Arg) (as : List Arg)
    (h : ∀ b ∈ a :: as, isArg b = true) : macroArgs (joinArgs (a :: as)) = a :: as := by
  have := macroArgsAux_joinArgs as a [] (h a (by simp)) (fun b hb => h b (by simp [hb]))
  simpa [macroArgs] using this

theorem macroArgs_nil : macroArgs [] = [[]] := rfl


theorem markers_isArg : ∀ b ∈ markers, isArg b = true := by decide

theorem joinArgs_append (a : Arg) (as : List Arg) (b : Arg) (bs : List Arg) :
    joinArgs (a :: as) ++ "," :: joinArgs (b :: bs) = joinArgs ((a :: as) ++ b :: bs) := by
  induction as generalizing a with
  | nil => simp [joinArgs]
  | cons c cs ih =>
    have := ih c
    simp only [List.cons_append] at this ⊢
    simp [joinArgs, this]

theorem joinArgs_padding (a : Arg) (as : List Arg) :
    joinArgs (a :: as) ++ padding = joinArgs ((a :: as) ++ markers) := by
  have := joinArgs_append a as ["10"] (markers.tail)
  simpa [markers, joinArgs, padding] using this

theorem _EXPAND_PARAM1_cons (T : Arg) (Ts : List Arg) (h : ∀ b ∈ T :: Ts, isArg b = true) :
    _EXPAND_PARAM1 (joinArgs (T :: Ts)) = T ++ ["_1"] := by
  simp [_EXPAND_PARAM1, macroArgs_joinArgs T Ts h, macroParam]

theorem _EXPAND_PARAM2_cons (T : Arg) (Ts : List Arg) (h : ∀ b ∈ T :: Ts, isArg b = true) :
    _EXPAND_PARAM2 (joinArgs (T :: Ts)) = T ++ ["_2", ","] ++ _EXPAND_PARAM1 (joinArgs Ts) := by
  simp [_EXPAND_PARAM2, macroArgs_joinArgs T Ts h, macroParam, __VA_ARGS__]

theorem _EXPAND_ARG2_cons (T : Arg) (Ts : List Arg) (h : ∀ b ∈ T :: Ts, isArg b = true) :
    _EXPAND_ARG2 (joinArgs (T :: Ts)) = ["_2", ","] ++ _EXPAND_ARG1 (joinArgs Ts) := by
  simp [_EXPAND_ARG2, macroArgs_joinArgs T Ts h, __VA_ARGS__]

theorem _EXPAND_PARAM3_cons (T : Arg) (Ts : List Arg) (h : ∀ b ∈ T :: Ts, isArg b = true) :
    _EXPAND_PARAM3 (joinArgs (T :: Ts)) = T ++ ["_3", ","] ++ _EXPAND_PARAM2 (joinArgs Ts) := by
  simp [_EXPAND_PARAM3, macroArgs_joinArgs T Ts h, macroParam, __VA_ARGS__]

theorem _EXPAND_ARG3_cons (T : Arg) (Ts : List Arg) (h : ∀ b ∈ T :: Ts, isArg b = true) :
    _EXPAND_ARG3 (joinArgs (T :: Ts)) = ["_3", ","] ++ _EXPAND_ARG2 (joinArgs Ts) := by
  simp [_EXPAND_ARG3, macroArgs_joinArgs T Ts h, __VA_ARGS__]

theorem _EXPAND_PARAM4_cons (T : Arg) (Ts : List Arg) (h : ∀ b ∈ T :: Ts, isArg b = true) :
    _EXPAND_PARAM4 (joinArgs (T :: Ts)) = T ++ ["_4", ","] ++ _EXPAND_PARAM3 (joinArgs Ts) := by
  simp [_EXPAND_PARAM4, macroArgs_joinArgs T Ts h, macroParam, __VA_ARGS__]

theorem _EXPAND_ARG4_cons (T : Arg) (Ts : List Arg) (h : ∀ b ∈ T :: Ts, isArg b = true) :
    _EXPAND_ARG4 (joinArgs (T :: Ts)) = ["_4", ","] ++ _EXPAND_ARG3 (joinArgs Ts) := by
  simp [_EXPAND_ARG4, macroArgs_joinArgs T Ts h, __VA_ARGS__]

theorem _EXPAND_PARAM5_cons (T : Arg) (Ts : List Arg) (h : ∀ b ∈ T :: Ts, isArg b = true) :
    _EXPAND_PARAM5 (joinArgs (T :: Ts)) = T ++ ["_5", ","] ++ _EXPAND_PARAM4 (joinArgs Ts) := by
  simp [_EXPAND_PARAM5, macroArgs_joinArgs T Ts h, macroParam, __VA_ARGS__]

theorem _EXPAND_ARG5_cons (T : Arg) (Ts : List Arg) (h : ∀ b ∈ T :: Ts, isArg b = true) :
    _EXPAND_ARG5 (joinArgs (T :: Ts)) = ["_5", ","] ++ _EXPAND_ARG4 (joinArgs Ts) := by
  simp [_EXPAND_ARG5, macroArgs_joinArgs T Ts h, __VA_ARGS__]

theorem _EXPAND_PARAM6_cons (T : Arg) (Ts : List Arg) (h : ∀ b ∈ T :: Ts, isArg b = true) :
    _EXPAND_PARAM6 (joinArgs (T :: Ts)) = T ++ ["_6", ","] ++ _EXPAND_PARAM5 (joinArgs Ts) := by
  simp [_EXPAND_PARAM6, macroArgs_joinArgs T Ts h, macroParam, __VA_ARGS__]

theorem _EXPAND_ARG6_cons (T : Arg) (Ts : List Arg) (h : ∀ b ∈ T :: Ts, isArg b = true) :
    _EXPAND_ARG6 (joinArgs (T :: Ts)) = ["_6", ","] ++ _EXPAND_ARG5 (joinArgs Ts) := by
  simp [_EXPAND_ARG6, macroArgs_joinArgs T Ts h, __VA_ARGS__]

theorem _EXPAND_PARAM7_cons (T : Arg) (Ts : List Arg) (h : ∀ b ∈ T :: Ts, isArg b = true) :
    _EXPAND_PARAM7 (joinArgs (T :: Ts)) = T ++ ["_7", ","] ++ _EXPAND_PARAM6 (joinArgs Ts) := by
  simp [_EXPAND_PARAM7, macroArgs_joinArgs T Ts h, macroParam, __VA_ARGS__]

theorem _EXPAND_ARG7_cons (T : Arg) (Ts : List Arg) (h : ∀ b ∈ T :: Ts, isArg b = true) :
    _EXPAND_ARG7 (joinArgs (T :: Ts)) = ["_7", ","] ++ _EXPAND_ARG6 (joinArgs Ts) := by
  simp [_EXPAND_ARG7, macroArgs_joinArgs T Ts h, __VA_ARGS__]

theorem _EXPAND_PARAM8_cons (T : Arg) (Ts : List Arg) (h : ∀ b ∈ T :: Ts, isArg b = true) :
    _EXPAND_PARAM8 (joinArgs (T :: Ts)) = T ++ ["_8", ","] ++ _EXPAND_PARAM7 (joinArgs Ts) := by
  simp [_EXPAND_PARAM8, macroArgs_joinArgs T Ts h, macroParam, __VA_ARGS__]

theorem _EXPAND_ARG8_cons (T : Arg) (Ts : List Arg) (h : ∀ b ∈ T :: Ts, isArg b = true) :
    _EXPAND_ARG8 (joinArgs (T :: Ts)) = ["_8", ","] ++ _EXPAND_ARG7 (joinArgs Ts) := by
  simp [_EXPAND_ARG8, macroArgs_joinArgs T Ts h, __VA_ARGS__]

theorem _EXPAND_PARAM9_cons (T : Arg) (Ts : List Arg) (h : ∀ b ∈ T :: Ts, isArg b = true) :
    _EXPAND_PARAM9 (joinArgs (T :: Ts)) = T ++ ["_9", ","] ++ _EXPAND_PARAM8 (joinArgs Ts) := by
  simp [_EXPAND_PARAM9, macroArgs_joinArgs T Ts h, macroParam, __VA_ARGS__]

theorem _EXPAND_ARG9_cons (T : Arg) (Ts : List Arg) (h : ∀ b ∈ T :: Ts, isArg b = true) :
    _EXPAND_ARG9 (joinArgs (T :: Ts)) = ["_9", ","] ++ _EXPAND_ARG8 (joinArgs Ts) := by
  simp [_EXPAND_ARG9, macroArgs_joinArgs T Ts h, __VA_ARGS__]

theorem _EXPAND_PARAM10_cons (T : Arg) (Ts : List Arg) (h : ∀ b ∈ T :: Ts, isArg b = true) :
    _EXPAND_PARAM10 (joinArgs (T :: Ts)) = T ++ ["_10", ","] ++ _EXPAND_PARAM9 (joinArgs Ts) := by
  simp [_EXPAND_PARAM10, macroArgs_joinArgs T Ts h, macroParam, __VA_ARGS__]

theorem _EXPAND_ARG10_cons (T : Arg) (Ts : List Arg) (h : ∀ b ∈ T :: Ts, isArg b = true) :
    _EXPAND_ARG10 (joinArgs (T :: Ts)) = ["_10", ","] ++ _EXPAND_ARG9 (joinArgs Ts) := by
  simp [_EXPAND_ARG10, macroArgs_joinArgs T Ts h, __VA_ARGS__]

theorem _EXPAND_PARAM_N_joinArgs (T : Arg) (Ts : List Arg) (h : ∀ b ∈ T :: Ts, isArg b = true) :
    _EXPAND_PARAM_N (joinArgs (T :: Ts) ++ padding)
      = some (paste ["_EXPAND_PARAM"] (((T :: Ts) ++ markers).getD 10 [])) := by
  have h' : ∀ b ∈ T :: (Ts ++ markers), isArg b = true := by
    intro b hb
    rcases List.mem_cons.1 hb with hb | hb
    · exact h b (by simp [hb])
    · rcases List.mem_append.1 hb with hb | hb
      · exact h b (by simp [hb])
      · exact markers_isArg b hb
  have hlen : ¬ (Ts ++ markers).length + 1 < 11 := by simp [markers]
  rw [joinArgs_padding]
  simp only [_EXPAND_PARAM_N, List.cons_append, macroArgs_joinArgs T (Ts ++ markers) h',
    List.length_cons, hlen, if_false, macroParam]

theorem _EXPAND_ARG_N_joinArgs (T : Arg) (Ts : List Arg) (h : ∀ b ∈ T :: Ts, isArg b = true) :
    _EXPAND_ARG_N (joinArgs (T :: Ts) ++ padding)
      = some (paste ["_EXPAND_ARG"] (((T :: Ts) ++ markers).getD 10 [])) := by
  have h' : ∀ b ∈ T :: (Ts ++ markers), isArg b = true := by
    intro b hb
    rcases List.mem_cons.1 hb with hb | hb
    · exact h b (by simp [hb])
    · rcases List.mem_append.1 hb with hb | hb
      · exact h b (by simp [hb])
      · exact markers_isArg b hb
  have hlen : ¬ (Ts ++ markers).length + 1 < 11 := by simp [markers]
  rw [joinArgs_padding]
  simp only [_EXPAND_ARG_N, List.cons_append, macroArgs_joinArgs T (Ts ++ markers) h',
    List.length_cons, hlen, if_false, macroParam]


theorem positionalNames_le_ten : ∀ n, n ≤ 10 → positionalNames n =
    List.drop (10 - n) ["_10", "_9", "_8", "_7", "_6", "_5", "_4", "_3", "_2", "_1"] := by
  decide

theorem _EXPAND_PARAM_joinArgs (Ts : List Arg) (h1 : Ts ≠ []) (h10 : Ts.length ≤ 10)
    (h : ∀ b ∈ Ts, isArg b = true) :
    _EXPAND_PARAM (joinArgs Ts) = some (joinArgs (formalList Ts)) := by
  rcases Ts with _ | ⟨a1, _ | ⟨a2, _ | ⟨a3, _ | ⟨a4, _ | ⟨a5, _ | ⟨a6, _ | ⟨a7, _ | ⟨a8, _ | ⟨a9, _ | ⟨a10, _ | ⟨a11, _⟩⟩⟩⟩⟩⟩⟩⟩⟩⟩⟩
  all_goals first
    | exact absurd rfl h1
    | (exfalso; simp only [List.length_cons] at h10; omega)
    | (have hsel := _EXPAND_PARAM_N_joinArgs _ _ h
       have hsplit := macroArgs_joinArgs _ _ h
       have hn := positionalNames_le_ten _ h10
       simp only [List.forall_mem_cons] at h
       simp only [_EXPAND_PARAM, hsplit, __VA_ARGS__, List.drop_zero, hsel, Option.map_some',
         formalList, hn]
       simp [markers, paste, invokeParam, h, _EXPAND_PARAM1_cons, _EXPAND_PARAM2_cons, _EXPAND_PARAM3_cons, _EXPAND_PARAM4_cons, _EXPAND_PARAM5_cons, _EXPAND_PARAM6_cons, _EXPAND_PARAM7_cons, _EXPAND_PARAM8_cons, _EXPAND_PARAM9_cons, _EXPAND_PARAM10_cons]
       simp [joinArgs])

theorem _EXPAND_ARG_joinArgs (Ts : List Arg) (h1 : Ts ≠ []) (h10 : Ts.length ≤ 10)
    (h : ∀ b ∈ Ts, isArg b = true) :
    _EXPAND_ARG (joinArgs Ts) = some (joinArgs ((positionalNames Ts.length).map fun x => [x])) := by
  rcases Ts with _ | ⟨a1, _ | ⟨a2, _ | ⟨a3, _ | ⟨a4, _ | ⟨a5, _ | ⟨a6, _ | ⟨a7, _ | ⟨a8, _ | ⟨a9, _ | ⟨a10, _ | ⟨a11, _⟩⟩⟩⟩⟩⟩⟩⟩⟩⟩⟩
  all_goals first
    | exact absurd rfl h1
    | (exfalso; simp only [List.length_cons] at h10; omega)
    | (have hsel := _EXPAND_ARG_N_joinArgs _ _ h
       have hsplit := macroArgs_joinArgs _ _ h
       have hn := positionalNames_le_ten _ h10
       simp only [List.forall_mem_cons] at h
       simp only [_EXPAND_ARG, hsplit, __VA_ARGS__, List.drop_zero, hsel, Option.map_some', hn]
       simp [markers, paste, invokeArg, h, _EXPAND_ARG1, _EXPAND_ARG2_cons, _EXPAND_ARG3_cons, _EXPAND_ARG4_cons, _EXPAND_ARG5_cons, _EXPAND_ARG6_cons, _EXPAND_ARG7_cons, _EXPAND_ARG8_cons, _EXPAND_ARG9_cons, _EXPAND_ARG10_cons]
       simp [joinArgs])

theorem joinArgs_ne_nil (T : Arg) (Ts : List Arg) (h : T ≠ []) : joinArgs (T :: Ts) ≠ [] := by
  cases Ts with
  | nil => simpa [joinArgs] using h
  | cons b bs => simp [joinArgs, h]

theorem joinArgs_cons (a : Arg) (as : List Arg) (h : as ≠ []) :
    joinArgs (a :: as) = a ++ "," :: joinArgs as := by
  cases as with
  | nil => exact absurd rfl h
  | cons b bs => rfl

theorem formalList_ne_nil (Ts : List Arg) (h1 : Ts ≠ []) : formalList Ts ≠ [] := by
  cases Ts with
  | nil => exact absurd rfl h1
  | cons b bs => simp [formalList, positionalNames]

theorem isArg_nil : isArg [] = true := rfl

/-- The first step of `PROXY_OVERLOAD`: binding the parameters. -/
theorem PROXY_OVERLOAD_bind (S R m t : Arg) (rest : List Arg)
    (h : ∀ b ∈ S :: R :: m :: t :: rest, isArg b = true) :
    PROXY_OVERLOAD (joinArgs (S :: R :: m :: t :: rest)) =
      (__VA_OPT__ (joinArgs rest) ((_EXPAND_PARAM (joinArgs rest)).map fun ps => "," :: ps)).bind
        fun formal => (__VA_OPT__ (joinArgs rest) (_EXPAND_ARG (joinArgs rest))).map fun actual =>
          { returnType := R
            name := symbol S m t
            params := S ++ ["*", "subject"] ++ formal
            callee := m
            args := actual } := by
  have hsplit := macroArgs_joinArgs S (R :: m :: t :: rest) h
  simp [PROXY_OVERLOAD, hsplit, macroParam, __VA_ARGS__]

/-- The function written by `PROXY_OVERLOAD` for subject `S`, return type `R`,
method `m`, tag `t` and at most ten parameter types `Ts`. -/
theorem PROXY_OVERLOAD_joinArgs (S R m t : Arg) (Ts : List Arg)
    (hS : isArg S = true) (hR : isArg R = true) (hm : isArg m = true) (ht : isArg t = true)
    (hTs : ∀ T ∈ Ts, isArg T = true ∧ T ≠ []) (hN : Ts.length ≤ 10) :
    PROXY_OVERLOAD (joinArgs (S :: R :: m :: t :: Ts)) = some
      { returnType := R
        name := symbol S m t
        params := joinArgs ((S ++ ["*", "subject"]) :: formalList Ts)
        callee := m
        args := joinArgs ((positionalNames Ts.length).map fun x => [x]) } := by
  have hall : ∀ b ∈ S :: R :: m :: t :: Ts, isArg b = true := by
    intro b hb
    simp only [List.mem_cons] at hb
    rcases hb with rfl | rfl | rfl | rfl | hb
    · exact hS
    · exact hR
    · exact hm
    · exact ht
    · exact (hTs b hb).1
  rw [PROXY_OVERLOAD_bind S R m t Ts hall]
  cases Ts with
  | nil => simp [joinArgs, __VA_OPT__, formalList, positionalNames]
  | cons T Ts =>
    have hne : joinArgs (T :: Ts) ≠ [] := joinArgs_ne_nil T Ts (hTs T (by simp)).2
    have hT : ∀ b ∈ T :: Ts, isArg b = true := fun b hb => (hTs b hb).1
    rw [_EXPAND_PARAM_joinArgs (T :: Ts) (by simp) hN hT,
      _EXPAND_ARG_joinArgs (T :: Ts) (by simp) hN hT]
    simp [__VA_OPT__, hne, joinArgs_cons _ _ (formalList_ne_nil (T :: Ts) (by simp))]

/-- The function written by `PROXY`: that of `PROXY_OVERLOAD` with an empty tag. -/
theorem PROXY_joinArgs (S R m : Arg) (Ts : List Arg)
    (hS : isArg S = true) (hR : isArg R = true) (hm : isArg m = true)
    (hTs : ∀ T ∈ Ts, isArg T = true) :
    PROXY (joinArgs (S :: R :: m :: Ts)) = PROXY_OVERLOAD (joinArgs (S :: R :: m :: [] :: Ts)) := by
  have hall : ∀ b ∈ S :: R :: m :: Ts, isArg b = true := by
    intro b hb
    simp only [List.mem_cons] at hb
    rcases hb with rfl | rfl | rfl | hb
    · exact hS
    · exact hR
    · exact hm
    · exact hTs b hb
  have hsplit := macroArgs_joinArgs S (R :: m :: Ts) hall
  cases Ts with
  | nil =>
    have h5 : ∀ b ∈ S :: R :: m :: [] :: [[]], isArg b = true := by
      intro b hb
      simp only [List.mem_cons, List.mem_singleton] at hb
      rcases hb with rfl | rfl | rfl | rfl | hb
      · exact hS
      · exact hR
      · exact hm
      · rfl
      · simp at hb
        subst hb; rfl
    have h4 : ∀ b ∈ S :: R :: m :: [] :: [], isArg b = true := fun b hb => h5 b (by
      simp only [List.mem_cons] at hb ⊢
      tauto)
    have e : S ++ [","] ++ R ++ [","] ++ m ++ [",", ","] ++ joinArgs [] =
        joinArgs (S :: R :: m :: [] :: [[]]) := by simp [joinArgs]
    simp only [PROXY, hsplit, macroParam, __VA_ARGS__, List.drop, List.length_cons,
      List.length_nil, List.getD_cons_zero, List.getD_cons_succ]
    rw [if_neg (by omega), e, PROXY_OVERLOAD_bind S R m [] [[]] h5,
      PROXY_OVERLOAD_bind S R m [] [] h4]
    simp [joinArgs]
  | cons T Ts =>
    have e : S ++ [","] ++ R ++ [","] ++ m ++ [",", ","] ++ joinArgs (T :: Ts) =
        joinArgs (S :: R :: m :: [] :: T :: Ts) := by simp [joinArgs]
    simp only [PROXY, hsplit, macroParam, __VA_ARGS__, List.drop, List.length_cons,
      List.getD_cons_zero, List.getD_cons_succ]
    rw [if_neg (by omega), e]

theorem isArgAux_append (a b : Arg) : ∀ d, isArgAux d a = true → isArgAux 0 b = true →
    isArgAux d (a ++ b) = true := by
  induction a with
  | nil =>
    intro d ha hb
    simp [isArgAux] at ha
    simpa [ha] using hb
  | cons t ts ih =>
    intro d ha hb
    unfold isArgAux at ha
    split at ha
    · simp at ha
    · rename_i hn
      rw [List.cons_append, isArgAux, if_neg hn]
      exact ih _ ha hb

theorem isArg_append (a b : Arg) (ha : isArg a = true) (hb : isArg b = true) :
    isArg (a ++ b) = true := isArgAux_append a b 0 ha hb


theorem positionalNames_isArg : ∀ n, n ≤ 10 → ∀ x ∈ positionalNames n, isArg [x] = true := by
  decide

theorem callArgs_positionalNames : ∀ n, n ≤ 10 →
    callArgs (joinArgs ((positionalNames n).map fun x => [x])) =
      (positionalNames n).map fun x => [x] := by
  decide

theorem formalList_isArg (Ts : List Arg) (hTs : ∀ T ∈ Ts, isArg T = true) (hN : Ts.length ≤ 10) :
    ∀ p ∈ formalList Ts, isArg p = true := by
  intro p hp
  unfold formalList at hp
  rw [← List.map_uncurry_zip_eq_zipWith] at hp
  obtain ⟨⟨T, x⟩, hmem, rfl⟩ := List.mem_map.1 hp
  have h := List.of_mem_zip hmem
  exact isArg_append T [x] (hTs T h.1) (positionalNames_isArg _ hN x h.2)

theorem macroArgs_params (S : Arg) (Ts : List Arg) (hS : isArg S = true)
    (hTs : ∀ T ∈ Ts, isArg T = true) (hN : Ts.length ≤ 10) :
    macroArgs (joinArgs ((S ++ ["*", "subject"]) :: formalList Ts)) =
      (S ++ ["*", "subject"]) :: formalList Ts := by
  apply macroArgs_joinArgs
  intro b hb
  rcases List.mem_cons.1 hb with rfl | hb
  · exact isArg_append _ _ hS (by decide)
  · exact formalList_isArg Ts hTs hN b hb

theorem call_PROXY_OVERLOAD {σ V E : Type} (S R m t : Arg) (Ts : List Arg)
    (hS : isArg S = true) (hTs : ∀ T ∈ Ts, isArg T = true) (hN : Ts.length ≤ 10)
    (methods : List Tok → V → List V → σ → Except E V × σ)
    (subject : V) (values : List V) (hv : values.length = Ts.length) (s : σ) :
    FunctionDefinition.call
      { returnType := R
        name := symbol S m t
        params := joinArgs ((S ++ ["*", "subject"]) :: formalList Ts)
        callee := m
        args := joinArgs ((positionalNames Ts.length).map fun x => [x]) }
      methods (subject :: values) s = some (methods m subject values s) := by
  have hsplit := macroArgs_params S Ts hS hTs hN
  have hargs := callArgs_positionalNames _ hN
  have hn := positionalNames_le_ten _ hN
  simp only [FunctionDefinition.call, hsplit, hargs]
  rcases Ts with _ | ⟨a1, _ | ⟨a2, _ | ⟨a3, _ | ⟨a4, _ | ⟨a5, _ | ⟨a6, _ | ⟨a7, _ | ⟨a8, _ | ⟨a9, _ | ⟨a10, _ | ⟨a11, _⟩⟩⟩⟩⟩⟩⟩⟩⟩⟩⟩
  all_goals first
    | (exfalso; simp only [List.length_cons] at hN; omega)
    | (rcases values with _ | ⟨v1, _ | ⟨v2, _ | ⟨v3, _ | ⟨v4, _ | ⟨v5, _ | ⟨v6, _ | ⟨v7, _ | ⟨v8, _ | ⟨v9, _ | ⟨v10, _ | ⟨v11, _⟩⟩⟩⟩⟩⟩⟩⟩⟩⟩⟩
       all_goals first
         | (exfalso; simp only [List.length_cons, List.length_nil] at hv; omega)
         | skip)
  all_goals
    simp only [formalList, hn]
    simp [paramName, allSome, argValue, List.lookup]

/-! ## Names -/

theorem String.append_left_cancel (a x y : String) (h : a ++ x = a ++ y) : x = y := by
  have := congrArg String.data h
  simp only [String.data_append] at this
  exact String.ext (List.append_cancel_left this)

theorem String.eq_append_self (a x : String) (h : a = a ++ x) : x = "" := by
  have := congrArg String.data h
  simp only [String.data_append] at this
  have hx : x.data = [] := by simpa using this
  exact String.ext hx

theorem symbol_untagged (S m : Tok) : symbol [S] [m] [] = [S ++ "_" ++ m] := by
  simp [symbol, paste]

theorem symbol_tagged (S m x : Tok) : symbol [S] [m] [x] = [S ++ "_" ++ m ++ x] := by
  simp [symbol, paste]

theorem symbol_ne_of_tag_ne (S m : Tok) (t1 t2 : Arg) (h1 : isTag t1 = true) (h2 : isTag t2 = true)
    (hne : t1 ≠ t2) : symbol [S] [m] t1 ≠ symbol [S] [m] t2 := by
  intro h
  match t1, t2, h1, h2 with
  | [], [], _, _ => exact hne rfl
  | [], [y], _, h2 =>
    rw [symbol_untagged, symbol_tagged] at h
    have := String.eq_append_self _ _ (List.singleton_inj.1 h)
    simp [isTag, this] at h2
  | [x], [], h1, _ =>
    rw [symbol_untagged, symbol_tagged] at h
    have := String.eq_append_self _ _ (List.singleton_inj.1 h).symm
    simp [isTag, this] at h1
  | [x], [y], _, _ =>
    rw [symbol_tagged, symbol_tagged] at h
    have := String.append_left_cancel _ _ _ (List.singleton_inj.1 h)
    exact hne (by rw [this])
  | _ :: _ :: _, _, h1, _ => simp [isTag] at h1
  | [], _ :: _ :: _, _, h2 => simp [isTag] at h2
  | [_], _ :: _ :: _, _, h2 => simp [isTag] at h2

/-! ## The header of a generated function, for any number of arguments -/

theorem _EXPAND_PARAM_cons (T : Arg) (Ts : List Arg) (h : ∀ b ∈ T :: Ts, isArg b = true) :
    _EXPAND_PARAM (joinArgs (T :: Ts)) = some (invokeParam
      (paste ["_EXPAND_PARAM"] (((T :: Ts) ++ markers).getD 10 [])) (joinArgs (T :: Ts))) := by
  simp only [_EXPAND_PARAM, macroArgs_joinArgs T Ts h, __VA_ARGS__, List.drop_zero,
    _EXPAND_PARAM_N_joinArgs T Ts h, Option.map_some']

theorem _EXPAND_ARG_cons (T : Arg) (Ts : List Arg) (h : ∀ b ∈ T :: Ts, isArg b = true) :
    _EXPAND_ARG (joinArgs (T :: Ts)) = some (invokeArg
      (paste ["_EXPAND_ARG"] (((T :: Ts) ++ markers).getD 10 [])) (joinArgs (T :: Ts))) := by
  simp only [_EXPAND_ARG, macroArgs_joinArgs T Ts h, __VA_ARGS__, List.drop_zero,
    _EXPAND_ARG_N_joinArgs T Ts h, Option.map_some']

theorem PROXY_OVERLOAD_header (S R m t : Arg) (rest : List Arg)
    (h : ∀ b ∈ S :: R :: m :: t :: rest, isArg b = true) :
    ∃ f, PROXY_OVERLOAD (joinArgs (S :: R :: m :: t :: rest)) = some f ∧
      f.returnType = R ∧ f.name = symbol S m t ∧ f.callee = m := by
  rw [PROXY_OVERLOAD_bind S R m t rest h]
  cases rest with
  | nil => simp [joinArgs, __VA_OPT__]
  | cons T Ts =>
    have hT : ∀ b ∈ T :: Ts, isArg b = true := fun b hb => h b (by
      simp only [List.mem_cons] at hb ⊢
      tauto)
    rw [_EXPAND_PARAM_cons T Ts hT, _EXPAND_ARG_cons T Ts hT]
    by_cases hva : joinArgs (T :: Ts) = []
    · simp [__VA_OPT__, hva]
    · simp [__VA_OPT__, hva]

/-! ## More than ten arguments -/

theorem digit_of_marker : ∀ k ∈ ["10", "9", "8", "7", "6", "5", "4", "3", "2", "1", "0"],
    (String.get k 0).isDigit = true := by decide

theorem paste_type_ne_marker (p : String) (T : Arg) (hT : isType T = true) :
    ∀ k ∈ ["10", "9", "8", "7", "6", "5", "4", "3", "2", "1", "0"],
      paste [p] T ≠ [p ++ k] := by
  intro k hk h
  match T, hT with
  | [], hT => simp [isType] at hT
  | [x], hT =>
    have hx : (x.get 0).isDigit = false := by
      simp only [isType, Bool.and_eq_true, Bool.not_eq_true'] at hT
      exact hT.2.1
    simp only [paste, List.getLast?_singleton, List.dropLast_single, List.nil_append] at h
    have := String.append_left_cancel _ _ _ (List.singleton_inj.1 h)
    rw [this, digit_of_marker k hk] at hx
    exact Bool.noConfusion hx
  | x :: y :: ys, _ =>
    simp [paste] at h

theorem invokeParam_type (T : Arg) (hT : isType T = true) (va : List Tok) :
    invokeParam (paste ["_EXPAND_PARAM"] T) va = paste ["_EXPAND_PARAM"] T ++ ["("] ++ va ++ [")"] := by
  have h := paste_type_ne_marker "_EXPAND_PARAM" T hT
  have h1 : paste ["_EXPAND_PARAM"] T ≠ ["_EXPAND_PARAM1"] := h "1" (by decide)
  have h2 : paste ["_EXPAND_PARAM"] T ≠ ["_EXPAND_PARAM2"] := h "2" (by decide)
  have h3 : paste ["_EXPAND_PARAM"] T ≠ ["_EXPAND_PARAM3"] := h "3" (by decide)
  have h4 : paste ["_EXPAND_PARAM"] T ≠ ["_EXPAND_PARAM4"] := h "4" (by decide)
  have h5 : paste ["_EXPAND_PARAM"] T ≠ ["_EXPAND_PARAM5"] := h "5" (by decide)
  have h6 : paste ["_EXPAND_PARAM"] T ≠ ["_EXPAND_PARAM6"] := h "6" (by decide)
  have h7 : paste ["_EXPAND_PARAM"] T ≠ ["_EXPAND_PARAM7"] := h "7" (by decide)
  have h8 : paste ["_EXPAND_PARAM"] T ≠ ["_EXPAND_PARAM8"] := h "8" (by decide)
  have h9 : paste ["_EXPAND_PARAM"] T ≠ ["_EXPAND_PARAM9"] := h "9" (by decide)
  have h10 : paste ["_EXPAND_PARAM"] T ≠ ["_EXPAND_PARAM10"] := h "10" (by decide)
  simp only [invokeParam, if_neg h1, if_neg h2, if_neg h3, if_neg h4, if_neg h5, if_neg h6,
    if_neg h7, if_neg h8, if_neg h9, if_neg h10]

theorem invokeArg_type (T : Arg) (hT : isType T = true) (va : List Tok) :
    invokeArg (paste ["_EXPAND_ARG"] T) va = paste ["_EXPAND_ARG"] T ++ ["("] ++ va ++ [")"] := by
  have h := paste_type_ne_marker "_EXPAND_ARG" T hT
  have h1 : paste ["_EXPAND_ARG"] T ≠ ["_EXPAND_ARG1"] := h "1" (by decide)
  have h2 : paste ["_EXPAND_ARG"] T ≠ ["_EXPAND_ARG2"] := h "2" (by decide)
  have h3 : paste ["_EXPAND_ARG"] T ≠ ["_EXPAND_ARG3"] := h "3" (by decide)
  have h4 : paste ["_EXPAND_ARG"] T ≠ ["_EXPAND_ARG4"] := h "4" (by decide)
  have h5 : paste ["_EXPAND_ARG"] T ≠ ["_EXPAND_ARG5"] := h "5" (by decide)
  have h6 : paste ["_EXPAND_ARG"] T ≠ ["_EXPAND_ARG6"] := h "6" (by decide)
  have h7 : paste ["_EXPAND_ARG"] T ≠ ["_EXPAND_ARG7"] := h "7" (by decide)
  have h8 : paste ["_EXPAND_ARG"] T ≠ ["_EXPAND_ARG8"] := h "8" (by decide)
  have h9 : paste ["_EXPAND_ARG"] T ≠ ["_EXPAND_ARG9"] := h "9" (by decide)
  have h10 : paste ["_EXPAND_ARG"] T ≠ ["_EXPAND_ARG10"] := h "10" (by decide)
  simp only [invokeArg, if_neg h1, if_neg h2, if_neg h3, if_neg h4, if_neg h5, if_neg h6,
    if_neg h7, if_neg h8, if_neg h9, if_neg h10]

theorem getD_append_markers (Ts : List Arg) (h : 10 < Ts.length) :
    (Ts ++ markers).getD 10 [] = Ts.getD 10 [] := by
  simp [List.getD_eq_getElem?_getD, List.getElem?_append_left h]

theorem getLast?_joinArgs_formalList (Us : List Arg) (h : Us ≠ []) :
    (joinArgs (formalList Us)).getLast? = some "_1" := by
  induction Us with
  | nil => exact absurd rfl h
  | cons U Us ih =>
    cases Us with
    | nil => simp [formalList, positionalNames, joinArgs]; decide
    | cons U2 Us =>
      have e : formalList (U :: U2 :: Us) =
          (U ++ ["_" ++ toString ((U2 :: Us).length + 1)]) :: formalList (U2 :: Us) := by
        simp [formalList, positionalNames]
      have ih' := ih (by simp)
      rw [e, joinArgs_cons _ _ (formalList_ne_nil _ (by simp)),
        List.getLast?_append_of_ne_nil _ (by simp)]
      cases hj : joinArgs (formalList (U2 :: Us)) with
      | nil => simp [hj] at ih'
      | cons y ys =>
        rw [hj] at ih'
        rw [List.getLast?_cons_cons]
        exact ih'

/-! ## The lines of a table and their definitions -/

theorem isArg_macroParam (args : List Arg) (h : args.all isArg = true) (i : Nat) :
    isArg (macroParam args i) = true := by
  unfold macroParam
  rw [List.getD_eq_getElem?_getD]
  cases hi : args[i]? with
  | none => rfl
  | some a =>
    have hm : a ∈ args := List.getElem?_mem hi
    exact List.all_eq_true.1 h a hm

theorem rescan_eq (S R m : Arg) (rest : List Arg) :
    S ++ [","] ++ R ++ [","] ++ m ++ [",", ","] ++ joinArgs rest =
      joinArgs (S :: R :: m :: [] :: (if rest = [] then [[]] else rest)) := by
  cases rest with
  | nil => simp [joinArgs]
  | cons T Ts => simp [joinArgs]

theorem PROXY_OVERLOAD_name (inv : List Tok) (f : FunctionDefinition)
    (h : PROXY_OVERLOAD inv = some f) :
    f.name = symbol (macroParam (macroArgs inv) 0) (macroParam (macroArgs inv) 2)
      (macroParam (macroArgs inv) 3) := by
  unfold PROXY_OVERLOAD at h
  simp only at h
  split at h
  · exact Option.noConfusion h
  · obtain ⟨formal, _, h⟩ := Option.bind_eq_some.1 h
    obtain ⟨actual, _, h⟩ := Option.map_eq_some'.1 h
    rw [← h]

theorem expand_name (d : Declaration) (hw : d.wellFormed = true) (f : FunctionDefinition)
    (h : d.expand = some f) : f.name = d.symbol := by
  cases d with
  | overload inv => exact PROXY_OVERLOAD_name inv f h
  | proxy inv =>
    simp only [Declaration.wellFormed] at hw
    simp only [Declaration.expand, PROXY] at h
    split at h
    · exact Option.noConfusion h
    · simp only [__VA_ARGS__] at h
      rw [rescan_eq] at h
      have hall : ∀ b ∈ macroParam (macroArgs inv) 0 :: macroParam (macroArgs inv) 1 ::
          macroParam (macroArgs inv) 2 :: [] ::
          (if (macroArgs inv).drop 3 = [] then [[]] else (macroArgs inv).drop 3),
          isArg b = true := by
        intro b hb
        simp only [List.mem_cons] at hb
        rcases hb with rfl | rfl | rfl | rfl | hb
        · exact isArg_macroParam _ hw 0
        · exact isArg_macroParam _ hw 1
        · exact isArg_macroParam _ hw 2
        · rfl
        · split at hb
          · simp only [List.mem_singleton] at hb
            rw [hb]; rfl
          · exact List.all_eq_true.1 hw b (List.mem_of_mem_drop hb)
      obtain ⟨g, hg, _, hname, _⟩ := PROXY_OVERLOAD_header _ _ _ _ _ hall
      rw [hg] at h
      rw [← Option.some.inj h, hname]
      rfl

theorem expandTable_getElem? : ∀ (tbl : List Declaration) (defs : List FunctionDefinition),
    expandTable tbl = some defs → defs.length = tbl.length ∧
      ∀ (i : Nat) (d : Declaration), tbl[i]? = some d →
        ∃ f, defs[i]? = some f ∧ d.expand = some f := by
  intro tbl
  induction tbl with
  | nil =>
    intro defs h
    simp [expandTable] at h
    subst h
    simp
  | cons d ds ih =>
    intro defs h
    simp only [expandTable] at h
    obtain ⟨f, hf, h⟩ := Option.bind_eq_some.1 h
    obtain ⟨fs, hfs, h⟩ := Option.map_eq_some'.1 h
    subst h
    obtain ⟨hlen, hget⟩ := ih fs hfs
    refine ⟨by simp [hlen], ?_⟩
    intro i d' hi
    cases i with
    | zero =>
      simp only [List.getElem?_cons_zero, Option.some.injEq] at hi
      subst hi
      exact ⟨f, by simp, hf⟩
    | succ i =>
      simp only [List.getElem?_cons_succ] at hi
      obtain ⟨g, hg, hd⟩ := hget i d' hi
      exact ⟨g, by simpa using hg, hd⟩

theorem generate_eq_none_of_same_symbol (tbl : List Declaration) (i j : Nat) (d1 d2 : Declaration)
    (hij : i < j) (h1 : tbl[i]? = some d1) (h2 : tbl[j]? = some d2)
    (hw1 : d1.wellFormed = true) (hw2 : d2.wellFormed = true)
    (hsym : d1.symbol = d2.symbol) : generate tbl = none := by
  unfold generate
  cases he : expandTable tbl with
  | none => rfl
  | some defs =>
    obtain ⟨hlen, hget⟩ := expandTable_getElem? tbl defs he
    obtain ⟨f1, hf1, he1⟩ := hget i d1 h1
    obtain ⟨f2, hf2, he2⟩ := hget j d2 h2
    have hn : f1.name = f2.name := by
      rw [expand_name d1 hw1 f1 he1, expand_name d2 hw2 f2 he2, hsym]
    have hnd : ¬ (defs.map fun f => f.name).Nodup := by
      intro hnodup
      have hjlt : j < (defs.map fun f => f.name).length := by
        have := (List.getElem?_eq_some_iff.1 hf2).1
        simpa using this
      have := (List.nodup_iff_getElem?_ne_getElem?.1 hnodup) i j hij hjlt
      apply this
      simp [List.getElem?_map, hf1, hf2, hn]
    simp [hnd]

/-! ## The pass `distinctFrom` is sound -/

theorem testBit_or_two_pow_self (seen k : Nat) : (seen ||| 2 ^ k).testBit k = true := by
  simp [Nat.testBit_or, Nat.testBit_two_pow_self]

theorem testBit_of_or_two_pow (seen k j : Nat) (h : (seen ||| 2 ^ k).testBit j = false) :
    seen.testBit j = false := by
  simp [Nat.testBit_or] at h
  exact h.1

theorem distinctFrom_sound : ∀ (tbl : List Declaration) (seen : Nat), distinctFrom tbl seen = true →
    ∃ defs, expandTable tbl = some defs ∧
      defs.map (fun f => f.name) = tbl.map Declaration.symbol ∧
      (defs.map fun f => symbolKey f.name).Nodup ∧
      ∀ f ∈ defs, seen.testBit (symbolKey f.name) = false := by
  intro tbl
  induction tbl with
  | nil =>
    intro seen _
    exact ⟨[], rfl, rfl, List.nodup_nil, by simp⟩
  | cons d ds ih =>
    intro seen h
    unfold distinctFrom at h
    cases hd : d.expand with
    | none => simp [hd] at h
    | some f =>
      simp only [hd, Bool.and_eq_true, decide_eq_true_eq, Bool.not_eq_true'] at h
      obtain ⟨⟨hname, hnew⟩, hrest⟩ := h
      obtain ⟨defs, hdefs, hnames, hnodup, hseen⟩ := ih _ hrest
      refine ⟨f :: defs, by simp [expandTable, hd, hdefs], by simp [hname, hnames], ?_, ?_⟩
      · rw [List.map_cons, List.nodup_cons]
        refine ⟨?_, hnodup⟩
        intro hmem
        obtain ⟨g, hg, hkey⟩ := List.mem_map.1 hmem
        have h1 := hseen g hg
        rw [hkey] at h1
        rw [testBit_or_two_pow_self] at h1
        exact Bool.noConfusion h1
      · intro g hg
        rcases List.mem_cons.1 hg with rfl | hg
        · exact hnew
        · exact testBit_of_or_two_pow _ _ _ (hseen g hg)

theorem distinctFrom_nodup (tbl : List Declaration) (h : distinctFrom tbl 0 = true) :
    (tbl.map Declaration.triple).Nodup ∧
      ∃ defs, expandTable tbl = some defs ∧ (defs.map fun f => f.name).Nodup := by
  obtain ⟨defs, hdefs, hnames, hnodup, _⟩ := distinctFrom_sound tbl 0 h
  have hn : (defs.map fun f => f.name).Nodup := by
    have : (defs.map fun f => symbolKey f.name) = (defs.map fun f => f.name).map symbolKey := by
      simp
    rw [this] at hnodup
    exact List.Nodup.of_map _ hnodup
  refine ⟨?_, defs, hdefs, hn⟩
  rw [hnames] at hn
  have : tbl.map Declaration.symbol
      = (tbl.map Declaration.triple).map fun tr => symbol tr.1 tr.2.1 tr.2.2 := by
    simp [Declaration.symbol]
  rw [this] at hn
  exact List.Nodup.of_map _ hn

set_option maxRecDepth 1000000 in
/-- The pass succeeds on the table of `proxies.cpp`. -/
theorem distinctFrom_table : distinctFrom table 0 = true := by decide!

theorem expandTable_mem : ∀ (tbl : List Declaration) (defs : List FunctionDefinition),
    expandTable tbl = some defs → ∀ f ∈ defs, ∃ d ∈ tbl, d.expand = some f := by
  intro tbl
  induction tbl with
  | nil =>
    intro defs h f hf
    simp only [expandTable, Option.some.injEq] at h
    subst h
    simp at hf
  | cons d ds ih =>
    intro defs h f hf
    simp only [expandTable] at h
    obtain ⟨g, hg, h⟩ := Option.bind_eq_some.1 h
    obtain ⟨fs, hfs, h⟩ := Option.map_eq_some'.1 h
    subst h
    rcases List.mem_cons.1 hf with rfl | hf
    · exact ⟨d, by simp, hg⟩
    · obtain ⟨d', hd', he⟩ := ih fs hfs f hf
      exact ⟨d', List.mem_cons_of_mem _ hd', he⟩

/-- A table with a line whose expansion the translator rejects is not generated. -/
theorem generate_eq_none_of_not_accepted (tbl : List Declaration) (d : Declaration) (hd : d ∈ tbl)
    (h : ∀ f, d.expand = some f → f.accepted = false) : generate tbl = none := by
  unfold generate
  cases he : expandTable tbl with
  | none => rfl
  | some defs =>
    obtain ⟨i, hi⟩ := List.getElem?_of_mem hd
    obtain ⟨f, hf, hef⟩ := (expandTable_getElem? tbl defs he).2 i d hi
    have hacc : ¬ (defs.all FunctionDefinition.accepted = true) := by
      intro hall
      have := List.all_eq_true.1 hall f (List.getElem?_mem hf)
      rw [h f hef] at this
      exact Bool.noConfusion this
    exact if_neg fun hc => hacc hc.1

set_option maxRecDepth 1000000 in
/-- Every line of the table of `proxies.cpp` expands to a definition that
passes the translator's checks. -/
theorem acceptedTable_table : acceptedTable table = true := by decide!

/-- The table of `proxies.cpp` is accepted by `generate`. -/
theorem generate_table : ∃ defs, generate table = some defs ∧ defs.length = table.length := by
  obtain ⟨_, defs, hdefs, hn⟩ := distinctFrom_nodup table distinctFrom_table
  have hacc : defs.all FunctionDefinition.accepted = true := by
    rw [List.all_eq_true]
    intro f hf
    obtain ⟨d, hd, he⟩ := expandTable_mem table defs hdefs f hf
    have := List.all_eq_true.1 acceptedTable_table d hd
    simpa [he] using this
  refine ⟨defs, ?_, (expandTable_getElem? table defs hdefs).1⟩
  rw [generate, hdefs]
  exact if_pos ⟨hacc, hn⟩

/-! ## Further facts used by the claims -/

theorem positionalNames_length (n : Nat) : (positionalNames n).length = n := by
  induction n with
  | zero => rfl
  | succ n ih => simp [positionalNames, ih]

theorem map_dropLast_zipWith (Ts : List Arg) : ∀ (names : List Tok), Ts.length ≤ names.length →
    (List.zipWith (fun T x => T ++ [x]) Ts names).map List.dropLast = Ts := by
  induction Ts with
  | nil => intro names _; simp
  | cons T Ts ih =>
    intro names h
    cases names with
    | nil => simp at h
    | cons x xs =>
      have h' : Ts.length ≤ xs.length := by simpa using h
      simp [ih xs h']

theorem formalList_length (Ts : List Arg) : (formalList Ts).length = Ts.length := by
  simp [formalList, positionalNames_length]

theorem macroArgs_joinArgs_of_ne_nil (as : List Arg) (hne : as ≠ [])
    (h : ∀ b ∈ as, isArg b = true) : macroArgs (joinArgs as) = as := by
  cases as with
  | nil => exact absurd rfl hne
  | cons a as => exact macroArgs_joinArgs a as h

theorem map_paramName_zipWith (names : List Tok) : ∀ (Ts : List Arg), names.length ≤ Ts.length →
    (List.zipWith (fun T x => T ++ [x]) Ts names).map (fun p => (paramName p).toList) =
      names.map fun x => [x] := by
  induction names with
  | nil => intro Ts _; simp
  | cons x xs ih =>
    intro Ts h
    cases Ts with
    | nil => simp at h
    | cons T Ts =>
      have h' : xs.length ≤ Ts.length := by simpa using h
      have e := ih Ts h'
      simp only [List.zipWith_cons_cons, List.map_cons, e]
      simp [paramName]

theorem macroArgs_positionalNames : ∀ n, 1 ≤ n → n ≤ 10 →
    macroArgs (joinArgs ((positionalNames n).map fun x => [x])) =
      (positionalNames n).map fun x => [x] := by
  decide

theorem isArg_of_isTag (t : Arg) (h : isTag t = true) : isArg t = true := by
  match t, h with
  | [], _ => rfl
  | [x], h =>
    simp only [isTag, Bool.and_eq_true] at h
    exact h.1
  | _ :: _ :: _, h => simp [isTag] at h

theorem isArg_of_isType (T : Arg) (h : isType T = true) : isArg T = true := by
  simp only [isType, Bool.and_eq_true] at h
  exact h.1

theorem ne_nil_of_isType (T : Arg) (h : isType T = true) : T ≠ [] := by
  intro h0
  rw [h0] at h
  simp [isType] at h

theorem isType_getD (Ts : List Arg) (hTs : ∀ T ∈ Ts, isType T = true) (h : 10 < Ts.length) :
    isType (Ts.getD 10 []) = true := by
  rw [List.getD_eq_getElem?_getD, List.getElem?_eq_getElem h]
  exact hTs _ (List.getElem_mem h)

theorem paste_ne_paste_marker (p : String) (T : Arg) (hT : isType T = true) :
    ∀ k ∈ markers, paste [p] T ≠ paste [p] k := by
  intro k hk
  have h := paste_type_ne_marker p T hT
  simp only [markers, List.mem_cons, List.mem_singleton, List.not_mem_nil, or_false] at hk
  rcases hk with rfl | rfl | rfl | rfl | rfl | rfl | rfl | rfl | rfl | rfl | rfl
  · exact h "10" (by decide)
  · exact h "9" (by decide)
  · exact h "8" (by decide)
  · exact h "7" (by decide)
  · exact h "6" (by decide)
  · exact h "5" (by decide)
  · exact h "4" (by decide)
  · exact h "3" (by decide)
  · exact h "2" (by decide)
  · exact h "1" (by decide)
  · exact h "0" (by decide)

/-! ## The counting step on at most ten arguments -/

theorem getD_append_markers_le (Ts : List Arg) (h1 : 1 ≤ Ts.length) (h10 : Ts.length ≤ 10) :
    (Ts ++ markers).getD 10 [] = [toString Ts.length] := by
  rcases Ts with _ | ⟨a1, _ | ⟨a2, _ | ⟨a3, _ | ⟨a4, _ | ⟨a5, _ | ⟨a6, _ | ⟨a7, _ | ⟨a8, _ | ⟨a9, _ | ⟨a10, _ | ⟨a11, _⟩⟩⟩⟩⟩⟩⟩⟩⟩⟩⟩
  all_goals first
    | (exfalso; simp only [List.length_cons, List.length_nil] at h1 h10; omega)
    | (simp only [markers, List.cons_append, List.nil_append, List.length_cons, List.length_nil]
       rfl)

theorem paste_marker : ∀ n, 1 ≤ n → n ≤ 10 →
    paste ["_EXPAND_PARAM"] [toString n] = ["_EXPAND_PARAM" ++ toString n] ∧
    paste ["_EXPAND_ARG"] [toString n] = ["_EXPAND_ARG" ++ toString n] := by
  decide

theorem invoke_marker : ∀ n, 1 ≤ n → n ≤ 10 →
    invokeParam ["_EXPAND_PARAM" ++ toString n] =
      [_EXPAND_PARAM1, _EXPAND_PARAM2, _EXPAND_PARAM3, _EXPAND_PARAM4, _EXPAND_PARAM5,
        _EXPAND_PARAM6, _EXPAND_PARAM7, _EXPAND_PARAM8, _EXPAND_PARAM9, _EXPAND_PARAM10].getD
        (n - 1) id ∧
    invokeArg ["_EXPAND_ARG" ++ toString n] =
      [_EXPAND_ARG1, _EXPAND_ARG2, _EXPAND_ARG3, _EXPAND_ARG4, _EXPAND_ARG5,
        _EXPAND_ARG6, _EXPAND_ARG7, _EXPAND_ARG8, _EXPAND_ARG9, _EXPAND_ARG10].getD
        (n - 1) id := by
  intro n h1 h10
  interval_cases n <;> constructor <;> funext inv <;> rfl

theorem counting_step_le_ten (Ts : List Arg) (h1 : 1 ≤ Ts.length) (h10 : Ts.length ≤ 10)
    (hTs : ∀ T ∈ Ts, isArg T = true) :
    _EXPAND_PARAM_N (joinArgs Ts ++ padding) = some ["_EXPAND_PARAM" ++ toString Ts.length] ∧
    _EXPAND_ARG_N (joinArgs Ts ++ padding) = some ["_EXPAND_ARG" ++ toString Ts.length] := by
  have hg := getD_append_markers_le Ts h1 h10
  have hp := paste_marker Ts.length h1 h10
  cases Ts with
  | nil => simp at h1
  | cons T Ts' =>
    rw [_EXPAND_PARAM_N_joinArgs T Ts' hTs, _EXPAND_ARG_N_joinArgs T Ts' hTs, hg, hp.1, hp.2]
    exact ⟨rfl, rfl⟩

theorem counting_step_nil :
    _EXPAND_PARAM_N (joinArgs [] ++ padding) = some ["_EXPAND_PARAM1"] ∧
    _EXPAND_ARG_N (joinArgs [] ++ padding) = some ["_EXPAND_ARG1"] := by
  decide

theorem macroArgs_padding (Ts : List Arg) (hTs : ∀ T ∈ Ts, isArg T = true) :
    macroArgs (joinArgs Ts ++ padding) = (if Ts = [] then [[]] else Ts) ++ markers := by
  cases Ts with
  | nil => decide
  | cons T Ts' =>
    rw [joinArgs_padding]
    have h' : ∀ b ∈ T :: (Ts' ++ markers), isArg b = true := by
      intro b hb
      rcases List.mem_cons.1 hb with hb | hb
      · exact hTs b (by simp [hb])
      · rcases List.mem_append.1 hb with hb | hb
        · exact hTs b (by simp [hb])
        · exact markers_isArg b hb
    have := macroArgs_joinArgs T (Ts' ++ markers) h'
    simpa using this

theorem zero_marker_in_remainder (Ts : List Arg) (hTs : ∀ T ∈ Ts, isArg T = true) :
    ∃ rest, (macroArgs (joinArgs Ts ++ padding)).drop 11 = rest ++ [["0"]] := by
  rw [macroArgs_padding Ts hTs]
  have hm : markers = markers.dropLast ++ [["0"]] := by decide
  have hl : 11 ≤ ((if Ts = [] then [[]] else Ts) ++ markers.dropLast).length := by
    have : 1 ≤ (if Ts = [] then ([[]] : List Arg) else Ts).length := by
      split
      · simp
      · rename_i h
        exact List.length_pos.2 h
    have h10 : markers.dropLast.length = 10 := by decide
    rw [List.length_append, h10]
    omega
  refine ⟨(((if Ts = [] then [[]] else Ts) ++ markers.dropLast).drop 11), ?_⟩
  conv_lhs => rw [hm, ← List.append_assoc]
  exact List.drop_append_of_le_length hl

/-! ## The positional names -/

theorem positionalNames_getElem? : ∀ (n i : Nat), i < n →
    (positionalNames n)[i]? = some ("_" ++ toString (n - i)) := by
  intro n
  induction n with
  | zero => intro i h; omega
  | succ n ih =>
    intro i h
    cases i with
    | zero => simp [positionalNames]
    | succ i =>
      have := ih i (by omega)
      simpa [positionalNames] using this

theorem positionalNames_nodup : ∀ n, n ≤ 10 →
    (positionalNames n).Nodup ∧ "subject" ∉ positionalNames n := by
  decide

/-! ## A raw type with a top-level comma -/

theorem append_cons_inj (c : Char) : ∀ (l1 l2 r1 r2 : List Char), c ∉ l1 → c ∉ l2 →
    l1 ++ c :: r1 = l2 ++ c :: r2 → l1 = l2 ∧ r1 = r2 := by
  intro l1
  induction l1 with
  | nil =>
    intro l2 r1 r2 _ h2 h
    cases l2 with
    | nil => exact ⟨rfl, by simpa using h⟩
    | cons a l2 =>
      simp only [List.nil_append, List.cons_append, List.cons.injEq] at h
      exact absurd (by simp [h.1]) h2
  | cons a l1 ih =>
    intro l2 r1 r2 h1 h2 h
    cases l2 with
    | nil =>
      simp only [List.nil_append, List.cons_append, List.cons.injEq] at h
      exact absurd (by simp [h.1]) h1
    | cons b l2 =>
      simp only [List.cons_append, List.cons.injEq] at h
      have h1' : c ∉ l1 := fun hc => h1 (List.mem_cons_of_mem _ hc)
      have h2' : c ∉ l2 := fun hc => h2 (List.mem_cons_of_mem _ hc)
      obtain ⟨e1, e2⟩ := ih l2 r1 r2 h1' h2' h.2
      exact ⟨by rw [h.1, e1], e2⟩

theorem data_symbol_untagged (s m : Tok) : (s ++ "_" ++ m).data = s.data ++ '_' :: m.data := by
  simp [String.data_append]

theorem data_symbol_tagged (s m x : Tok) :
    (s ++ "_" ++ m ++ x).data = s.data ++ '_' :: (m.data ++ x.data) := by
  simp [String.data_append]

/-! ## The parameter types of a line -/

theorem parameters_overload (S R m t : Arg) (Ts : List Arg)
    (hS : isArg S = true) (hR : isArg R = true) (hm : isArg m = true) (ht : isArg t = true)
    (hTs : ∀ T ∈ Ts, isArg T = true ∧ T ≠ []) :
    (Declaration.overload (joinArgs (S :: R :: m :: t :: Ts))).parameters = Ts := by
  have hall : ∀ b ∈ S :: R :: m :: t :: Ts, isArg b = true := by
    intro b hb
    simp only [List.mem_cons] at hb
    rcases hb with rfl | rfl | rfl | rfl | hb
    · exact hS
    · exact hR
    · exact hm
    · exact ht
    · exact (hTs b hb).1
  simp only [Declaration.parameters, macroArgs_joinArgs S _ hall, __VA_ARGS__, List.drop,
    suppliedTypes]
  cases Ts with
  | nil => simp [joinArgs]
  | cons T Ts' =>
    rw [if_neg (joinArgs_ne_nil T Ts' (hTs T (by simp)).2)]
    exact macroArgs_joinArgs T Ts' (fun b hb => (hTs b hb).1)

theorem parameters_proxy (S R m : Arg) (Ts : List Arg)
    (hS : isArg S = true) (hR : isArg R = true) (hm : isArg m = true)
    (hTs : ∀ T ∈ Ts, isArg T = true ∧ T ≠ []) :
    (Declaration.proxy (joinArgs (S :: R :: m :: Ts))).parameters = Ts := by
  have hall : ∀ b ∈ S :: R :: m :: Ts, isArg b = true := by
    intro b hb
    simp only [List.mem_cons] at hb
    rcases hb with rfl | rfl | rfl | hb
    · exact hS
    · exact hR
    · exact hm
    · exact (hTs b hb).1
  simp only [Declaration.parameters, macroArgs_joinArgs S _ hall, __VA_ARGS__, List.drop,
    suppliedTypes]
  cases Ts with
  | nil => simp [joinArgs]
  | cons T Ts' =>
    rw [if_neg (joinArgs_ne_nil T Ts' (hTs T (by simp)).2)]
    exact macroArgs_joinArgs T Ts' (fun b hb => (hTs b hb).1)

set_option maxRecDepth 1000000 in
/-- Every line of the table has at most ten parameter types. -/
theorem table_parameters_le_ten : ∀ d ∈ table, d.parameters.length ≤ 10 := by decide!

set_option maxRecDepth 1000000 in
/-- Every argument of every line of the table is whole: its parentheses and its
angle brackets match and it holds no comma; no line names `Pair` or
`StaticArray`. -/
theorem table_arguments_whole : ∀ d ∈ table,
    d.wellFormed = true ∧ (macroArgs d.tokens).all angleBalanced = true ∧
      (macroArgs d.tokens).all (fun a => !a.contains ",") = true ∧
      "Pair" ∉ d.tokens ∧ "StaticArray" ∉ d.tokens := by decide!

set_option maxRecDepth 1000000 in
/-- Every alias is named by a line of the table. -/
theorem aliases_used : ∀ a ∈ aliases, table.any (fun d => d.tokens.contains a.1) = true := by
  decide!

theorem declarations_alias_lt (i : Nat) (name : Tok) (type : List Tok)
    (h : declarations[i]? = some (Item.typeAlias name type)) :
    i < aliases.length ∧ aliases[i]? = some (name, type) := by
  unfold declarations at h
  by_cases hi : i < (aliases.map fun a => Item.typeAlias a.1 a.2).length
  · rw [List.getElem?_append_left hi, List.getElem?_map] at h
    refine ⟨by simpa using hi, ?_⟩
    cases ha : aliases[i]? with
    | none => simp [ha] at h
    | some a =>
      simp only [ha, Option.map_some', Option.some.injEq, Item.typeAlias.injEq] at h
      rw [← h.1, ← h.2]
  · rw [List.getElem?_append_right (Nat.le_of_not_lt hi), List.getElem?_map] at h
    cases ht : table[i - (aliases.map fun a => Item.typeAlias a.1 a.2).length]? with
    | none => simp [ht] at h
    | some d => simp [ht] at h

theorem declarations_invocation_ge (j : Nat) (d : Declaration)
    (h : declarations[j]? = some (Item.invocation d)) :
    aliases.length ≤ j ∧ table[j - aliases.length]? = some d := by
  unfold declarations at h
  by_cases hj : j < (aliases.map fun a => Item.typeAlias a.1 a.2).length
  · rw [List.getElem?_append_left hj, List.getElem?_map] at h
    cases ha : aliases[j]? with
    | none => simp [ha] at h
    | some a => simp [ha] at h
  · have hj' := Nat.le_of_not_lt hj
    rw [List.getElem?_append_right hj', List.getElem?_map] at h
    simp only [List.length_map] at h hj'
    refine ⟨hj', ?_⟩
    cases ht : table[j - aliases.length]? with
    | none => simp [ht] at h
    | some d' =>
      simp only [ht, Option.map_some', Option.some.injEq, Item.invocation.injEq] at h
      rw [h]


set_option maxRecDepth 1000000 in
/-- The table has 529 lines. -/
theorem table_length : table.length = 529 := by decide

set_option maxRecDepth 1000000 in
/-- In every line of the table the return type and the parameter types have
matching angle brackets. -/
theorem table_types_balanced : ∀ d ∈ table,
    angleBalanced d.returnType = true ∧ d.parameters.all angleBalanced = true := by decide!

set_option maxRecDepth 1000000 in
/-- The alias declarations among the declarations of the file. -/
theorem declarations_aliases :
    declarations.filterMap (fun item =>
      match item with
      | Item.typeAlias name _ => some name
      | Item.invocation _ => none) =
    ["IntPair", "BoolStringPair", "HoursMinutesPair", "NewConnectionPlayerPair",
      "CarriagesArray", "VehicleModelArray", "SkillsArray"] := by decide!

/-! ## The translator's cut of a list -/

/-- The first item holds what has been collected and the tokens before the
first comma. -/
theorem listItemsAux_head (ts : List Tok) :
    ∀ (p a : Nat) (cur : List Tok), ∃ more rest, listItemsAux p a cur ts = (cur ++ more) :: rest := by
  induction ts with
  | nil =>
    intro p a cur
    exact ⟨[], [], by simp [listItemsAux]⟩
  | cons t ts ih =>
    intro p a cur
    unfold listItemsAux
    split
    · exact ⟨[], listItemsAux 0 0 [] ts, by simp⟩
    · obtain ⟨more, rest, h⟩ := ih (depthStep p t) (angleStep a t) (cur ++ [t])
      exact ⟨t :: more, rest, by simp [h]⟩

/-- A definition whose forwarded call begins with two tokens that are no commas
is rejected: its first argument is no name. -/
theorem accepted_eq_false_of_two_tokens (f : FunctionDefinition) (t1 t2 : Tok) (ts : List Tok)
    (h : f.args = t1 :: t2 :: ts) (h1 : t1 ≠ ",") (h2 : t2 ≠ ",") : f.accepted = false := by
  obtain ⟨more, rest, hm⟩ := listItemsAux_head ts (depthStep (depthStep 0 t1) t2)
    (angleStep (angleStep 0 t1) t2) [t1, t2]
  have e : listItems f.args = (t1 :: t2 :: more) :: rest := by
    rw [h]
    simp [listItems, listItemsAux, h1, h2, hm]
  simp [FunctionDefinition.accepted, e]

theorem _EXPAND_ARG_append_ne_comma (x : Tok) : "_EXPAND_ARG" ++ x ≠ "," := by
  intro h
  have := congrArg String.data h
  simp [String.data_append] at this

/-- The forwarded call written for more than ten types begins with two tokens
that are no commas. -/
theorem args_more_than_ten (T : Arg) (hT : isType T = true) (rest : List Tok) :
    ∃ t1 t2 ts, paste ["_EXPAND_ARG"] T ++ ["("] ++ rest = t1 :: t2 :: ts ∧ t1 ≠ "," ∧ t2 ≠ "," := by
  match T, hT with
  | [], hT => simp [isType] at hT
  | [x], _ =>
    exact ⟨"_EXPAND_ARG" ++ x, "(", rest, by simp [paste], _EXPAND_ARG_append_ne_comma x, by decide⟩
  | x :: y :: ys, hT =>
    refine ⟨"_EXPAND_ARG" ++ x, y, ys ++ ["("] ++ rest, by simp [paste],
      _EXPAND_ARG_append_ne_comma x, ?_⟩
    simp only [isType, Bool.and_eq_true, Bool.not_eq_true', bne_iff_ne, ne_eq] at hT
    obtain ⟨harg, _, hparen⟩ := hT
    intro hy
    subst hy
    unfold isArg isArgAux at harg
    split at harg
    · simp at harg
    · rename_i hn
      have hx : x ≠ ")" := fun h => hn ⟨rfl, Or.inr h⟩
      simp [depthStep, hparen, hx, isArgAux] at harg

theorem PROXY_OVERLOAD_more_than_ten (S R m t : Arg) (Ts : List Arg)
    (hS : isArg S = true) (hR : isArg R = true) (hm : isArg m = true) (ht : isArg t = true)
    (hTs : ∀ T ∈ Ts, isType T = true) (hN : 10 < Ts.length) :
    PROXY_OVERLOAD (joinArgs (S :: R :: m :: t :: Ts)) = some
      { returnType := R
        name := symbol S m t
        params := S ++ ["*", "subject", ","] ++
          (paste ["_EXPAND_PARAM"] (Ts.getD 10 []) ++ ["("] ++ joinArgs Ts ++ [")"])
        callee := m
        args := paste ["_EXPAND_ARG"] (Ts.getD 10 []) ++ ["("] ++ joinArgs Ts ++ [")"] } := by
  have h11 := isType_getD Ts hTs hN
  have hg := getD_append_markers Ts hN
  obtain ⟨T, Ts', rfl⟩ : ∃ T Ts', Ts = T :: Ts' := by
    cases Ts with
    | nil => simp at hN
    | cons T Ts' => exact ⟨T, Ts', rfl⟩
  have hA : ∀ b ∈ T :: Ts', isArg b = true := fun b hb => isArg_of_isType b (hTs b hb)
  have hne : joinArgs (T :: Ts') ≠ [] := joinArgs_ne_nil T Ts' (ne_nil_of_isType T (hTs T (by simp)))
  have hP : _EXPAND_PARAM (joinArgs (T :: Ts')) = some
      (paste ["_EXPAND_PARAM"] ((T :: Ts').getD 10 []) ++ ["("] ++ joinArgs (T :: Ts') ++ [")"]) := by
    rw [_EXPAND_PARAM_cons T Ts' hA, hg, invokeParam_type _ h11]
  have hArg : _EXPAND_ARG (joinArgs (T :: Ts')) = some
      (paste ["_EXPAND_ARG"] ((T :: Ts').getD 10 []) ++ ["("] ++ joinArgs (T :: Ts') ++ [")"]) := by
    rw [_EXPAND_ARG_cons T Ts' hA, hg, invokeArg_type _ h11]
  have hall : ∀ b ∈ S :: R :: m :: t :: T :: Ts', isArg b = true := by
    intro b hb
    simp only [List.mem_cons] at hb
    rcases hb with rfl | rfl | rfl | rfl | hb
    · exact hS
    · exact hR
    · exact hm
    · exact ht
    · exact hA b (by simpa using hb)
  rw [PROXY_OVERLOAD_bind S R m t (T :: Ts') hall, hP, hArg]
  simp [__VA_OPT__, hne]

/-- A parameter list that ends with a closing parenthesis is the formal list of
no sequence of types. -/
theorem params_ne_formalList (S : Arg) (ts : List Tok) (Us : List Arg) :
    S ++ ["*", "subject", ","] ++ (ts ++ [")"]) ≠ joinArgs ((S ++ ["*", "subject"]) :: formalList Us) := by
  intro hUs
  have hl := congrArg List.getLast? hUs
  rw [show S ++ ["*", "subject", ","] ++ (ts ++ [")"]) = (S ++ ["*", "subject", ","] ++ ts) ++ [")"]
    by simp, List.getLast?_concat] at hl
  cases Us with
  | nil =>
    have : (joinArgs ((S ++ ["*", "subject"]) :: formalList [])).getLast? = some "subject" := by
      simp [formalList, positionalNames, joinArgs]
    rw [this] at hl
    exact absurd (Option.some.inj hl) (by decide)
  | cons U Us =>
    rw [joinArgs_cons _ _ (formalList_ne_nil (U :: Us) (by simp)),
      List.getLast?_append_of_ne_nil _ (by simp)] at hl
    have h1 := getLast?_joinArgs_formalList (U :: Us) (by simp)
    cases hj : joinArgs (formalList (U :: Us)) with
    | nil => simp [hj] at h1
    | cons y ys =>
      rw [hj] at hl h1
      rw [List.getLast?_cons_cons, h1] at hl
      exact absurd (Option.some.inj hl) (by decide)

/-- The definition written for more than ten types is rejected by the
translator, and its parameter list is no formal list. -/
theorem more_than_ten_not_accepted (S R m t : Arg) (Ts : List Arg)
    (hS : isArg S = true) (hR : isArg R = true) (hm : isArg m = true) (ht : isArg t = true)
    (hTs : ∀ T ∈ Ts, isType T = true) (hN : 10 < Ts.length) :
    ∀ f, PROXY_OVERLOAD (joinArgs (S :: R :: m :: t :: Ts)) = some f →
      f.accepted = false ∧
      ∀ Us : List Arg, f.params ≠ joinArgs ((S ++ ["*", "subject"]) :: formalList Us) := by
  intro f hf
  rw [PROXY_OVERLOAD_more_than_ten S R m t Ts hS hR hm ht hTs hN] at hf
  have hf := (Option.some.inj hf).symm
  subst hf
  refine ⟨?_, ?_⟩
  · obtain ⟨t1, t2, ts, h, h1, h2⟩ := args_more_than_ten (Ts.getD 10 []) (isType_getD Ts hTs hN)
      (joinArgs Ts ++ [")"])
    exact accepted_eq_false_of_two_tokens _ t1 t2 ts (by simpa using h) h1 h2
  · intro Us
    have := params_ne_formalList S (paste ["_EXPAND_PARAM"] (Ts.getD 10 []) ++ ["("] ++ joinArgs Ts) Us
    simpa using this

/-! ## The claims -/

/-- Claim C1.  For a declaration with subject `S`, return type `R`, method `m`,
tag `t` and `N ≤ 10` parameter types `Ts`, the function written by
`PROXY_OVERLOAD` has exactly `N + 1` parameters: the first is `S * subject`, and
the parameters after it are the declared types, each followed by its positional
name, in declaration order; taking the names away leaves exactly `Ts`. -/
theorem proxy_overload_parameters (S R m t : Arg) (Ts : List Arg)
    (hS : isArg S = true) (hR : isArg R = true) (hm : isArg m = true) (ht : isArg t = true)
    (hTs : ∀ T ∈ Ts, isArg T = true ∧ T ≠ []) (hN : Ts.length ≤ 10) :
    ∃ f, PROXY_OVERLOAD (joinArgs (S :: R :: m :: t :: Ts)) = some f ∧
      (macroArgs f.params).length = Ts.length + 1 ∧
      macroArgs f.params = (S ++ ["*", "subject"]) ::
        List.zipWith (fun T x => T ++ [x]) Ts (positionalNames Ts.length) ∧
      (macroArgs f.params).tail.map List.dropLast = Ts := by
  have hp := macroArgs_params S Ts hS (fun T hT => (hTs T hT).1) hN
  refine ⟨_, PROXY_OVERLOAD_joinArgs S R m t Ts hS hR hm ht hTs hN, ?_, ?_, ?_⟩
  · simp only [hp, List.length_cons, formalList_length]
  · simp only [hp]
    rfl
  · simp only [hp, List.tail_cons]
    exact map_dropLast_zipWith Ts _ (by simp [positionalNames_length])

theorem proxy_overload_parameters_witness :
    (isArg ["IClassesComponent"] = true ∧ isArg ["IClass", "*"] = true ∧ isArg ["create"] = true ∧
      isArg [] = true ∧
      (∀ T ∈ [["int"], ["int"], ["Vector3"], ["float"], ["WeaponSlots", "&"]],
        isArg T = true ∧ T ≠ []) ∧
      [["int"], ["int"], ["Vector3"], ["float"], ["WeaponSlots", "&"]].length ≤ 10) ∧
    ∃ f, PROXY_OVERLOAD (joinArgs (["IClassesComponent"] :: ["IClass", "*"] :: ["create"] :: [] ::
        [["int"], ["int"], ["Vector3"], ["float"], ["WeaponSlots", "&"]])) = some f ∧
      (macroArgs f.params).length =
        [["int"], ["int"], ["Vector3"], ["float"], ["WeaponSlots", "&"]].length + 1 ∧
      macroArgs f.params = (["IClassesComponent"] ++ ["*", "subject"]) ::
        List.zipWith (fun T x => T ++ [x])
          [["int"], ["int"], ["Vector3"], ["float"], ["WeaponSlots", "&"]]
          (positionalNames [["int"], ["int"], ["Vector3"], ["float"], ["WeaponSlots", "&"]].length) ∧
      (macroArgs f.params).tail.map List.dropLast =
        [["int"], ["int"], ["Vector3"], ["float"], ["WeaponSlots", "&"]] :=
  ⟨by decide,
    proxy_overload_parameters ["IClassesComponent"] ["IClass", "*"] ["create"] []
      [["int"], ["int"], ["Vector3"], ["float"], ["WeaponSlots", "&"]]
      (by decide) (by decide) (by decide) (by decide) (by decide) (by decide)⟩

/-- Claim C2.  For `N` from 1 to 10 parameter types `Ts`, the actual-argument
list written by `_EXPAND_ARG` is the list of the names declared by the formal
list that `_EXPAND_PARAM` writes for the same types: both have `N` entries, the
`i`-th formal is the `i`-th type followed by the `i`-th actual, and the `i`-th
actual is the name of the `i`-th formal.  Both lists are functions of the
tokens of the type list, so the same types give the same lists.  In the function
written by `PROXY_OVERLOAD`, the names declared after the subject are, in order,
the arguments of the forwarded call. -/
theorem expand_arg_matches_expand_param (Ts : List Arg) (h1 : 1 ≤ Ts.length)
    (h10 : Ts.length ≤ 10) (hTs : ∀ T ∈ Ts, isArg T = true) :
    ∃ formals actuals, _EXPAND_PARAM (joinArgs Ts) = some formals ∧
      _EXPAND_ARG (joinArgs Ts) = some actuals ∧
      (macroArgs formals).length = Ts.length ∧ (macroArgs actuals).length = Ts.length ∧
      macroArgs actuals = (macroArgs formals).map (fun p => (paramName p).toList) ∧
      macroArgs formals = List.zipWith (fun T a => T ++ a) Ts (macroArgs actuals) ∧
      (∀ Us, joinArgs Us = joinArgs Ts →
        _EXPAND_PARAM (joinArgs Us) = some formals ∧ _EXPAND_ARG (joinArgs Us) = some actuals) ∧
      (∀ S R m t : Arg, isArg S = true → isArg R = true → isArg m = true → isArg t = true →
        (∀ T ∈ Ts, T ≠ []) →
        ∃ f, PROXY_OVERLOAD (joinArgs (S :: R :: m :: t :: Ts)) = some f ∧
          (macroArgs f.params).tail.map (fun p => (paramName p).toList) = callArgs f.args) := by
  have hne : Ts ≠ [] := by
    intro h
    rw [h] at h1
    simp at h1
  have hP := _EXPAND_PARAM_joinArgs Ts hne h10 hTs
  have hA := _EXPAND_ARG_joinArgs Ts hne h10 hTs
  have hf : macroArgs (joinArgs (formalList Ts)) = formalList Ts :=
    macroArgs_joinArgs_of_ne_nil _ (formalList_ne_nil Ts hne) (formalList_isArg Ts hTs h10)
  have ha := macroArgs_positionalNames Ts.length h1 h10
  have hnames : (formalList Ts).map (fun p => (paramName p).toList) =
      (positionalNames Ts.length).map fun x => [x] :=
    map_paramName_zipWith _ Ts (by simp [positionalNames_length])
  refine ⟨_, _, hP, hA, ?_, ?_, ?_, ?_, ?_, ?_⟩
  · rw [hf, formalList_length]
  · rw [ha, List.length_map, positionalNames_length]
  · rw [ha, hf, hnames]
  · rw [ha, hf, formalList, List.zipWith_map_right]
  · intro Us hUs
    rw [hUs]
    exact ⟨hP, hA⟩
  · intro S R m t hS hR hm ht hT
    refine ⟨_, PROXY_OVERLOAD_joinArgs S R m t Ts hS hR hm ht
      (fun T hmem => ⟨hTs T hmem, hT T hmem⟩) h10, ?_⟩
    simp only [macroArgs_params S Ts hS hTs h10, List.tail_cons, hnames,
      callArgs_positionalNames _ h10]

theorem expand_arg_matches_expand_param_witness :
    (1 ≤ [["Vector2"], ["int"]].length ∧ [["Vector2"], ["int"]].length ≤ 10 ∧
      ∀ T ∈ [["Vector2"], ["int"]], isArg T = true) ∧
    ∃ formals actuals, _EXPAND_PARAM (joinArgs [["Vector2"], ["int"]]) = some formals ∧
      _EXPAND_ARG (joinArgs [["Vector2"], ["int"]]) = some actuals ∧
      (macroArgs formals).length = [["Vector2"], ["int"]].length ∧
      (macroArgs actuals).length = [["Vector2"], ["int"]].length ∧
      macroArgs actuals = (macroArgs formals).map (fun p => (paramName p).toList) ∧
      macroArgs formals = List.zipWith (fun T a => T ++ a) [["Vector2"], ["int"]] (macroArgs actuals) ∧
      (∀ Us, joinArgs Us = joinArgs [["Vector2"], ["int"]] →
        _EXPAND_PARAM (joinArgs Us) = some formals ∧ _EXPAND_ARG (joinArgs Us) = some actuals) ∧
      (∀ S R m t : Arg, isArg S = true → isArg R = true → isArg m = true → isArg t = true →
        (∀ T ∈ [["Vector2"], ["int"]], T ≠ []) →
        ∃ f, PROXY_OVERLOAD (joinArgs (S :: R :: m :: t :: [["Vector2"], ["int"]])) = some f ∧
          (macroArgs f.params).tail.map (fun p => (paramName p).toList) = callArgs f.args) :=
  ⟨by decide, expand_arg_matches_expand_param [["Vector2"], ["int"]] (by decide) (by decide)
    (by decide)⟩

/-- Claim C3.  For a declaration with `N ≤ 10` parameter types, any subject and
any `N` argument values, calling the generated function with the subject and
the values is the direct call `subject -> method (values)`: whatever the
methods of the interface do, from whatever state, the call through the
function makes that one call on exactly those values and has its outcome, the
returned value or the failure and the state left behind, and nothing else. -/
theorem trampoline_call_eq_direct_call {σ V E : Type} (S R m t : Arg) (Ts : List Arg)
    (hS : isArg S = true) (hR : isArg R = true) (hm : isArg m = true) (ht : isArg t = true)
    (hTs : ∀ T ∈ Ts, isArg T = true ∧ T ≠ []) (hN : Ts.length ≤ 10)
    (methods : List Tok → V → List V → σ → Except E V × σ)
    (subject : V) (values : List V) (hv : values.length = Ts.length) (s : σ) :
    ∃ f, PROXY_OVERLOAD (joinArgs (S :: R :: m :: t :: Ts)) = some f ∧
      f.call methods (subject :: values) s = some (directCall methods m subject values s) :=
  ⟨_, PROXY_OVERLOAD_joinArgs S R m t Ts hS hR hm ht hTs hN,
    call_PROXY_OVERLOAD S R m t Ts hS (fun T hT => (hTs T hT).1) hN methods subject values hv s⟩

theorem trampoline_call_eq_direct_call_witness :
    (isArg ["IActorsComponent"] = true ∧ isArg ["IActor", "*"] = true ∧ isArg ["create"] = true ∧
      isArg [] = true ∧
      (∀ T ∈ [["int"], ["Vector3"], ["float"]], isArg T = true ∧ T ≠ []) ∧
      [["int"], ["Vector3"], ["float"]].length ≤ 10 ∧
      [11, 12, 13].length = [["int"], ["Vector3"], ["float"]].length) ∧
    ∃ f, PROXY_OVERLOAD (joinArgs (["IActorsComponent"] :: ["IActor", "*"] :: ["create"] :: [] ::
        [["int"], ["Vector3"], ["float"]])) = some f ∧
      f.call (fun (_ : List Tok) (subject : Nat) (values : List Nat) (calls : Nat) =>
          ((if values.length = 3 then Except.ok (subject + values.sum) else Except.error "arity" :
            Except String Nat), calls + 1)) (7 :: [11, 12, 13]) 0 =
        some (directCall (fun (_ : List Tok) (subject : Nat) (values : List Nat) (calls : Nat) =>
          ((if values.length = 3 then Except.ok (subject + values.sum) else Except.error "arity" :
            Except String Nat), calls + 1)) ["create"] 7 [11, 12, 13] 0) :=
  ⟨by decide,
    trampoline_call_eq_direct_call ["IActorsComponent"] ["IActor", "*"] ["create"] []
      [["int"], ["Vector3"], ["float"]] (by decide) (by decide) (by decide) (by decide)
      (by decide) (by decide) _ 7 [11, 12, 13] (by decide) 0⟩

/-- Claim C4.  The name of the function generated for subject `S`, method `m`
and tag `t` is the single token spelled `S`, `_`, `m`, `t`: with the empty tag
it is `S_m` and nothing more, with a tag `x` it is `S_m` followed by `x` as
written.  `PROXY` gives the name `S_m`, and `PROXY(S, R, m, Ts...)` is the same
function as `PROXY_OVERLOAD(S, R, m, , Ts...)`. -/
theorem symbol_is_subject_method_tag (S m : Tok) (R t : Arg) (Ts : List Arg)
    (hS : isArg [S] = true) (hR : isArg R = true) (hm : isArg [m] = true) (ht : isTag t = true)
    (hTs : ∀ T ∈ Ts, isArg T = true) :
    (∃ f, PROXY_OVERLOAD (joinArgs ([S] :: R :: [m] :: t :: Ts)) = some f ∧
      (t = [] → f.name = [S ++ "_" ++ m]) ∧ (∀ x, t = [x] → f.name = [S ++ "_" ++ m ++ x])) ∧
    (∃ g, PROXY (joinArgs ([S] :: R :: [m] :: Ts)) = some g ∧ g.name = [S ++ "_" ++ m]) ∧
    PROXY (joinArgs ([S] :: R :: [m] :: Ts)) =
      PROXY_OVERLOAD (joinArgs ([S] :: R :: [m] :: [] :: Ts)) := by
  have hall : ∀ (u : Arg), isArg u = true → ∀ b ∈ [S] :: R :: [m] :: u :: Ts, isArg b = true := by
    intro u hu b hb
    simp only [List.mem_cons] at hb
    rcases hb with rfl | rfl | rfl | rfl | hb
    · exact hS
    · exact hR
    · exact hm
    · exact hu
    · exact hTs b hb
  have hPP := PROXY_joinArgs [S] R [m] Ts hS hR hm hTs
  refine ⟨?_, ?_, hPP⟩
  · obtain ⟨f, hf, _, hname, _⟩ := PROXY_OVERLOAD_header [S] R [m] t Ts (hall t (isArg_of_isTag t ht))
    refine ⟨f, hf, ?_, ?_⟩
    · intro h0
      rw [hname, h0, symbol_untagged]
    · intro x hx
      rw [hname, hx, symbol_tagged]
  · obtain ⟨g, hg, _, hname, _⟩ := PROXY_OVERLOAD_header [S] R [m] [] Ts (hall [] rfl)
    exact ⟨g, by rw [hPP, hg], by rw [hname, symbol_untagged]⟩

theorem symbol_is_subject_method_tag_witness :
    (isArg ["IConfig"] = true ∧ isArg ["void"] = true ∧ isArg ["removeBan"] = true ∧
      isTag ["_index"] = true ∧ ∀ T ∈ [["size_t"]], isArg T = true) ∧
    ((∃ f, PROXY_OVERLOAD (joinArgs (["IConfig"] :: ["void"] :: ["removeBan"] :: ["_index"] ::
        [["size_t"]])) = some f ∧
      (["_index"] = [] → f.name = ["IConfig" ++ "_" ++ "removeBan"]) ∧
      (∀ x, ["_index"] = [x] → f.name = ["IConfig" ++ "_" ++ "removeBan" ++ x])) ∧
    (∃ g, PROXY (joinArgs (["IConfig"] :: ["void"] :: ["removeBan"] :: [["size_t"]])) = some g ∧
      g.name = ["IConfig" ++ "_" ++ "removeBan"]) ∧
    PROXY (joinArgs (["IConfig"] :: ["void"] :: ["removeBan"] :: [["size_t"]])) =
      PROXY_OVERLOAD (joinArgs (["IConfig"] :: ["void"] :: ["removeBan"] :: [] :: [["size_t"]]))) :=
  ⟨by decide,
    symbol_is_subject_method_tag "IConfig" "removeBan" ["void"] ["_index"] [["size_t"]]
      (by decide) (by decide) (by decide) (by decide) (by decide)⟩

/-- Claim C5.  For a subject `S`, a method `m` and two different overload tags
`t1` and `t2`, each empty or one token, the functions generated for
`(S, m, t1)` and `(S, m, t2)` have different names, whatever their return and
parameter types are.  The two `create` lines of `ITextDrawsComponent` are named
`ITextDrawsComponent_create` and `ITextDrawsComponent_create_model`. -/
theorem distinct_tags_distinct_symbols (S m : Tok) (R1 R2 t1 t2 : Arg) (Ts1 Ts2 : List Arg)
    (hS : isArg [S] = true) (hm : isArg [m] = true)
    (hR1 : isArg R1 = true) (hR2 : isArg R2 = true)
    (ht1 : isTag t1 = true) (ht2 : isTag t2 = true)
    (hTs1 : ∀ T ∈ Ts1, isArg T = true) (hTs2 : ∀ T ∈ Ts2, isArg T = true)
    (hne : t1 ≠ t2) :
    (∃ f1 f2, PROXY_OVERLOAD (joinArgs ([S] :: R1 :: [m] :: t1 :: Ts1)) = some f1 ∧
      PROXY_OVERLOAD (joinArgs ([S] :: R2 :: [m] :: t2 :: Ts2)) = some f2 ∧
      f1.name ≠ f2.name) ∧
    (PROXY ["ITextDrawsComponent", ",", "ITextDraw", "*", ",", "create", ",", "Vector2", ",",
        "StringView"]).map (fun f => f.name) = some ["ITextDrawsComponent_create"] ∧
    (PROXY_OVERLOAD ["ITextDrawsComponent", ",", "ITextDraw", "*", ",", "create", ",", "_model",
        ",", "Vector2", ",", "int"]).map (fun f => f.name)
      = some ["ITextDrawsComponent_create_model"] ∧
    (["ITextDrawsComponent_create"] : List Tok) ≠ ["ITextDrawsComponent_create_model"] := by
  have hall : ∀ (R u : Arg) (Ts : List Arg), isArg R = true → isArg u = true →
      (∀ T ∈ Ts, isArg T = true) → ∀ b ∈ [S] :: R :: [m] :: u :: Ts, isArg b = true := by
    intro R u Ts hR hu hTs b hb
    simp only [List.mem_cons] at hb
    rcases hb with rfl | rfl | rfl | rfl | hb
    · exact hS
    · exact hR
    · exact hm
    · exact hu
    · exact hTs b hb
  obtain ⟨f1, hf1, _, hn1, _⟩ := PROXY_OVERLOAD_header [S] R1 [m] t1 Ts1
    (hall R1 t1 Ts1 hR1 (isArg_of_isTag t1 ht1) hTs1)
  obtain ⟨f2, hf2, _, hn2, _⟩ := PROXY_OVERLOAD_header [S] R2 [m] t2 Ts2
    (hall R2 t2 Ts2 hR2 (isArg_of_isTag t2 ht2) hTs2)
  refine ⟨⟨f1, f2, hf1, hf2, ?_⟩, by decide, by decide, by decide⟩
  rw [hn1, hn2]
  exact symbol_ne_of_tag_ne S m t1 t2 ht1 ht2 hne

theorem distinct_tags_distinct_symbols_witness :
    (isArg ["ITextLabelsComponent"] = true ∧ isArg ["create"] = true ∧
      isArg ["ITextLabel", "*"] = true ∧ isArg ["ITextLabel", "*"] = true ∧
      isTag ["_player"] = true ∧ isTag ["_vehicle"] = true ∧
      (∀ T ∈ [["StringView"], ["IPlayer", "&"]], isArg T = true) ∧
      (∀ T ∈ [["StringView"], ["IVehicle", "&"]], isArg T = true) ∧
      (["_player"] : Arg) ≠ ["_vehicle"]) ∧
    ((∃ f1 f2, PROXY_OVERLOAD (joinArgs (["ITextLabelsComponent"] :: ["ITextLabel", "*"] ::
        ["create"] :: ["_player"] :: [["StringView"], ["IPlayer", "&"]])) = some f1 ∧
      PROXY_OVERLOAD (joinArgs (["ITextLabelsComponent"] :: ["ITextLabel", "*"] ::
        ["create"] :: ["_vehicle"] :: [["StringView"], ["IVehicle", "&"]])) = some f2 ∧
      f1.name ≠ f2.name) ∧
    (PROXY ["ITextDrawsComponent", ",", "ITextDraw", "*", ",", "create", ",", "Vector2", ",",
        "StringView"]).map (fun f => f.name) = some ["ITextDrawsComponent_create"] ∧
    (PROXY_OVERLOAD ["ITextDrawsComponent", ",", "ITextDraw", "*", ",", "create", ",", "_model",
        ",", "Vector2", ",", "int"]).map (fun f => f.name)
      = some ["ITextDrawsComponent_create_model"] ∧
    (["ITextDrawsComponent_create"] : List Tok) ≠ ["ITextDrawsComponent_create_model"]) :=
  ⟨by decide,
    distinct_tags_distinct_symbols "ITextLabelsComponent" "create" ["ITextLabel", "*"]
      ["ITextLabel", "*"] ["_player"] ["_vehicle"] [["StringView"], ["IPlayer", "&"]]
      [["StringView"], ["IVehicle", "&"]] (by decide) (by decide) (by decide) (by decide)
      (by decide) (by decide) (by decide) (by decide) (by decide)⟩

/-- Claim C6.  Over the whole declaration table of `proxies.cpp`, all 529 lines
of it, the triples of subject type, method name and overload tag are pairwise
distinct, every line expands, and the names of the generated functions are
pairwise distinct: no two lines produce the same symbol. -/
theorem table_triples_and_symbols_distinct :
    table.length = 529 ∧ (table.map Declaration.triple).Nodup ∧
      ∃ defs, expandTable table = some defs ∧ (defs.map fun f => f.name).Nodup :=
  ⟨table_length, distinctFrom_nodup table distinctFrom_table⟩

/-- Claim C7.  A table in which two lines have the same subject type, method
name and overload tag, or more generally ask for the same symbol, is rejected:
`generate` has no result.  Nothing is dropped or merged on the way: whenever all
lines expand, the expansion has one definition per line, the two lines have
each their own definition in their own place, and these two carry the same
name. -/
theorem duplicate_declaration_rejected (tbl : List Declaration) (i j : Nat)
    (d1 d2 : Declaration) (hij : i < j) (h1 : tbl[i]? = some d1) (h2 : tbl[j]? = some d2)
    (hw1 : d1.wellFormed = true) (hw2 : d2.wellFormed = true)
    (hdup : d1.triple = d2.triple ∨ d1.symbol = d2.symbol) :
    generate tbl = none ∧
      ∀ defs, expandTable tbl = some defs → defs.length = tbl.length ∧
        ∃ f1 f2, defs[i]? = some f1 ∧ defs[j]? = some f2 ∧
          d1.expand = some f1 ∧ d2.expand = some f2 ∧ f1.name = f2.name := by
  have hsym : d1.symbol = d2.symbol := by
    rcases hdup with h | h
    · simp only [Declaration.symbol, h]
    · exact h
  refine ⟨generate_eq_none_of_same_symbol tbl i j d1 d2 hij h1 h2 hw1 hw2 hsym, ?_⟩
  intro defs he
  obtain ⟨hlen, hget⟩ := expandTable_getElem? tbl defs he
  obtain ⟨f1, hf1, he1⟩ := hget i d1 h1
  obtain ⟨f2, hf2, he2⟩ := hget j d2 h2
  exact ⟨hlen, f1, f2, hf1, hf2, he1, he2, by
    rw [expand_name d1 hw1 f1 he1, expand_name d2 hw2 f2 he2, hsym]⟩

theorem duplicate_declaration_rejected_witness :
    (0 < 2 ∧
      [Declaration.proxy ["IConfig", ",", "void", ",", "removeBan", ",", "BanEntry", "&"],
        Declaration.proxy ["IActor", ",", "int", ",", "getSkin"],
        Declaration.proxy ["IConfig", ",", "void", ",", "removeBan", ",", "size_t"]][0]? =
          some (Declaration.proxy ["IConfig", ",", "void", ",", "removeBan", ",", "BanEntry", "&"]) ∧
      [Declaration.proxy ["IConfig", ",", "void", ",", "removeBan", ",", "BanEntry", "&"],
        Declaration.proxy ["IActor", ",", "int", ",", "getSkin"],
        Declaration.proxy ["IConfig", ",", "void", ",", "removeBan", ",", "size_t"]][2]? =
          some (Declaration.proxy ["IConfig", ",", "void", ",", "removeBan", ",", "size_t"]) ∧
      (Declaration.proxy
        ["IConfig", ",", "void", ",", "removeBan", ",", "BanEntry", "&"]).wellFormed = true ∧
      (Declaration.proxy ["IConfig", ",", "void", ",", "removeBan", ",", "size_t"]).wellFormed = true ∧
      ((Declaration.proxy ["IConfig", ",", "void", ",", "removeBan", ",", "BanEntry", "&"]).triple =
          (Declaration.proxy ["IConfig", ",", "void", ",", "removeBan", ",", "size_t"]).triple ∨
        (Declaration.proxy ["IConfig", ",", "void", ",", "removeBan", ",", "BanEntry", "&"]).symbol =
          (Declaration.proxy ["IConfig", ",", "void", ",", "removeBan", ",", "size_t"]).symbol)) ∧
    (generate [Declaration.proxy ["IConfig", ",", "void", ",", "removeBan", ",", "BanEntry", "&"],
        Declaration.proxy ["IActor", ",", "int", ",", "getSkin"],
        Declaration.proxy ["IConfig", ",", "void", ",", "removeBan", ",", "size_t"]] = none ∧
      ∀ defs, expandTable
          [Declaration.proxy ["IConfig", ",", "void", ",", "removeBan", ",", "BanEntry", "&"],
            Declaration.proxy ["IActor", ",", "int", ",", "getSkin"],
            Declaration.proxy ["IConfig", ",", "void", ",", "removeBan", ",", "size_t"]] = some defs →
        defs.length =
          [Declaration.proxy ["IConfig", ",", "void", ",", "removeBan", ",", "BanEntry", "&"],
            Declaration.proxy ["IActor", ",", "int", ",", "getSkin"],
            Declaration.proxy ["IConfig", ",", "void", ",", "removeBan", ",", "size_t"]].length ∧
        ∃ f1 f2, defs[0]? = some f1 ∧ defs[2]? = some f2 ∧
          (Declaration.proxy
            ["IConfig", ",", "void", ",", "removeBan", ",", "BanEntry", "&"]).expand = some f1 ∧
          (Declaration.proxy ["IConfig", ",", "void", ",", "removeBan", ",", "size_t"]).expand =
            some f2 ∧
          f1.name = f2.name) :=
  ⟨by decide,
    duplicate_declaration_rejected _ 0 2 _ _ (by decide) (by decide) (by decide) (by decide)
      (by decide) (by decide)⟩

/-- The three lines of the example expand, all of them: the rejection of the
table is that of the name defined twice. -/
theorem repeated_removeBan_expands :
    (expandTable
      [Declaration.proxy ["IConfig", ",", "void", ",", "removeBan", ",", "BanEntry", "&"],
        Declaration.proxy ["IActor", ",", "int", ",", "getSkin"],
        Declaration.proxy ["IConfig", ",", "void", ",", "removeBan", ",", "size_t"]]).map
      (fun defs => defs.map fun f => f.name) =
      some [["IConfig_removeBan"], ["IActor_getSkin"], ["IConfig_removeBan"]] := by
  decide

/-- Each of the three definitions of the example passes the translator's checks
on its own text: nothing but the repeated name stands against the table. -/
theorem repeated_removeBan_accepted :
    acceptedTable
      [Declaration.proxy ["IConfig", ",", "void", ",", "removeBan", ",", "BanEntry", "&"],
        Declaration.proxy ["IActor", ",", "int", ",", "getSkin"],
        Declaration.proxy ["IConfig", ",", "void", ",", "removeBan", ",", "size_t"]] = true := by
  decide

/-- Claim C8.  The return type of the generated function is, token for token,
the declared return type `R`, whatever its qualifiers, and its body is the one
statement `return subject -> m ( args );`.  Line 78 of `proxies.cpp` declares
`IActor_getAnimation` with the return type `const AnimationData &`.  With at most
ten parameter types, the result of a call of the function is the very outcome of
the forwarded call: the value that the method returned, not another one. -/
theorem return_type_is_declared (S R m t : Arg) (Ts : List Arg)
    (hS : isArg S = true) (hR : isArg R = true) (hm : isArg m = true) (ht : isArg t = true)
    (hTs : ∀ T ∈ Ts, isArg T = true) :
    (∃ f, PROXY_OVERLOAD (joinArgs (S :: R :: m :: t :: Ts)) = some f ∧ f.returnType = R ∧
      f.tokens = [";", "extern", "\"C\"", "SDK_EXPORT"] ++ R ++ ["__CDECL"] ++ symbol S m t
        ++ ["("] ++ f.params ++ [")"]
        ++ ["\x7b", "return", "subject", "->"] ++ m ++ ["("] ++ f.args ++ [")", ";", "\x7d"] ∧
      (Ts.length ≤ 10 → (∀ T ∈ Ts, T ≠ []) →
        ∀ {σ V E : Type} (methods : List Tok → V → List V → σ → Except E V × σ) (subject : V)
          (values : List V) (s : σ), values.length = Ts.length →
          f.call methods (subject :: values) s = some (methods m subject values s))) ∧
    PROXY ["IActor", ",", "const", "AnimationData", "&", ",", "getAnimation"] = some
      { returnType := ["const", "AnimationData", "&"]
        name := ["IActor_getAnimation"]
        params := ["IActor", "*", "subject"]
        callee := ["getAnimation"]
        args := [] } := by
  have hall : ∀ b ∈ S :: R :: m :: t :: Ts, isArg b = true := by
    intro b hb
    simp only [List.mem_cons] at hb
    rcases hb with rfl | rfl | rfl | rfl | hb
    · exact hS
    · exact hR
    · exact hm
    · exact ht
    · exact hTs b hb
  obtain ⟨f, hf, hret, hname, hcallee⟩ := PROXY_OVERLOAD_header S R m t Ts hall
  refine ⟨⟨f, hf, hret, ?_, ?_⟩, by decide⟩
  · simp only [FunctionDefinition.tokens, hret, hname, hcallee]
  · intro hN hne σ V E methods subject values s hv
    have hf' := PROXY_OVERLOAD_joinArgs S R m t Ts hS hR hm ht
      (fun T hT => ⟨hTs T hT, hne T hT⟩) hN
    rw [hf] at hf'
    rw [Option.some.inj hf']
    exact call_PROXY_OVERLOAD S R m t Ts hS hTs hN methods subject values hv s

theorem return_type_is_declared_witness :
    (isArg ["IPlayerObjectData"] = true ∧ isArg ["const", "ObjectAttachmentSlotData", "&"] = true ∧
      isArg ["getAttachedObject"] = true ∧ isArg [] = true ∧
      ∀ T ∈ [["int"]], isArg T = true) ∧
    ((∃ f, PROXY_OVERLOAD (joinArgs (["IPlayerObjectData"] ::
          ["const", "ObjectAttachmentSlotData", "&"] :: ["getAttachedObject"] :: [] :: [["int"]]))
        = some f ∧ f.returnType = ["const", "ObjectAttachmentSlotData", "&"] ∧
      f.tokens = [";", "extern", "\"C\"", "SDK_EXPORT"] ++ ["const", "ObjectAttachmentSlotData", "&"]
        ++ ["__CDECL"] ++ symbol ["IPlayerObjectData"] ["getAttachedObject"] []
        ++ ["("] ++ f.params ++ [")"]
        ++ ["\x7b", "return", "subject", "->"] ++ ["getAttachedObject"] ++ ["("] ++ f.args
        ++ [")", ";", "\x7d"] ∧
      ([["int"]].length ≤ 10 → (∀ T ∈ [["int"]], T ≠ []) →
        ∀ {σ V E : Type} (methods : List Tok → V → List V → σ → Except E V × σ) (subject : V)
          (values : List V) (s : σ), values.length = [["int"]].length →
          f.call methods (subject :: values) s =
            some (methods ["getAttachedObject"] subject values s))) ∧
    PROXY ["IActor", ",", "const", "AnimationData", "&", ",", "getAnimation"] = some
      { returnType := ["const", "AnimationData", "&"]
        name := ["IActor_getAnimation"]
        params := ["IActor", "*", "subject"]
        callee := ["getAnimation"]
        args := [] }) :=
  ⟨by decide,
    return_type_is_declared ["IPlayerObjectData"] ["const", "ObjectAttachmentSlotData", "&"]
      ["getAttachedObject"] [] [["int"]] (by decide) (by decide) (by decide) (by decide)
      (by decide)⟩

/-- Claim C9.  For a declaration without parameter types, written
`PROXY_OVERLOAD(S, R, m, t)`, `PROXY(S, R, m)` or, as on line 555, `PROXY(S, R, m, )`,
the parameter list of the generated function is exactly `S * subject`, with no
comma after it, and the forwarded call has no argument: the replacement of
`__VA_OPT__` is empty whatever stands in it, so `_EXPAND_PARAM` and `_EXPAND_ARG`
contribute no token.  Line 76 of `proxies.cpp` gives `IActor_getSkin` this way. -/
theorem no_parameter_declaration (S R m t : Arg)
    (hS : isArg S = true) (hR : isArg R = true) (hm : isArg m = true) (ht : isArg t = true) :
    PROXY_OVERLOAD (joinArgs [S, R, m, t]) = some
      { returnType := R, name := symbol S m t, params := S ++ ["*", "subject"], callee := m,
        args := [] } ∧
    PROXY (joinArgs [S, R, m]) = some
      { returnType := R, name := symbol S m [], params := S ++ ["*", "subject"], callee := m,
        args := [] } ∧
    PROXY (joinArgs [S, R, m, []]) = some
      { returnType := R, name := symbol S m [], params := S ++ ["*", "subject"], callee := m,
        args := [] } ∧
    (∀ content, __VA_OPT__ [] content = some []) ∧
    FunctionDefinition.tokens
      { returnType := R, name := symbol S m t, params := S ++ ["*", "subject"], callee := m,
        args := [] } =
      [";", "extern", "\"C\"", "SDK_EXPORT"] ++ R ++ ["__CDECL"] ++ symbol S m t
        ++ ["("] ++ S ++ ["*", "subject", ")"]
        ++ ["\x7b", "return", "subject", "->"] ++ m ++ ["(", ")", ";", "\x7d"] ∧
    (PROXY ["IActor", ",", "int", ",", "getSkin"]).map FunctionDefinition.tokens = some
      [";", "extern", "\"C\"", "SDK_EXPORT", "int", "__CDECL", "IActor_getSkin",
        "(", "IActor", "*", "subject", ")",
        "\x7b", "return", "subject", "->", "getSkin", "(", ")", ";", "\x7d"] := by
  have h4 : ∀ (u : Arg), isArg u = true → ∀ b ∈ [S, R, m, u], isArg b = true := by
    intro u hu b hb
    simp only [List.mem_cons, List.mem_singleton, List.not_mem_nil, or_false] at hb
    rcases hb with rfl | rfl | rfl | rfl
    · exact hS
    · exact hR
    · exact hm
    · exact hu
  have e0 : PROXY_OVERLOAD (joinArgs [S, R, m, []]) = some
      { returnType := R, name := symbol S m [], params := S ++ ["*", "subject"], callee := m,
        args := [] } := by
    rw [PROXY_OVERLOAD_bind S R m [] [] (h4 [] rfl)]
    simp [joinArgs, __VA_OPT__]
  have e1 : PROXY_OVERLOAD (joinArgs [S, R, m, [], []]) = some
      { returnType := R, name := symbol S m [], params := S ++ ["*", "subject"], callee := m,
        args := [] } := by
    rw [PROXY_OVERLOAD_bind S R m [] [[]] (by
      intro b hb
      simp only [List.mem_cons, List.mem_singleton, List.not_mem_nil, or_false] at hb
      rcases hb with rfl | rfl | rfl | rfl | rfl
      · exact hS
      · exact hR
      · exact hm
      · rfl
      · rfl)]
    simp [joinArgs, __VA_OPT__]
  refine ⟨?_, ?_, ?_, ?_, ?_, by decide⟩
  · rw [PROXY_OVERLOAD_bind S R m t [] (h4 t ht)]
    simp [joinArgs, __VA_OPT__]
  · rw [PROXY_joinArgs S R m [] hS hR hm (by simp), e0]
  · rw [PROXY_joinArgs S R m [[]] hS hR hm (by
      intro T hT
      simp only [List.mem_singleton] at hT
      rw [hT]; rfl), e1]
  · intro content
    rfl
  · simp [FunctionDefinition.tokens]

theorem no_parameter_declaration_witness :
    (isArg ["IPlayer"] = true ∧ isArg ["unsigned"] = true ∧ isArg ["getPing"] = true ∧
      isArg [] = true) ∧
    (PROXY_OVERLOAD (joinArgs [["IPlayer"], ["unsigned"], ["getPing"], []]) = some
      { returnType := ["unsigned"], name := symbol ["IPlayer"] ["getPing"] [],
        params := ["IPlayer"] ++ ["*", "subject"], callee := ["getPing"], args := [] } ∧
    PROXY (joinArgs [["IPlayer"], ["unsigned"], ["getPing"]]) = some
      { returnType := ["unsigned"], name := symbol ["IPlayer"] ["getPing"] [],
        params := ["IPlayer"] ++ ["*", "subject"], callee := ["getPing"], args := [] } ∧
    PROXY (joinArgs [["IPlayer"], ["unsigned"], ["getPing"], []]) = some
      { returnType := ["unsigned"], name := symbol ["IPlayer"] ["getPing"] [],
        params := ["IPlayer"] ++ ["*", "subject"], callee := ["getPing"], args := [] } ∧
    (∀ content, __VA_OPT__ [] content = some []) ∧
    FunctionDefinition.tokens
      { returnType := ["unsigned"], name := symbol ["IPlayer"] ["getPing"] [],
        params := ["IPlayer"] ++ ["*", "subject"], callee := ["getPing"], args := [] } =
      [";", "extern", "\"C\"", "SDK_EXPORT"] ++ ["unsigned"] ++ ["__CDECL"]
        ++ symbol ["IPlayer"] ["getPing"] []
        ++ ["("] ++ ["IPlayer"] ++ ["*", "subject", ")"]
        ++ ["\x7b", "return", "subject", "->"] ++ ["getPing"] ++ ["(", ")", ";", "\x7d"] ∧
    (PROXY ["IActor", ",", "int", ",", "getSkin"]).map FunctionDefinition.tokens = some
      [";", "extern", "\"C\"", "SDK_EXPORT", "int", "__CDECL", "IActor_getSkin",
        "(", "IActor", "*", "subject", ")",
        "\x7b", "return", "subject", "->", "getSkin", "(", ")", ";", "\x7d"]) :=
  ⟨by decide,
    no_parameter_declaration ["IPlayer"] ["unsigned"] ["getPing"] [] (by decide) (by decide)
      (by decide) (by decide)⟩

/-- Claim C10.  With more than ten parameter types generation fails, and no
function with a shortened or otherwise wrong parameter list is written.  The
eleventh argument of the counting step is the eleventh type and not a marker,
so the step selects none of the names `_EXPAND_PARAM0` .. `_EXPAND_PARAM10` (nor
`_EXPAND_ARG0` .. `_EXPAND_ARG10`).  Whatever `PROXY_OVERLOAD` or `PROXY` writes
for the line, its parameter list is the formal list of no sequence of types,
shortened or not; and a table that holds the line, as a `PROXY_OVERLOAD` or as a
`PROXY` line, is not generated: the helper call left in the forwarded call is
no parameter name. -/
theorem more_than_ten_parameters_rejected (S R m t : Arg) (Ts : List Arg)
    (tbl : List Declaration)
    (hS : isArg S = true) (hR : isArg R = true) (hm : isArg m = true) (ht : isArg t = true)
    (hTs : ∀ T ∈ Ts, isType T = true) (hN : 10 < Ts.length) :
    (∀ k ∈ markers, _EXPAND_PARAM_N (joinArgs Ts ++ padding) ≠ some (paste ["_EXPAND_PARAM"] k)) ∧
    (∀ k ∈ markers, _EXPAND_ARG_N (joinArgs Ts ++ padding) ≠ some (paste ["_EXPAND_ARG"] k)) ∧
    (∀ f, PROXY_OVERLOAD (joinArgs (S :: R :: m :: t :: Ts)) = some f →
      ∀ Us : List Arg, f.params ≠ joinArgs ((S ++ ["*", "subject"]) :: formalList Us)) ∧
    (∀ f, PROXY (joinArgs (S :: R :: m :: Ts)) = some f →
      ∀ Us : List Arg, f.params ≠ joinArgs ((S ++ ["*", "subject"]) :: formalList Us)) ∧
    (Declaration.overload (joinArgs (S :: R :: m :: t :: Ts)) ∈ tbl → generate tbl = none) ∧
    (Declaration.proxy (joinArgs (S :: R :: m :: Ts)) ∈ tbl → generate tbl = none) := by
  have h11 := isType_getD Ts hTs hN
  have hg := getD_append_markers Ts hN
  have hA : ∀ b ∈ Ts, isArg b = true := fun b hb => isArg_of_isType b (hTs b hb)
  have hP := PROXY_joinArgs S R m Ts hS hR hm hA
  have hO := more_than_ten_not_accepted S R m t Ts hS hR hm ht hTs hN
  have hO' := more_than_ten_not_accepted S R m [] Ts hS hR hm isArg_nil hTs hN
  obtain ⟨T, Ts', rfl⟩ : ∃ T Ts', Ts = T :: Ts' := by
    cases Ts with
    | nil => simp at hN
    | cons T Ts' => exact ⟨T, Ts', rfl⟩
  refine ⟨?_, ?_, fun f hf => (hO f hf).2, fun f hf => (hO' f (hP ▸ hf)).2, ?_, ?_⟩
  · intro k hk h
    rw [_EXPAND_PARAM_N_joinArgs T Ts' hA, hg] at h
    exact paste_ne_paste_marker _ _ h11 k hk (Option.some.inj h)
  · intro k hk h
    rw [_EXPAND_ARG_N_joinArgs T Ts' hA, hg] at h
    exact paste_ne_paste_marker _ _ h11 k hk (Option.some.inj h)
  · intro hd
    exact generate_eq_none_of_not_accepted tbl _ hd fun f hf => (hO f hf).1
  · intro hd
    exact generate_eq_none_of_not_accepted tbl _ hd fun f hf => (hO' f (hP ▸ hf)).1

theorem more_than_ten_parameters_rejected_witness :
    (isArg ["S"] = true ∧ isArg ["void"] = true ∧ isArg ["m"] = true ∧ isArg ["Tagged"] = true ∧
      (∀ T ∈ [["int"], ["int"], ["int"], ["int"], ["int"], ["int"], ["int"], ["int"], ["int"], ["int"],
        ["const", "Colour", "&"]], isType T = true) ∧
      10 < [["int"], ["int"], ["int"], ["int"], ["int"], ["int"], ["int"], ["int"], ["int"], ["int"],
        ["const", "Colour", "&"]].length) ∧
    (∀ k ∈ markers, _EXPAND_PARAM_N (joinArgs [["int"], ["int"], ["int"], ["int"], ["int"], ["int"], ["int"], ["int"], ["int"], ["int"],
        ["const", "Colour", "&"]] ++ padding) ≠ some (paste ["_EXPAND_PARAM"] k)) ∧
    (∀ k ∈ markers, _EXPAND_ARG_N (joinArgs [["int"], ["int"], ["int"], ["int"], ["int"], ["int"], ["int"], ["int"], ["int"], ["int"],
        ["const", "Colour", "&"]] ++ padding) ≠ some (paste ["_EXPAND_ARG"] k)) ∧
    (∀ f, PROXY_OVERLOAD (joinArgs (["S"] :: ["void"] :: ["m"] :: ["Tagged"] :: [["int"], ["int"], ["int"], ["int"], ["int"], ["int"], ["int"], ["int"], ["int"], ["int"],
        ["const", "Colour", "&"]])) = some f →
      ∀ Us : List Arg, f.params ≠ joinArgs ((["S"] ++ ["*", "subject"]) :: formalList Us)) ∧
    (∀ f, PROXY (joinArgs (["S"] :: ["void"] :: ["m"] :: [["int"], ["int"], ["int"], ["int"], ["int"], ["int"], ["int"], ["int"], ["int"], ["int"],
        ["const", "Colour", "&"]])) = some f →
      ∀ Us : List Arg, f.params ≠ joinArgs ((["S"] ++ ["*", "subject"]) :: formalList Us)) ∧
    generate [Declaration.proxy ["IActor", ",", "int", ",", "getSkin"],
      Declaration.overload (joinArgs (["S"] :: ["void"] :: ["m"] :: ["Tagged"] :: [["int"], ["int"], ["int"], ["int"], ["int"], ["int"], ["int"], ["int"], ["int"], ["int"],
        ["const", "Colour", "&"]]))] = none ∧
    generate [Declaration.proxy ["IActor", ",", "int", ",", "getSkin"],
      Declaration.proxy (joinArgs (["S"] :: ["void"] :: ["m"] :: [["int"], ["int"], ["int"], ["int"], ["int"], ["int"], ["int"], ["int"], ["int"], ["int"],
        ["const", "Colour", "&"]]))] = none :=
  ⟨by decide,
    (more_than_ten_parameters_rejected ["S"] ["void"] ["m"] ["Tagged"]
      [["int"], ["int"], ["int"], ["int"], ["int"], ["int"], ["int"], ["int"], ["int"], ["int"],
        ["const", "Colour", "&"]]
      []
      (by decide) (by decide) (by decide) (by decide) (by decide) (by decide)).1,
    (more_than_ten_parameters_rejected ["S"] ["void"] ["m"] ["Tagged"]
      [["int"], ["int"], ["int"], ["int"], ["int"], ["int"], ["int"], ["int"], ["int"], ["int"],
        ["const", "Colour", "&"]]
      []
      (by decide) (by decide) (by decide) (by decide) (by decide) (by decide)).2.1,
    (more_than_ten_parameters_rejected ["S"] ["void"] ["m"] ["Tagged"]
      [["int"], ["int"], ["int"], ["int"], ["int"], ["int"], ["int"], ["int"], ["int"], ["int"],
        ["const", "Colour", "&"]]
      []
      (by decide) (by decide) (by decide) (by decide) (by decide) (by decide)).2.2.1,
    (more_than_ten_parameters_rejected ["S"] ["void"] ["m"] ["Tagged"]
      [["int"], ["int"], ["int"], ["int"], ["int"], ["int"], ["int"], ["int"], ["int"], ["int"],
        ["const", "Colour", "&"]]
      []
      (by decide) (by decide) (by decide) (by decide) (by decide) (by decide)).2.2.2.1,
    (more_than_ten_parameters_rejected ["S"] ["void"] ["m"] ["Tagged"]
      [["int"], ["int"], ["int"], ["int"], ["int"], ["int"], ["int"], ["int"], ["int"], ["int"],
        ["const", "Colour", "&"]]
      [Declaration.proxy ["IActor", ",", "int", ",", "getSkin"],
        Declaration.overload (joinArgs (["S"] :: ["void"] :: ["m"] :: ["Tagged"] :: [["int"], ["int"], ["int"], ["int"], ["int"], ["int"], ["int"], ["int"], ["int"], ["int"],
        ["const", "Colour", "&"]]))]
      (by decide) (by decide) (by decide) (by decide) (by decide) (by decide)).2.2.2.2.1
      (by simp),
    (more_than_ten_parameters_rejected ["S"] ["void"] ["m"] ["Tagged"]
      [["int"], ["int"], ["int"], ["int"], ["int"], ["int"], ["int"], ["int"], ["int"], ["int"],
        ["const", "Colour", "&"]]
      [Declaration.proxy ["IActor", ",", "int", ",", "getSkin"],
        Declaration.proxy (joinArgs (["S"] :: ["void"] :: ["m"] :: [["int"], ["int"], ["int"], ["int"], ["int"], ["int"], ["int"], ["int"], ["int"], ["int"],
        ["const", "Colour", "&"]]))]
      (by decide) (by decide) (by decide) (by decide) (by decide) (by decide)).2.2.2.2.2
      (by simp)⟩

/-- Claim C12.  Every line of the table of `proxies.cpp`, all 529 of them, has
at most ten parameter types, and so lies in the range of the arity expander; the
longest line, line 247, has nine. -/
theorem table_within_expander_range :
    table.length = 529 ∧ (∀ d ∈ table, d.parameters.length ≤ 10) ∧
    (Declaration.proxy ["IBaseObject", ",", "void", ",", "setMaterialText", ",", "uint32_t", ",",
      "StringView", ",", "ObjectMaterialSize", ",", "StringView", ",", "int", ",", "bool", ",",
      "Colour", ",", "Colour", ",", "ObjectMaterialTextAlign"] ∈ tableObjects ∧
     (Declaration.proxy ["IBaseObject", ",", "void", ",", "setMaterialText", ",", "uint32_t", ",",
      "StringView", ",", "ObjectMaterialSize", ",", "StringView", ",", "int", ",", "bool", ",",
      "Colour", ",", "Colour", ",", "ObjectMaterialTextAlign"]).parameters.length = 9) :=
  ⟨table_length, table_parameters_le_ten, by decide, by decide⟩

/-- Claim C13.  In the table of `proxies.cpp` no return type and no parameter
type holds a separator: every argument of every line has matching parentheses
and angle brackets and no comma, so that the arguments of a line are its true
types, and no line names `Pair` or `StaticArray`.  The types with a comma between
angle brackets are named by the seven aliases `IntPair`, `BoolStringPair`,
`HoursMinutesPair`, `NewConnectionPlayerPair`, `CarriagesArray`,
`VehicleModelArray` and `SkillsArray`; each is declared exactly once, is used by
a line of the table, and is declared before every line of the table. -/
theorem table_types_are_aliased :
    (∀ d ∈ table, d.wellFormed = true ∧ (macroArgs d.tokens).all angleBalanced = true ∧
      (macroArgs d.tokens).all (fun a => !a.contains ",") = true ∧
      "Pair" ∉ d.tokens ∧ "StaticArray" ∉ d.tokens) ∧
    (∀ d ∈ table, angleBalanced d.returnType = true ∧ d.parameters.all angleBalanced = true) ∧
    declarations.filterMap (fun item =>
      match item with
      | Item.typeAlias name _ => some name
      | Item.invocation _ => none) =
    ["IntPair", "BoolStringPair", "HoursMinutesPair", "NewConnectionPlayerPair",
      "CarriagesArray", "VehicleModelArray", "SkillsArray"] ∧
    (aliases.map Prod.fst).Nodup ∧
    (∀ a ∈ aliases, angleBalanced a.2 = true ∧ (macroArgs a.2).length = 2 ∧
      (a.2.head? = some "Pair" ∨ a.2.head? = some "StaticArray")) ∧
    (∀ a ∈ aliases, table.any (fun d => d.tokens.contains a.1) = true) ∧
    (∀ (i j : Nat) (name : Tok) (type : List Tok) (d : Declaration),
      declarations[i]? = some (Item.typeAlias name type) →
      declarations[j]? = some (Item.invocation d) → i < j) := by
  refine ⟨table_arguments_whole, table_types_balanced, declarations_aliases, by decide, by decide,
    aliases_used, ?_⟩
  intro i j name type d hi hj
  have h1 := (declarations_alias_lt i name type hi).1
  have h2 := (declarations_invocation_ge j d hj).1
  omega

/-- With no type supplied the counting step reads off the marker 1, not the
marker 0 that equals the number of types: `_EXPAND_PARAM_N(,10,9,8,7,6,5,4,3,2,1,0)`
is `_EXPAND_PARAM1`, and `_EXPAND_PARAM()` is `_1`.  Written without the empty
argument, `_EXPAND_PARAM_N(10,9,8,7,6,5,4,3,2,1,0)` is `_EXPAND_PARAM0`, which is
no macro and stays as it is.  So the counting step does not select the macro of
the arity of the supplied types for every number from 0 to 10. -/
theorem counting_step_at_zero_reads_one :
    _EXPAND_PARAM_N (joinArgs [] ++ padding) = some ["_EXPAND_PARAM1"] ∧
    _EXPAND_ARG_N (joinArgs [] ++ padding) = some ["_EXPAND_ARG1"] ∧
    _EXPAND_PARAM_N (joinArgs [] ++ padding) ≠
      some ["_EXPAND_PARAM" ++ toString ([] : List Arg).length] ∧
    _EXPAND_ARG_N (joinArgs [] ++ padding) ≠
      some ["_EXPAND_ARG" ++ toString ([] : List Arg).length] ∧
    _EXPAND_PARAM (joinArgs []) = some ["_1"] ∧ _EXPAND_ARG (joinArgs []) = some ["_1"] ∧
    _EXPAND_PARAM_N padding.tail = some ["_EXPAND_PARAM0"] ∧
    invokeParam ["_EXPAND_PARAM0"] [] = ["_EXPAND_PARAM0", "(", ")"] ∧
    ¬ (∀ Ts : List Arg, Ts.length ≤ 10 → (∀ T ∈ Ts, isArg T = true) →
        _EXPAND_PARAM_N (joinArgs Ts ++ padding) =
          some ["_EXPAND_PARAM" ++ toString Ts.length]) := by
  refine ⟨by decide, by decide, by decide, by decide, by decide, by decide, by decide, by decide,
    ?_⟩
  intro h
  exact absurd (h [] (by decide) (by decide)) (by decide)

/-- Claim C14, amended.  For every `N` from 1 to 10, the counting step applied
to the `N` supplied types followed by the padding reads off the marker `N`:
`_EXPAND_PARAM_N` gives the name `_EXPAND_PARAMN` and `_EXPAND_ARG_N` the name
`_EXPAND_ARGN`, and the rescan invokes the macro of arity `N`.  With no type
supplied the step reads off the marker 1. -/
theorem counting_step_reads_arity (Ts : List Arg) (h1 : 1 ≤ Ts.length) (h10 : Ts.length ≤ 10)
    (hTs : ∀ T ∈ Ts, isArg T = true) :
    _EXPAND_PARAM_N (joinArgs Ts ++ padding) = some ["_EXPAND_PARAM" ++ toString Ts.length] ∧
    _EXPAND_ARG_N (joinArgs Ts ++ padding) = some ["_EXPAND_ARG" ++ toString Ts.length] ∧
    invokeParam ["_EXPAND_PARAM" ++ toString Ts.length] =
      [_EXPAND_PARAM1, _EXPAND_PARAM2, _EXPAND_PARAM3, _EXPAND_PARAM4, _EXPAND_PARAM5,
        _EXPAND_PARAM6, _EXPAND_PARAM7, _EXPAND_PARAM8, _EXPAND_PARAM9, _EXPAND_PARAM10].getD
        (Ts.length - 1) id ∧
    invokeArg ["_EXPAND_ARG" ++ toString Ts.length] =
      [_EXPAND_ARG1, _EXPAND_ARG2, _EXPAND_ARG3, _EXPAND_ARG4, _EXPAND_ARG5,
        _EXPAND_ARG6, _EXPAND_ARG7, _EXPAND_ARG8, _EXPAND_ARG9, _EXPAND_ARG10].getD
        (Ts.length - 1) id ∧
    _EXPAND_PARAM_N (joinArgs [] ++ padding) = some ["_EXPAND_PARAM1"] ∧
    _EXPAND_ARG_N (joinArgs [] ++ padding) = some ["_EXPAND_ARG1"] :=
  ⟨(counting_step_le_ten Ts h1 h10 hTs).1, (counting_step_le_ten Ts h1 h10 hTs).2,
    (invoke_marker Ts.length h1 h10).1, (invoke_marker Ts.length h1 h10).2,
    counting_step_nil.1, counting_step_nil.2⟩

theorem counting_step_reads_arity_witness :
    (1 ≤ [["int"], ["Vector3"], ["float"]].length ∧ [["int"], ["Vector3"], ["float"]].length ≤ 10 ∧
      ∀ T ∈ [["int"], ["Vector3"], ["float"]], isArg T = true) ∧
    (_EXPAND_PARAM_N (joinArgs [["int"], ["Vector3"], ["float"]] ++ padding) =
      some ["_EXPAND_PARAM" ++ toString [["int"], ["Vector3"], ["float"]].length] ∧
    _EXPAND_ARG_N (joinArgs [["int"], ["Vector3"], ["float"]] ++ padding) =
      some ["_EXPAND_ARG" ++ toString [["int"], ["Vector3"], ["float"]].length] ∧
    invokeParam ["_EXPAND_PARAM" ++ toString [["int"], ["Vector3"], ["float"]].length] =
      [_EXPAND_PARAM1, _EXPAND_PARAM2, _EXPAND_PARAM3, _EXPAND_PARAM4, _EXPAND_PARAM5,
        _EXPAND_PARAM6, _EXPAND_PARAM7, _EXPAND_PARAM8, _EXPAND_PARAM9, _EXPAND_PARAM10].getD
        ([["int"], ["Vector3"], ["float"]].length - 1) id ∧
    invokeArg ["_EXPAND_ARG" ++ toString [["int"], ["Vector3"], ["float"]].length] =
      [_EXPAND_ARG1, _EXPAND_ARG2, _EXPAND_ARG3, _EXPAND_ARG4, _EXPAND_ARG5,
        _EXPAND_ARG6, _EXPAND_ARG7, _EXPAND_ARG8, _EXPAND_ARG9, _EXPAND_ARG10].getD
        ([["int"], ["Vector3"], ["float"]].length - 1) id ∧
    _EXPAND_PARAM_N (joinArgs [] ++ padding) = some ["_EXPAND_PARAM1"] ∧
    _EXPAND_ARG_N (joinArgs [] ++ padding) = some ["_EXPAND_ARG1"]) :=
  ⟨by decide,
    counting_step_reads_arity [["int"], ["Vector3"], ["float"]] (by decide) (by decide)
      (by decide)⟩

/-- Claim C15.  For `N` from 1 to 10, the name given to the `i`-th declared
parameter, counting from 1, is `_k` with `k = N + 1 - i`, in the formal list and
in the actual list alike: the first parameter is `_N`, the last `_1`.  The `N`
names are pairwise distinct and none of them is `subject`. -/
theorem positional_names_descend (Ts : List Arg) (h1 : 1 ≤ Ts.length) (h10 : Ts.length ≤ 10)
    (hTs : ∀ T ∈ Ts, isArg T = true) :
    ∃ formals actuals, _EXPAND_PARAM (joinArgs Ts) = some formals ∧
      _EXPAND_ARG (joinArgs Ts) = some actuals ∧
      (∀ i, 1 ≤ i → i ≤ Ts.length →
        (macroArgs formals)[i - 1]? =
          some (Ts.getD (i - 1) [] ++ ["_" ++ toString (Ts.length + 1 - i)]) ∧
        (macroArgs actuals)[i - 1]? = some ["_" ++ toString (Ts.length + 1 - i)]) ∧
      (macroArgs actuals).Nodup ∧ ((macroArgs formals).map paramName).Nodup ∧
      ["subject"] ∉ macroArgs actuals ∧ some "subject" ∉ (macroArgs formals).map paramName := by
  have hne : Ts ≠ [] := by
    intro h
    rw [h] at h1
    simp at h1
  have hP := _EXPAND_PARAM_joinArgs Ts hne h10 hTs
  have hA := _EXPAND_ARG_joinArgs Ts hne h10 hTs
  have hf : macroArgs (joinArgs (formalList Ts)) = formalList Ts :=
    macroArgs_joinArgs_of_ne_nil _ (formalList_ne_nil Ts hne) (formalList_isArg Ts hTs h10)
  have ha := macroArgs_positionalNames Ts.length h1 h10
  have hnames : (formalList Ts).map paramName = (positionalNames Ts.length).map some := by
    have := map_paramName_zipWith (positionalNames Ts.length) Ts (by simp [positionalNames_length])
    have e : (formalList Ts).map paramName = ((formalList Ts).map fun p => (paramName p).toList).map
        List.head? := by
      rw [List.map_map]
      apply List.map_congr_left
      intro p _
      cases h : paramName p <;> simp [h]
    rw [e]
    unfold formalList
    rw [this, List.map_map]
    apply List.map_congr_left
    intro x _
    rfl
  obtain ⟨hnd, hsub⟩ := positionalNames_nodup Ts.length h10
  refine ⟨_, _, hP, hA, ?_, ?_, ?_, ?_, ?_⟩
  · intro i hi1 hiN
    have hlt : i - 1 < Ts.length := by omega
    have hk : Ts.length - (i - 1) = Ts.length + 1 - i := by omega
    have hpn := positionalNames_getElem? Ts.length (i - 1) hlt
    rw [hk] at hpn
    constructor
    · rw [hf, formalList, List.getElem?_zipWith, hpn, List.getD_eq_getElem?_getD,
        List.getElem?_eq_getElem hlt]
      rfl
    · rw [ha, List.getElem?_map, hpn]
      rfl
  · rw [ha]
    exact hnd.map (fun a b h => List.singleton_inj.1 h)
  · rw [hf, hnames]
    exact hnd.map (fun a b h => Option.some.inj h)
  · rw [ha]
    intro hm
    obtain ⟨x, hx, he⟩ := List.mem_map.1 hm
    rw [List.singleton_inj.1 he] at hx
    exact hsub hx
  · rw [hf, hnames]
    intro hm
    obtain ⟨x, hx, he⟩ := List.mem_map.1 hm
    rw [Option.some.inj he] at hx
    exact hsub hx

theorem positional_names_descend_witness :
    (1 ≤ [["Vector2"], ["int"]].length ∧ [["Vector2"], ["int"]].length ≤ 10 ∧ ∀ T ∈ [["Vector2"], ["int"]], isArg T = true) ∧
    (∃ formals actuals, _EXPAND_PARAM (joinArgs [["Vector2"], ["int"]]) = some formals ∧
      _EXPAND_ARG (joinArgs [["Vector2"], ["int"]]) = some actuals ∧
      (∀ i, 1 ≤ i → i ≤ [["Vector2"], ["int"]].length →
        (macroArgs formals)[i - 1]? =
          some ([["Vector2"], ["int"]].getD (i - 1) [] ++ ["_" ++ toString ([["Vector2"], ["int"]].length + 1 - i)]) ∧
        (macroArgs actuals)[i - 1]? = some ["_" ++ toString ([["Vector2"], ["int"]].length + 1 - i)]) ∧
      (macroArgs actuals).Nodup ∧ ((macroArgs formals).map paramName).Nodup ∧
      ["subject"] ∉ macroArgs actuals ∧ some "subject" ∉ (macroArgs formals).map paramName) :=
  ⟨by decide,
    positional_names_descend [["Vector2"], ["int"]] (by decide) (by decide)
      (by decide)⟩

/-- Claim C16.  On the triples whose subject and method are tokens without an
underscore and whose tag is empty or one token that begins with an underscore,
the naming is injective: two such triples with the same symbol are the same
triple. -/
theorem symbol_injective_without_underscore (s1 m1 s2 m2 : Tok) (t1 t2 : Arg)
    (hs1 : '_' ∉ s1.data) (hm1 : '_' ∉ m1.data) (hs2 : '_' ∉ s2.data) (hm2 : '_' ∉ m2.data)
    (ht1 : t1 = [] ∨ ∃ x, t1 = [x] ∧ x.data.head? = some '_')
    (ht2 : t2 = [] ∨ ∃ x, t2 = [x] ∧ x.data.head? = some '_')
    (h : symbol [s1] [m1] t1 = symbol [s2] [m2] t2) :
    s1 = s2 ∧ m1 = m2 ∧ t1 = t2 := by
  have key : ∀ (d1 d2 : List Char), (d1 = [] ∨ d1.head? = some '_') → (d2 = [] ∨ d2.head? = some '_') →
      s1.data ++ '_' :: (m1.data ++ d1) = s2.data ++ '_' :: (m2.data ++ d2) →
      s1 = s2 ∧ m1 = m2 ∧ d1 = d2 := by
    intro d1 d2 hd1 hd2 he
    obtain ⟨es, er⟩ := append_cons_inj '_' _ _ _ _ hs1 hs2 he
    refine ⟨String.ext es, ?_⟩
    rcases hd1 with rfl | hd1 <;> rcases hd2 with rfl | hd2
    · simp only [List.append_nil] at er
      exact ⟨String.ext er, rfl⟩
    · cases d2 with
      | nil => simp at hd2
      | cons c r =>
        simp only [List.head?_cons, Option.some.injEq] at hd2
        subst hd2
        simp only [List.append_nil] at er
        exact absurd (by rw [er]; simp) hm1
    · cases d1 with
      | nil => simp at hd1
      | cons c r =>
        simp only [List.head?_cons, Option.some.injEq] at hd1
        subst hd1
        simp only [List.append_nil] at er
        exact absurd (by rw [← er]; simp) hm2
    · cases d1 with
      | nil => simp at hd1
      | cons c r =>
        cases d2 with
        | nil => simp at hd2
        | cons c' r' =>
          simp only [List.head?_cons, Option.some.injEq] at hd1 hd2
          subst hd1
          subst hd2
          obtain ⟨em, e⟩ := append_cons_inj '_' _ _ _ _ hm1 hm2 er
          exact ⟨String.ext em, by rw [e]⟩
  rcases ht1 with rfl | ⟨x, rfl, hx⟩ <;> rcases ht2 with rfl | ⟨y, rfl, hy⟩
  · rw [symbol_untagged, symbol_untagged] at h
    have hd := congrArg String.data (List.singleton_inj.1 h)
    rw [data_symbol_untagged, data_symbol_untagged] at hd
    obtain ⟨e1, e2, _⟩ := key [] [] (Or.inl rfl) (Or.inl rfl) (by simpa using hd)
    exact ⟨e1, e2, rfl⟩
  · rw [symbol_untagged, symbol_tagged] at h
    have hd := congrArg String.data (List.singleton_inj.1 h)
    rw [data_symbol_untagged, data_symbol_tagged] at hd
    obtain ⟨_, _, e3⟩ := key [] y.data (Or.inl rfl) (Or.inr hy) (by simpa using hd)
    rw [← e3] at hy
    simp at hy
  · rw [symbol_tagged, symbol_untagged] at h
    have hd := congrArg String.data (List.singleton_inj.1 h)
    rw [data_symbol_untagged, data_symbol_tagged] at hd
    obtain ⟨_, _, e3⟩ := key x.data [] (Or.inr hx) (Or.inl rfl) (by simpa using hd)
    rw [e3] at hx
    simp at hx
  · rw [symbol_tagged, symbol_tagged] at h
    have hd := congrArg String.data (List.singleton_inj.1 h)
    rw [data_symbol_tagged, data_symbol_tagged] at hd
    obtain ⟨e1, e2, e3⟩ := key x.data y.data (Or.inr hx) (Or.inr hy) hd
    exact ⟨e1, e2, by rw [String.ext e3]⟩

theorem symbol_injective_without_underscore_witness :
    ('_' ∉ "IConfig".data ∧ '_' ∉ "removeBan".data ∧ '_' ∉ "IConfig".data ∧
      '_' ∉ "removeBan".data ∧
      ((["_index"] : Arg) = [] ∨ ∃ x, (["_index"] : Arg) = [x] ∧ x.data.head? = some '_') ∧
      ((["_index"] : Arg) = [] ∨ ∃ x, (["_index"] : Arg) = [x] ∧ x.data.head? = some '_') ∧
      symbol ["IConfig"] ["removeBan"] ["_index"] = symbol ["IConfig"] ["removeBan"] ["_index"]) ∧
    ("IConfig" = "IConfig" ∧ "removeBan" = "removeBan" ∧ (["_index"] : Arg) = ["_index"]) :=
  ⟨⟨by decide, by decide, by decide, by decide, Or.inr ⟨"_index", rfl, by decide⟩,
      Or.inr ⟨"_index", rfl, by decide⟩, rfl⟩,
    symbol_injective_without_underscore "IConfig" "removeBan" "IConfig" "removeBan" ["_index"]
      ["_index"] (by decide) (by decide) (by decide) (by decide)
      (Or.inr ⟨"_index", rfl, by decide⟩) (Or.inr ⟨"_index", rfl, by decide⟩) rfl⟩

/-- Claim C17.  The naming is not injective on arbitrary identifiers: the
declarations `PROXY_OVERLOAD(A, void, b, _c)` and `PROXY(A, void, b_c)` have
different triples, `(A, b, _c)` and `(A, b_c, )`, and both expand to a function
named `A_b_c`.  A table of these two lines has pairwise distinct triples and
yet defines one symbol twice, and is rejected by `generate`. -/
theorem symbol_not_injective :
    (Declaration.overload ["A", ",", "void", ",", "b", ",", "_c"]).triple = (["A"], ["b"], ["_c"]) ∧
    (Declaration.proxy ["A", ",", "void", ",", "b_c"]).triple = (["A"], ["b_c"], []) ∧
    (Declaration.overload ["A", ",", "void", ",", "b", ",", "_c"]).triple ≠
      (Declaration.proxy ["A", ",", "void", ",", "b_c"]).triple ∧
    (PROXY_OVERLOAD ["A", ",", "void", ",", "b", ",", "_c"]).map (fun f => f.name) =
      some ["A_b_c"] ∧
    (PROXY ["A", ",", "void", ",", "b_c"]).map (fun f => f.name) = some ["A_b_c"] ∧
    ([Declaration.overload ["A", ",", "void", ",", "b", ",", "_c"],
      Declaration.proxy ["A", ",", "void", ",", "b_c"]].map Declaration.triple).Nodup ∧
    (expandTable [Declaration.overload ["A", ",", "void", ",", "b", ",", "_c"],
      Declaration.proxy ["A", ",", "void", ",", "b_c"]]).map (fun defs => defs.map fun f => f.name) =
      some [["A_b_c"], ["A_b_c"]] ∧
    generate [Declaration.overload ["A", ",", "void", ",", "b", ",", "_c"],
      Declaration.proxy ["A", ",", "void", ",", "b_c"]] = none := by
  decide

/-- Claim C18.  The counting step never selects the marker 0.  Whatever
arguments it is applied to, the marker 0 of the padding is the last of the
arguments after the eleventh, which the step discards.  Applied to an empty
type list, `_EXPAND_PARAM_N(,10,9,8,7,6,5,4,3,2,1,0)` selects 1, the empty
argument taking the first place; applied to 1 to 10 types it selects a marker
from 1 to 10.  A declaration without types is handled by `__VA_OPT__` alone:
its replacement is empty whatever stands in it, and `PROXY_OVERLOAD` writes the
parameter list `S * subject` and a call without arguments. -/
theorem counting_step_never_selects_zero (S R m t : Arg) (Ts : List Arg)
    (hS : isArg S = true) (hR : isArg R = true) (hm : isArg m = true) (ht : isArg t = true)
    (hTs : ∀ T ∈ Ts, isArg T = true) :
    (∃ rest, (macroArgs (joinArgs Ts ++ padding)).drop 11 = rest ++ [["0"]]) ∧
    _EXPAND_PARAM_N (joinArgs [] ++ padding) = some ["_EXPAND_PARAM1"] ∧
    _EXPAND_ARG_N (joinArgs [] ++ padding) = some ["_EXPAND_ARG1"] ∧
    (1 ≤ Ts.length → Ts.length ≤ 10 → ∃ k, 1 ≤ k ∧ k ≤ 10 ∧
      _EXPAND_PARAM_N (joinArgs Ts ++ padding) = some ["_EXPAND_PARAM" ++ toString k] ∧
      _EXPAND_ARG_N (joinArgs Ts ++ padding) = some ["_EXPAND_ARG" ++ toString k] ∧
      _EXPAND_PARAM_N (joinArgs Ts ++ padding) ≠ some ["_EXPAND_PARAM0"] ∧
      _EXPAND_ARG_N (joinArgs Ts ++ padding) ≠ some ["_EXPAND_ARG0"]) ∧
    (∀ content, __VA_OPT__ [] content = some []) ∧
    PROXY_OVERLOAD (joinArgs [S, R, m, t]) = some
      { returnType := R, name := symbol S m t, params := S ++ ["*", "subject"], callee := m,
        args := [] } := by
  refine ⟨zero_marker_in_remainder Ts hTs, counting_step_nil.1, counting_step_nil.2, ?_,
    fun _ => rfl, ?_⟩
  · intro h1 h10
    obtain ⟨hp, ha⟩ := counting_step_le_ten Ts h1 h10 hTs
    have hne : ∀ n, 1 ≤ n → n ≤ 10 → "_EXPAND_PARAM" ++ toString n ≠ "_EXPAND_PARAM0" ∧
        "_EXPAND_ARG" ++ toString n ≠ "_EXPAND_ARG0" := by decide
    refine ⟨Ts.length, h1, h10, hp, ha, ?_, ?_⟩
    · rw [hp]
      intro h
      exact (hne Ts.length h1 h10).1 (List.singleton_inj.1 (Option.some.inj h))
    · rw [ha]
      intro h
      exact (hne Ts.length h1 h10).2 (List.singleton_inj.1 (Option.some.inj h))
  · have h4 : ∀ b ∈ [S, R, m, t], isArg b = true := by
      intro b hb
      simp only [List.mem_cons, List.mem_singleton, List.not_mem_nil, or_false] at hb
      rcases hb with rfl | rfl | rfl | rfl
      · exact hS
      · exact hR
      · exact hm
      · exact ht
    rw [PROXY_OVERLOAD_bind S R m t [] h4]
    simp [joinArgs, __VA_OPT__]

theorem counting_step_never_selects_zero_witness :
    (isArg ["IActorsComponent"] = true ∧ isArg ["IActor", "*"] = true ∧ isArg ["create"] = true ∧
      isArg [] = true ∧ ∀ T ∈ [["int"], ["Vector3"], ["float"]], isArg T = true) ∧
    ((∃ rest, (macroArgs (joinArgs [["int"], ["Vector3"], ["float"]] ++ padding)).drop 11 = rest ++ [["0"]]) ∧
    _EXPAND_PARAM_N (joinArgs [] ++ padding) = some ["_EXPAND_PARAM1"] ∧
    _EXPAND_ARG_N (joinArgs [] ++ padding) = some ["_EXPAND_ARG1"] ∧
    (1 ≤ [["int"], ["Vector3"], ["float"]].length → [["int"], ["Vector3"], ["float"]].length ≤ 10 → ∃ k, 1 ≤ k ∧ k ≤ 10 ∧
      _EXPAND_PARAM_N (joinArgs [["int"], ["Vector3"], ["float"]] ++ padding) = some ["_EXPAND_PARAM" ++ toString k] ∧
      _EXPAND_ARG_N (joinArgs [["int"], ["Vector3"], ["float"]] ++ padding) = some ["_EXPAND_ARG" ++ toString k] ∧
      _EXPAND_PARAM_N (joinArgs [["int"], ["Vector3"], ["float"]] ++ padding) ≠ some ["_EXPAND_PARAM0"] ∧
      _EXPAND_ARG_N (joinArgs [["int"], ["Vector3"], ["float"]] ++ padding) ≠ some ["_EXPAND_ARG0"]) ∧
    (∀ content, __VA_OPT__ [] content = some []) ∧
    PROXY_OVERLOAD (joinArgs [["IActorsComponent"], ["IActor", "*"], ["create"], ([] : Arg)]) = some
      { returnType := ["IActor", "*"], name := symbol ["IActorsComponent"] ["create"] ([] : Arg), params := ["IActorsComponent"] ++ ["*", "subject"], callee := ["create"],
        args := [] }) :=
  ⟨by decide,
    counting_step_never_selects_zero ["IActorsComponent"] ["IActor", "*"] ["create"] []
      [["int"], ["Vector3"], ["float"]] (by decide) (by decide) (by decide) (by decide) (by decide)⟩

end Proxies
